import Mathlib

/-!
# Task dispatch / transport subsystem of `projectmaster`

A shallow embedding of `Backend/services/taskService.js` (`createTask`,
`updateTask`, the two dispatch tables) and `Backend/handlers/transportHandler.js`
(`handleTransport`, `handleTransportUpdate`) over an explicit model of the five
collections they touch.

Conventions of the embedding

* A collection is a `List` of documents in insertion order; `findOne` and
  `updateOne` act on the first document that matches the filter.
* A JavaScript value that may be `undefined` is an `Option`.
* A transaction is a pair of stores: `committed` (what a reader outside the
  session sees) and `working` (what the session sees).  An operation issued with
  `{ session }` acts on `working`; one issued without it reads `committed`.
  `commitTransaction` publishes `working`; a transaction that is not committed
  leaves `committed` as it was.
* `await` is sequencing; a rejected promise is `Except.error`.  The three
  `deleteMany` of `Promise.all` are taken in the order they are written.
* Every `new Date()` of one call reads the same clock value `now`.
* A number is a double: `lastFleetTask.id + 1` and `10000 + r * 90000` are
  rounded as the section on JavaScript numbers describes.
* A `$set` writes the paths that have a value; a path whose value is `undefined`
  is left as stored.
* The environment `Env` supplies what the code takes from outside: the clock
  (`new Date()`), the random source (`Math.random()`) and, per store operation,
  whether the store rejects it (`fault`).
-/

namespace ProjectMaster

/-! ## Data model -/

/-- Keys of the dispatch tables `taskHandlers` / `updateHandlers`
(taskService.js lines 5-28). -/
inductive TaskType where
  | TRANSPORT
  | WORK
  | MATERIAL
  | TOOL
  | INSPECTION
  | MAINTENANCE
  | ADMIN
  | TRAINING
  | OTHER
  deriving DecidableEq, Repr

/-- One entry of `data.materialQuantities`. -/
structure MaterialQuantity where
  materialId : Nat
  quantity : Nat
  deriving DecidableEq, Repr

/-- One entry of `data.toolQuantities`. -/
structure ToolQuantity where
  toolId : Nat
  quantity : Nat
  deriving DecidableEq, Repr

/-- The `additionalData` payload as the transport handler reads it: every
property the handler dereferences, each possibly `undefined`. -/
structure TransportData where
  driverId : Option Nat
  vehicleId : Option Nat
  transportType : Option String
  pickupLocation : Option String
  dropLocation : Option String
  pickupTime : Option String
  dropTime : Option String
  companyId : Option Nat
  projectId : Option Nat
  createdBy : Option Nat
  workers : Option (List Nat)
  materialQuantities : Option (List MaterialQuantity)
  toolQuantities : Option (List ToolQuantity)
  deriving DecidableEq, Repr

/-- Modelled from the spec: `models/Task.js` is not among the sources.  A stored
Task has the fields of spec section 3: `id`, `taskType`, the generic descriptive
fields, `additionalData` and the nullable back-reference `transportTaskId`;
`updatedAt` is the field `updateTask` sets. -/
structure Task where
  id : Nat
  taskType : TaskType
  taskName : Option String
  description : Option String
  startDate : Option String
  endDate : Option String
  status : Option String
  updatedAt : Option Nat
  additionalData : Option TransportData
  transportTaskId : Option Nat
  deriving DecidableEq, Repr

/-- The payload `taskData` of `createTask`: a task type, the generic fields, the
raw `additionalData`, and possibly an `id` put there by the caller. -/
structure TaskData where
  id : Option Nat
  taskType : TaskType
  taskName : Option String
  description : Option String
  startDate : Option String
  endDate : Option String
  status : Option String
  additionalData : Option TransportData
  deriving DecidableEq, Repr

/-- The payload `updates` of `updateTask`.  `taskType` is a property a caller may
send; `updateTask` never reads it. -/
structure Updates where
  taskType : Option TaskType
  taskName : Option String
  description : Option String
  startDate : Option String
  endDate : Option String
  status : Option String
  additionalData : Option TransportData
  deriving DecidableEq, Repr

/-- Modelled from the spec: `models/FleetTask.js` is not among the sources.  The
fields are those written by `handleTransport` (transportHandler.js lines 14-33);
`taskId` is optional because rows created through `routes/fleetTaskRoutes.js`
carry none. -/
structure FleetTask where
  id : Nat
  taskId : Option Nat
  driverId : Option Nat
  vehicleId : Option Nat
  transportType : Option String
  pickupLocation : Option String
  dropLocation : Option String
  pickupTime : Option String
  dropTime : Option String
  companyId : Option Nat
  projectId : Option Nat
  taskDate : Option Nat
  plannedPickupTime : Option String
  plannedDropTime : Option String
  status : Option String
  createdBy : Option Nat
  createdAt : Option Nat
  updatedAt : Option Nat
  deriving DecidableEq, Repr

/-- A stored document of `models/FleetTaskPassenger.js`: the four required paths
hold a value, `status` and `createdAt` have their defaults applied. -/
structure FleetTaskPassenger where
  id : Nat
  companyId : Nat
  fleetTaskId : Nat
  workerEmployeeId : Nat
  pickupConfirmedAt : Option Nat
  dropConfirmedAt : Option Nat
  status : String
  notes : Option String
  createdAt : Nat
  deriving DecidableEq, Repr

/-- An object handed to `FleetTaskPassenger.insertMany`, before validation: any
path of the schema may be missing. -/
structure PassengerDoc where
  id : Option Nat
  companyId : Option Nat
  fleetTaskId : Option Nat
  workerEmployeeId : Option Nat
  pickupConfirmedAt : Option Nat
  dropConfirmedAt : Option Nat
  status : Option String
  notes : Option String
  createdAt : Option Nat
  deriving DecidableEq, Repr

/-- Modelled from the spec: `models/FleetTaskMaterial.js` is not among the
sources.  A row is `{fleetTaskId, materialId, quantity}` (spec section 3). -/
structure FleetTaskMaterial where
  fleetTaskId : Nat
  materialId : Nat
  quantity : Nat
  deriving DecidableEq, Repr

/-- Modelled from the spec: `models/FleetTaskTool.js` is not among the sources.
A row is `{fleetTaskId, toolId, quantity}` (spec section 3). -/
structure FleetTaskTool where
  fleetTaskId : Nat
  toolId : Nat
  quantity : Nat
  deriving DecidableEq, Repr

/-- The five collections. -/
structure Store where
  tasks : List Task
  fleetTasks : List FleetTask
  passengers : List FleetTaskPassenger
  materials : List FleetTaskMaterial
  tools : List FleetTaskTool
  deriving DecidableEq, Repr

/-- A transaction in progress. -/
structure Txn where
  committed : Store
  working : Store
  deriving DecidableEq, Repr

/-- The store operations the two services issue. -/
inductive Op where
  | taskCreate
  | taskUpdateOne
  | taskFindOneAndUpdate
  | fleetTaskFindLast
  | fleetTaskFindOne
  | fleetTaskCreate
  | fleetTaskUpdateOne
  | passengerInsertMany
  | materialInsertMany
  | toolInsertMany
  | passengerDeleteMany
  | materialDeleteMany
  | toolDeleteMany
  | commitTransaction
  deriving DecidableEq, Repr

/-- What a rejected promise carries. -/
inductive Error where
  | storeFault (op : Op)
  | validationError
  | duplicateKey
  | typeError
  | jsError (message : String)
  deriving DecidableEq, Repr

/-- What the code takes from its environment during one call. `randNum / randDen`
is the value of `Math.random()`, a double; `fault op` says that the store rejects
`op`. -/
structure Env where
  now : Nat
  randNum : Nat
  randDen : Nat
  fault : Op → Bool

instance instDecidableEqExcept {ε α : Type} [DecidableEq ε] [DecidableEq α] :
    DecidableEq (Except ε α) := fun a b =>
  match a, b with
  | .ok x, .ok y => if h : x = y then isTrue (by rw [h]) else isFalse (by intro hh; cases hh; exact h rfl)
  | .error x, .error y =>
    if h : x = y then isTrue (by rw [h]) else isFalse (by intro hh; cases hh; exact h rfl)
  | .ok _, .error _ => isFalse (by intro hh; cases hh)
  | .error _, .ok _ => isFalse (by intro hh; cases hh)

/-! ## JavaScript numbers

A JavaScript number is a double.  The non-negative doubles are the values
`m / 2^k` and `m * 2^k` with `m < 2^53`; an arithmetic operation gives the exact
result rounded to the nearest of them, a tie going to the even `m`.  A value is
kept as a fraction `(numerator, denominator)`.  Overflow and the subnormal range
lie outside the values these programs compute. -/

/-- The integer nearest to `n / d`, a tie going to the even one. -/
def roundHalfEven (n d : Nat) : Nat :=
  let q := n / d
  let r := n % d
  if 2 * r < d then q
  else if d < 2 * r then q + 1
  else if q % 2 = 0 then q else q + 1

/-- The number of binary digits of `n`, counted with at most `fuel` halvings. -/
def bitsAux : Nat → Nat → Nat
  | 0, _ => 0
  | fuel + 1, n => if n = 0 then 0 else bitsAux fuel (n / 2) + 1

/-- The number of binary digits of `n`. -/
def bitLength (n : Nat) : Nat := bitsAux n n

/-- The factor `a / b`, a power of two, that brings `n / d` into the range
`2^52 ≤ x < 2^53` of the 53-bit significands. -/
def binade (n d : Nat) : Nat × Nat :=
  if d ≤ n then
    if bitLength (n / d) ≤ 53 then (2 ^ (53 - bitLength (n / d)), 1)
    else (1, 2 ^ (bitLength (n / d) - 53))
  else (2 ^ (bitLength ((d - 1) / n) + 52), 1)

/-- The double nearest to `n / d`, as a fraction. -/
def roundDouble (n d : Nat) : Nat × Nat :=
  if n = 0 then (0, 1)
  else (roundHalfEven (n * (binade n d).1) (d * (binade n d).2) * (binade n d).2, (binade n d).1)

/-- `n + 1` for a stored integer `n`: the double nearest to the sum, an integer
again. -/
def jsSucc (n : Nat) : Nat :=
  (roundDouble (n + 1) 1).1 / (roundDouble (n + 1) 1).2

/-- The fraction `n / d` is a double: `m / 2^k` or `m * 2^k` with `m < 2^53`. -/
def IsDouble (n d : Nat) : Prop :=
  0 < d ∧ ∃ m k, m < 2 ^ 53 ∧ (n * 2 ^ k = m * d ∨ n = m * 2 ^ k * d)

/-! ## Store operations -/

/-- Apply `f` to the first element that satisfies `p` (`updateOne`). -/
def updateFirst {α : Type} (p : α → Bool) (f : α → α) : List α → List α
  | [] => []
  | x :: xs => if p x then f x :: xs else x :: updateFirst p f xs

/-- The store rejects `op` when the environment says so. -/
def storeOp (env : Env) (op : Op) : Except Error Unit :=
  if env.fault op then .error (.storeFault op) else .ok ()

/-- The document `Task.create` builds from the payload once `taskData.id = id`
has been executed. -/
def TaskData.toTask (taskData : TaskData) (id : Nat) : Task :=
  { id := id
    taskType := taskData.taskType
    taskName := taskData.taskName
    description := taskData.description
    startDate := taskData.startDate
    endDate := taskData.endDate
    status := taskData.status
    updatedAt := none
    additionalData := taskData.additionalData
    transportTaskId := none }

/-- Modelled from the spec: `models/Task.js` is not among the sources; spec
section 3 makes `id` a unique identifier and section 4.1 lets a colliding insert
fail with a store error.  `Task.create([doc], { session })`. -/
def Task.create (env : Env) (doc : Task) (t : Txn) : Except Error (Txn × Task) := do
  storeOp env .taskCreate
  if t.working.tasks.any (fun x => x.id == doc.id) then
    throw .duplicateKey
  else
    pure ({ t with working := { t.working with tasks := t.working.tasks ++ [doc] } }, doc)

/-- `Task.updateOne({ id: taskId }, { $set: { transportTaskId: result } }, { session })`. -/
def Task.updateOne (env : Env) (taskId : Nat) (result : Nat) (t : Txn) : Except Error Txn := do
  storeOp env .taskUpdateOne
  pure { t with working := { t.working with
    tasks := updateFirst (fun x => x.id == taskId)
      (fun x => { x with transportTaskId := some result }) t.working.tasks } }

/-- One path of a `$set` document.  Mongoose drops a path whose value is
`undefined` from the update it sends, so the stored value of that path stays;
a path with a value is assigned it. -/
def setPath {α : Type} (value stored : Option α) : Option α :=
  match value with
  | some v => some v
  | none => stored

/-- The `$set` of `updateTask` (taskService.js lines 78-86): each listed path the
payload gives a value is assigned it, `updatedAt` is the clock value. -/
def Task.setCore (env : Env) (updates : Updates) (x : Task) : Task :=
  { x with
    taskName := setPath updates.taskName x.taskName
    description := setPath updates.description x.description
    startDate := setPath updates.startDate x.startDate
    endDate := setPath updates.endDate x.endDate
    status := setPath updates.status x.status
    updatedAt := some env.now
    additionalData := setPath updates.additionalData x.additionalData }

/-- `Task.findOneAndUpdate({ id: taskId }, { $set: ... }, { new: true, session })`:
the updated document, or `null` when no document matches. -/
def Task.findOneAndUpdate (env : Env) (taskId : Nat) (updates : Updates) (t : Txn) :
    Except Error (Txn × Option Task) := do
  storeOp env .taskFindOneAndUpdate
  match t.working.tasks.find? (fun x => x.id == taskId) with
  | none => pure (t, none)
  | some x =>
    pure ({ t with working := { t.working with
      tasks := updateFirst (fun y => y.id == taskId) (Task.setCore env updates) t.working.tasks } },
      some (Task.setCore env updates x))

/-- The document with the greatest `id` (`sort({ id: -1 })`, first result). -/
def maxById : List FleetTask → Option FleetTask
  | [] => none
  | x :: xs =>
    match maxById xs with
    | none => some x
    | some y => if y.id ≤ x.id then some x else some y

/-- `FleetTask.findOne().sort({ id: -1 })`, issued without a session: it reads
the committed collection. -/
def FleetTask.findLast (env : Env) (t : Txn) : Except Error (Option FleetTask) := do
  storeOp env .fleetTaskFindLast
  pure (maxById t.committed.fleetTasks)

/-- `FleetTask.findOne({ taskId: taskId }).session(session)`. -/
def FleetTask.findOne (env : Env) (taskId : Nat) (t : Txn) : Except Error (Option FleetTask) := do
  storeOp env .fleetTaskFindOne
  pure (t.working.fleetTasks.find? (fun f => f.taskId == some taskId))

/-- Modelled from the spec: `models/FleetTask.js` is not among the sources; spec
section 3 makes `id` a unique integer.  `FleetTask.create([doc], { session })`. -/
def FleetTask.create (env : Env) (doc : FleetTask) (t : Txn) :
    Except Error (Txn × FleetTask) := do
  storeOp env .fleetTaskCreate
  if t.working.fleetTasks.any (fun x => x.id == doc.id) then
    throw .duplicateKey
  else
    pure ({ t with working := { t.working with fleetTasks := t.working.fleetTasks ++ [doc] } }, doc)

/-- The `$set` of `handleTransportUpdate` (transportHandler.js lines 114-127): each
listed path the payload gives a value is assigned it, `updatedAt` is the clock
value. -/
def FleetTask.setFields (env : Env) (data : TransportData) (f : FleetTask) : FleetTask :=
  { f with
    driverId := setPath data.driverId f.driverId
    vehicleId := setPath data.vehicleId f.vehicleId
    transportType := setPath data.transportType f.transportType
    pickupLocation := setPath data.pickupLocation f.pickupLocation
    dropLocation := setPath data.dropLocation f.dropLocation
    pickupTime := setPath data.pickupTime f.pickupTime
    dropTime := setPath data.dropTime f.dropTime
    companyId := setPath data.companyId f.companyId
    projectId := setPath data.projectId f.projectId
    plannedPickupTime := setPath data.pickupTime f.plannedPickupTime
    plannedDropTime := setPath data.dropTime f.plannedDropTime
    updatedAt := some env.now }

/-- `FleetTask.updateOne({ id: id }, { $set: ... }, { session })`. -/
def FleetTask.updateOne (env : Env) (id : Nat) (data : TransportData) (t : Txn) :
    Except Error Txn := do
  storeOp env .fleetTaskUpdateOne
  pure { t with working := { t.working with
    fleetTasks := updateFirst (fun f => f.id == id) (FleetTask.setFields env data)
      t.working.fleetTasks } }

/-- Schema validation of `models/FleetTaskPassenger.js`: `id`, `companyId`,
`fleetTaskId` and `workerEmployeeId` are `required`; `status` defaults to
`'PLANNED'` and must be in the enum; `createdAt` defaults to `Date.now`. -/
def PassengerDoc.validate (env : Env) (d : PassengerDoc) : Option FleetTaskPassenger :=
  match d.id, d.companyId, d.fleetTaskId, d.workerEmployeeId with
  | some i, some c, some f, some w =>
    if d.status.getD "PLANNED" ∈ ["PLANNED", "PICKED", "DROPPED", "ABSENT"] then
      some
        { id := i
          companyId := c
          fleetTaskId := f
          workerEmployeeId := w
          pickupConfirmedAt := d.pickupConfirmedAt
          dropConfirmedAt := d.dropConfirmedAt
          status := d.status.getD "PLANNED"
          notes := d.notes
          createdAt := d.createdAt.getD env.now }
    else none
  | _, _, _, _ => none

/-- Validation of every document of an `insertMany` call, in order. -/
def validateAll (env : Env) : List PassengerDoc → Option (List FleetTaskPassenger)
  | [] => some []
  | d :: ds =>
    match PassengerDoc.validate env d, validateAll env ds with
    | some r, some rs => some (r :: rs)
    | _, _ => none

/-- `FleetTaskPassenger.insertMany(docs, { session })`.  Every document is
validated before anything is sent to the store: one invalid document rejects the
call and nothing is saved.  `id` carries a unique index. -/
def FleetTaskPassenger.insertMany (env : Env) (docs : List PassengerDoc) (t : Txn) :
    Except Error Txn :=
  match validateAll env docs with
  | none => .error .validationError
  | some rows => do
    storeOp env .passengerInsertMany
    if ¬ ((t.working.passengers ++ rows).map (fun r => r.id)).Nodup then
      throw .duplicateKey
    else
      pure { t with working := { t.working with passengers := t.working.passengers ++ rows } }

/-- `FleetTaskMaterial.insertMany(materials, { session })`. -/
def FleetTaskMaterial.insertMany (env : Env) (rows : List FleetTaskMaterial) (t : Txn) :
    Except Error Txn := do
  storeOp env .materialInsertMany
  pure { t with working := { t.working with materials := t.working.materials ++ rows } }

/-- `FleetTaskTool.insertMany(tools, { session })`. -/
def FleetTaskTool.insertMany (env : Env) (rows : List FleetTaskTool) (t : Txn) :
    Except Error Txn := do
  storeOp env .toolInsertMany
  pure { t with working := { t.working with tools := t.working.tools ++ rows } }

/-- `FleetTaskPassenger.deleteMany({ fleetTaskId: id }).session(session)`. -/
def FleetTaskPassenger.deleteMany (env : Env) (id : Nat) (t : Txn) : Except Error Txn := do
  storeOp env .passengerDeleteMany
  pure { t with working := { t.working with
    passengers := t.working.passengers.filter (fun r => r.fleetTaskId != id) } }

/-- `FleetTaskMaterial.deleteMany({ fleetTaskId: id }).session(session)`. -/
def FleetTaskMaterial.deleteMany (env : Env) (id : Nat) (t : Txn) : Except Error Txn := do
  storeOp env .materialDeleteMany
  pure { t with working := { t.working with
    materials := t.working.materials.filter (fun r => r.fleetTaskId != id) } }

/-- `FleetTaskTool.deleteMany({ fleetTaskId: id }).session(session)`. -/
def FleetTaskTool.deleteMany (env : Env) (id : Nat) (t : Txn) : Except Error Txn := do
  storeOp env .toolDeleteMany
  pure { t with working := { t.working with
    tools := t.working.tools.filter (fun r => r.fleetTaskId != id) } }

/-- `session.commitTransaction()`. -/
def commitTransaction (env : Env) (t : Txn) : Except Error Txn := do
  storeOp env .commitTransaction
  pure { committed := t.working, working := t.working }

/-! ## transportHandler.js -/

/-- Reading a property of `data` (`data.driverId`, ...): a `TypeError` when
`data` is `undefined`. -/
def requireData (data : Option TransportData) : Except Error TransportData :=
  match data with
  | some d => .ok d
  | none => .error .typeError

/-- The truth value of `arr && arr.length`. -/
def truthyArray {α : Type} : Option (List α) → Bool
  | some (_ :: _) => true
  | _ => false

/-- The object literal handed to `FleetTask.create` (transportHandler.js lines
14-33 and, identically, 85-104). -/
def newFleetTask (env : Env) (newFleetTaskId taskId : Nat) (data : TransportData) : FleetTask :=
  { id := newFleetTaskId
    taskId := some taskId
    driverId := data.driverId
    vehicleId := data.vehicleId
    transportType := data.transportType
    pickupLocation := data.pickupLocation
    dropLocation := data.dropLocation
    pickupTime := data.pickupTime
    dropTime := data.dropTime
    companyId := data.companyId
    projectId := data.projectId
    taskDate := some env.now
    plannedPickupTime := data.pickupTime
    plannedDropTime := data.dropTime
    status := some "PLANNED"
    createdBy := data.createdBy
    createdAt := some env.now
    updatedAt := some env.now }

/-- The object `{ fleetTaskId, workerEmployeeId: empId }` built for one worker. -/
def passengerOf (fleetTaskId empId : Nat) : PassengerDoc :=
  { id := none
    companyId := none
    fleetTaskId := some fleetTaskId
    workerEmployeeId := some empId
    pickupConfirmedAt := none
    dropConfirmedAt := none
    status := none
    notes := none
    createdAt := none }

/-- The block "Worker passengers" (transportHandler.js lines 38-44, 140-146). -/
def insertPassengers (env : Env) (data : TransportData) (fleetTaskId : Nat) (t : Txn) :
    Except Error Txn :=
  if data.transportType == some "WORKER_TRANSPORT" && truthyArray data.workers then
    FleetTaskPassenger.insertMany env
      ((data.workers.getD []).map (fun empId => passengerOf fleetTaskId empId)) t
  else pure t

/-- The block "Materials" (transportHandler.js lines 47-54, 148-155). -/
def insertMaterials (env : Env) (data : TransportData) (fleetTaskId : Nat) (t : Txn) :
    Except Error Txn :=
  if data.transportType == some "MATERIAL_TRANSPORT" && truthyArray data.materialQuantities then
    FleetTaskMaterial.insertMany env
      ((data.materialQuantities.getD []).map (fun material =>
        { fleetTaskId := fleetTaskId
          materialId := material.materialId
          quantity := material.quantity })) t
  else pure t

/-- The block "Tools" (transportHandler.js lines 57-64, 157-164). -/
def insertTools (env : Env) (data : TransportData) (fleetTaskId : Nat) (t : Txn) :
    Except Error Txn :=
  if data.transportType == some "TOOL_TRANSPORT" && truthyArray data.toolQuantities then
    FleetTaskTool.insertMany env
      ((data.toolQuantities.getD []).map (fun tool =>
        { fleetTaskId := fleetTaskId
          toolId := tool.toolId
          quantity := tool.quantity })) t
  else pure t

/-- The three guarded `insertMany` blocks in sequence (transportHandler.js lines
37-64 and, with `fleetTask.id` for `fleetTaskId`, lines 139-164). -/
def insertChildren (env : Env) (data : TransportData) (fleetTaskId : Nat) (t : Txn) :
    Except Error Txn := do
  let t1 ← insertPassengers env data fleetTaskId t
  let t2 ← insertMaterials env data fleetTaskId t1
  insertTools env data fleetTaskId t2

/-- `lastFleetTask ? lastFleetTask.id + 1 : 1`, the sum being a double addition. -/
def nextFleetTaskId (lastFleetTask : Option FleetTask) : Nat :=
  match lastFleetTask with
  | some f => jsSucc f.id
  | none => 1

/-- `handleTransport(taskId, data, session)`; the `catch` only logs and rethrows. -/
def handleTransport (env : Env) (taskId : Nat) (data : Option TransportData) (t : Txn) :
    Except Error (Txn × Nat) := do
  let lastFleetTask ← FleetTask.findLast env t
  let newFleetTaskId := nextFleetTaskId lastFleetTask
  let d ← requireData data
  let (t1, fleetTask) ← FleetTask.create env (newFleetTask env newFleetTaskId taskId d) t
  let fleetTaskId := fleetTask.id
  let t2 ← insertChildren env d fleetTaskId t1
  pure (t2, fleetTask.id)

/-- `handleTransportUpdate(taskId, data, session)`; the `catch` only logs and
rethrows. -/
def handleTransportUpdate (env : Env) (taskId : Nat) (data : Option TransportData) (t : Txn) :
    Except Error (Txn × Nat) := do
  let found ← FleetTask.findOne env taskId t
  match found with
  | none =>
    let lastFleetTask ← FleetTask.findLast env t
    let newFleetTaskId := nextFleetTaskId lastFleetTask
    let d ← requireData data
    let (t1, fleetTask) ← FleetTask.create env (newFleetTask env newFleetTaskId taskId d) t
    pure (t1, fleetTask.id)
  | some fleetTask =>
    let d ← requireData data
    let t1 ← FleetTask.updateOne env fleetTask.id d t
    let t2 ← FleetTaskPassenger.deleteMany env fleetTask.id t1
    let t3 ← FleetTaskMaterial.deleteMany env fleetTask.id t2
    let t4 ← FleetTaskTool.deleteMany env fleetTask.id t3
    let t5 ← insertChildren env d fleetTask.id t4
    pure (t5, fleetTask.id)

/-! ## taskService.js -/

/-- The type of an entry of a dispatch table. -/
abbrev Handler := Env → Nat → Option TransportData → Txn → Except Error (Txn × Nat)

/-- The table `taskHandlers` (taskService.js lines 5-16). -/
def taskHandlers : TaskType → Option Handler
  | .TRANSPORT => some handleTransport
  | .WORK => none
  | .MATERIAL => none
  | .TOOL => none
  | .INSPECTION => none
  | .MAINTENANCE => none
  | .ADMIN => none
  | .TRAINING => none
  | .OTHER => none

/-- The table `updateHandlers` (taskService.js lines 17-28). -/
def updateHandlers : TaskType → Option Handler
  | .TRANSPORT => some handleTransportUpdate
  | .WORK => none
  | .MATERIAL => none
  | .TOOL => none
  | .INSPECTION => none
  | .MAINTENANCE => none
  | .ADMIN => none
  | .TRAINING => none
  | .OTHER => none

/-- The block "Delegate to specific handler based on task type" (taskService.js lines
44-55 and, with `updatedTask.taskType`, lines 94-105): look the handler up; when
there is one, run it and, for a TRANSPORT task with a truthy result, patch
`transportTaskId`. -/
def delegate (handlers : TaskType → Option Handler) (env : Env) (taskType : TaskType)
    (taskId : Nat) (data : Option TransportData) (t : Txn) : Except Error Txn :=
  match handlers taskType with
  | some handler => do
    let (t1, result) ← handler env taskId data t
    if taskType = .TRANSPORT ∧ result ≠ 0 then
      Task.updateOne env taskId result t1
    else pure t1
  | none => pure t

/-- `Math.floor(10000 + Math.random() * 90000)` for `Math.random() = randNum / randDen`:
the product is rounded to a double, then the sum is, and the floor of a double is
exact. -/
def generateTaskId (env : Env) : Nat :=
  let product := roundDouble (env.randNum * 90000) env.randDen
  let sum := roundDouble (10000 * product.2 + product.1) product.2
  sum.1 / sum.2

/-- `session.abortTransaction()`.  The driver marks the transaction as committed
when `commitTransaction` is called, before the command is sent; from then on,
also after a commit that failed, `abortTransaction` throws instead of aborting. -/
def abortTransaction (commitCalled : Bool) : Except Error Unit :=
  if commitCalled then
    .error (.jsError "Cannot call abortTransaction after calling commitTransaction")
  else .ok ()

/-- The `catch` of `createTask` and `updateTask` (taskService.js lines 61-66 and
111-116): `await session.abortTransaction()`, then `throw error`.  An error
thrown by the abort leaves the block at once and is what the caller gets. -/
def catchAbort (commitCalled : Bool) (error : Error) : Error :=
  match abortTransaction commitCalled with
  | .ok _ => error
  | .error abortError => abortError

/-- The statements of the `try` of `createTask` before the commit, for a given
dispatch table. -/
def createTaskBody (handlers : TaskType → Option Handler) (env : Env) (s : Store)
    (taskData : TaskData) : Except Error (Txn × Task) := do
  let id := generateTaskId env
  let (t1, task) ← Task.create env (taskData.toTask id) { committed := s, working := s }
  let taskId := task.id
  let t2 ← delegate handlers env taskData.taskType taskId taskData.additionalData t1
  pure (t2, task)

/-- `createTask(taskData)` for a given dispatch table: the store after the call
and the value or error the caller gets.  A failure lands in the `catch`; the
transaction is not committed then and the store stays as it was. -/
def createTaskWith (handlers : TaskType → Option Handler) (env : Env) (s : Store)
    (taskData : TaskData) : Store × Except Error Task :=
  match createTaskBody handlers env s taskData with
  | .error e => (s, .error (catchAbort false e))
  | .ok (t2, task) =>
    match commitTransaction env t2 with
    | .ok t3 => (t3.committed, .ok task)
    | .error e => (s, .error (catchAbort true e))

/-- `createTask(taskData)`. -/
def createTask (env : Env) (s : Store) (taskData : TaskData) : Store × Except Error Task :=
  createTaskWith taskHandlers env s taskData

/-- The statements of the `try` of `updateTask` before the commit, for a given
dispatch table. -/
def updateTaskBody (handlers : TaskType → Option Handler) (env : Env) (s : Store)
    (taskId : Nat) (updates : Updates) : Except Error (Txn × Task) := do
  let (t1, found) ← Task.findOneAndUpdate env taskId updates { committed := s, working := s }
  match found with
  | none => throw (.jsError "Task not found")
  | some updatedTask =>
    let t2 ← delegate handlers env updatedTask.taskType taskId updates.additionalData t1
    pure (t2, updatedTask)

/-- `updateTask(taskId, updates)` for a given dispatch table. -/
def updateTaskWith (handlers : TaskType → Option Handler) (env : Env) (s : Store)
    (taskId : Nat) (updates : Updates) : Store × Except Error Task :=
  match updateTaskBody handlers env s taskId updates with
  | .error e => (s, .error (catchAbort false e))
  | .ok (t2, task) =>
    match commitTransaction env t2 with
    | .ok t3 => (t3.committed, .ok task)
    | .error e => (s, .error (catchAbort true e))

/-- `updateTask(taskId, updates)`. -/
def updateTask (env : Env) (s : Store) (taskId : Nat) (updates : Updates) :
    Store × Except Error Task :=
  updateTaskWith updateHandlers env s taskId updates

/-! ## Observations on a store -/

/-- The stored Task with a given id. -/
def Store.findTask (s : Store) (id : Nat) : Option Task :=
  s.tasks.find? (fun x => x.id == id)

/-- The FleetTask of a task. -/
def Store.fleetTaskOf (s : Store) (taskId : Nat) : Option FleetTask :=
  s.fleetTasks.find? (fun f => f.taskId == some taskId)

/-- The passenger rows of a FleetTask. -/
def Store.passengersOf (s : Store) (fleetTaskId : Nat) : List FleetTaskPassenger :=
  s.passengers.filter (fun r => r.fleetTaskId == fleetTaskId)

/-- The material rows of a FleetTask. -/
def Store.materialsOf (s : Store) (fleetTaskId : Nat) : List FleetTaskMaterial :=
  s.materials.filter (fun r => r.fleetTaskId == fleetTaskId)

/-- The tool rows of a FleetTask. -/
def Store.toolsOf (s : Store) (fleetTaskId : Nat) : List FleetTaskTool :=
  s.tools.filter (fun r => r.fleetTaskId == fleetTaskId)

/-! ## Relations used in the proofs -/

/-- Two transactions that differ at most in the session's child collections. -/
def SameCore (t t1 : Txn) : Prop :=
  t1.committed = t.committed ∧ t1.working.tasks = t.working.tasks ∧
    t1.working.fleetTasks = t.working.fleetTasks

/-! ## Concrete inputs used in the examples -/

/-- An environment in which the store rejects nothing; `Math.random()` is 0. -/
def quietEnv : Env :=
  { now := 1000, randNum := 0, randDen := 1, fault := fun _ => false }

/-- The empty store. -/
def emptyStore : Store :=
  { tasks := [], fleetTasks := [], passengers := [], materials := [], tools := [] }

/-- A transport payload with every property missing. -/
def blankData : TransportData :=
  { driverId := none, vehicleId := none, transportType := none, pickupLocation := none,
    dropLocation := none, pickupTime := none, dropTime := none, companyId := none,
    projectId := none, createdBy := none, workers := none, materialQuantities := none,
    toolQuantities := none }

/-- A TRANSPORT task payload around `data`. -/
def transportTask (data : TransportData) : TaskData :=
  { id := none, taskType := .TRANSPORT, taskName := some "trip", description := none,
    startDate := none, endDate := none, status := none, additionalData := some data }

/-- An update payload around `data`. -/
def updatesOf (data : TransportData) : Updates :=
  { taskType := none, taskName := some "trip", description := none, startDate := none,
    endDate := none, status := none, additionalData := some data }


/-- An environment in which the store rejects `FleetTaskTool.insertMany`. -/
def toolFaultEnv : Env :=
  { now := 1000, randNum := 0, randDen := 1, fault := fun op => decide (op = .toolInsertMany) }

/-- A TOOL_TRANSPORT payload with one tool line. -/
def toolData : TransportData :=
  { blankData with transportType := some "TOOL_TRANSPORT", toolQuantities := some [⟨4, 1⟩] }

/-- A WORK task payload whose `additionalData` is shaped like a transport payload. -/
def workTask : TaskData :=
  { id := some 5, taskType := .WORK, taskName := some "paint", description := none,
    startDate := none, endDate := none, status := none,
    additionalData := some { blankData with
      transportType := some "WORKER_TRANSPORT", workers := some [1, 2, 3] } }

/-- A WORKER_TRANSPORT payload for the workers 1, 2 and 3. -/
def workerData : TransportData :=
  { blankData with transportType := some "WORKER_TRANSPORT", workers := some [1, 2, 3] }

/-- A MATERIAL_TRANSPORT payload with one material line. -/
def materialData : TransportData :=
  { blankData with transportType := some "MATERIAL_TRANSPORT",
                   materialQuantities := some [⟨7, 2⟩] }

/-- A stored TRANSPORT task with id 20000, linked to FleetTask 7. -/
def tripTask : Task :=
  { id := 20000, taskType := .TRANSPORT, taskName := some "trip", description := none,
    startDate := none, endDate := none, status := none, updatedAt := none,
    additionalData := none, transportTaskId := some 7 }

/-- The FleetTask of `tripTask`. -/
def tripFleetTask : FleetTask :=
  { id := 7, taskId := some 20000, driverId := some 3, vehicleId := some 2,
    transportType := some "WORKER_TRANSPORT", pickupLocation := some "Depot",
    dropLocation := some "Site", pickupTime := none, dropTime := none, companyId := some 1,
    projectId := none, taskDate := none, plannedPickupTime := none, plannedDropTime := none,
    status := some "PLANNED", createdBy := none, createdAt := none, updatedAt := none }

/-- A stored passenger row of FleetTask 7. -/
def oldPassenger (id worker : Nat) : FleetTaskPassenger :=
  { id := id, companyId := 1, fleetTaskId := 7, workerEmployeeId := worker,
    pickupConfirmedAt := none, dropConfirmedAt := none, status := "PLANNED", notes := none,
    createdAt := 500 }

/-- A store with one TRANSPORT task, its FleetTask and three passenger rows. -/
def tripStore : Store :=
  { tasks := [tripTask], fleetTasks := [tripFleetTask],
    passengers := [oldPassenger 1 1, oldPassenger 2 2, oldPassenger 3 3],
    materials := [], tools := [] }

/-- A store with one TRANSPORT task that has no FleetTask. -/
def bareStore : Store :=
  { tasks := [{ tripTask with transportTaskId := none }], fleetTasks := [], passengers := [],
    materials := [], tools := [] }

/-- An environment in which the store rejects `FleetTaskTool.deleteMany`. -/
def toolDeleteFaultEnv : Env :=
  { now := 1000, randNum := 0, randDen := 1, fault := fun op => decide (op = .toolDeleteMany) }

/-- A first update payload: pick up at "Gate A", driver 9. -/
def gateA : Updates :=
  updatesOf { blankData with pickupLocation := some "Gate A", driverId := some 9 }

/-- A second update payload: pick up at "Gate B", nothing else. -/
def gateB : Updates :=
  updatesOf { blankData with pickupLocation := some "Gate B" }

/-- The store `tripStore` after `updateTask(20000, gateA)`. -/
def afterGateA : Store :=
  (updateTask quietEnv tripStore 20000 gateA).1

/-- The store `afterGateA` after `updateTask(20000, gateB)`. -/
def afterGateB : Store :=
  (updateTask quietEnv afterGateA 20000 gateB).1

/-- The store `tripStore` after `createTask(transportTask materialData)`. -/
def afterMaterialTrip : Store :=
  (createTask quietEnv tripStore (transportTask materialData)).1

/-- The store `bareStore` after `createTask(transportTask toolData)`. -/
def afterToolTrip : Store :=
  (createTask quietEnv bareStore (transportTask toolData)).1

/-- The material rows the block "Materials" appends for FleetTask `fleetTaskId`:
one per entry of `materialQuantities` when the type is MATERIAL_TRANSPORT, none
otherwise. -/
def materialRows (data : TransportData) (fleetTaskId : Nat) : List FleetTaskMaterial :=
  if data.transportType = some "MATERIAL_TRANSPORT" then
    (data.materialQuantities.getD []).map (fun material =>
      { fleetTaskId := fleetTaskId
        materialId := material.materialId
        quantity := material.quantity })
  else []

/-- The tool rows the block "Tools" appends for FleetTask `fleetTaskId`: one per
entry of `toolQuantities` when the type is TOOL_TRANSPORT, none otherwise. -/
def toolRows (data : TransportData) (fleetTaskId : Nat) : List FleetTaskTool :=
  if data.transportType = some "TOOL_TRANSPORT" then
    (data.toolQuantities.getD []).map (fun tool =>
      { fleetTaskId := fleetTaskId
        toolId := tool.toolId
        quantity := tool.quantity })
  else []

/-- The Task collection after `updateTask` on `taskId` when the handler returned
`fleetTaskId`: the core `$set`, then the back-reference patch unless
`fleetTaskId` is falsy. -/
def tasksAfterUpdate (env : Env) (updates : Updates) (taskId fleetTaskId : Nat)
    (tasks : List Task) : List Task :=
  if fleetTaskId = 0 then
    updateFirst (fun y => y.id == taskId) (Task.setCore env updates) tasks
  else
    updateFirst (fun x => x.id == taskId) (fun x => { x with transportTaskId := some fleetTaskId })
      (updateFirst (fun y => y.id == taskId) (Task.setCore env updates) tasks)

/-- An update payload that carries a `taskType` (WORK) and no `additionalData`. -/
def retypeUpdates : Updates :=
  { taskType := some .WORK, taskName := some "renamed", description := none, startDate := none,
    endDate := none, status := some "DONE", additionalData := none }

/-- A transaction on `tripStore` in which the session has written nothing yet. -/
def tripTxn : Txn :=
  { committed := tripStore, working := tripStore }

/-- A TOOL_TRANSPORT payload with two tool lines. -/
def twoToolsData : TransportData :=
  { blankData with transportType := some "TOOL_TRANSPORT", toolQuantities := some [⟨4, 1⟩, ⟨9, 3⟩] }

/-- A payload with every descriptive property filled in and a type that has no
child collection. -/
def fullData : TransportData :=
  { driverId := some 3, vehicleId := some 2, transportType := some "EQUIPMENT_TRANSPORT",
    pickupLocation := some "Depot", dropLocation := some "Site", pickupTime := some "08:00",
    dropTime := some "09:00", companyId := some 1, projectId := some 6, createdBy := some 11,
    workers := some [1, 2], materialQuantities := none, toolQuantities := none }

/-- A transaction on `bareStore` in which the session has written nothing yet. -/
def bareTxn : Txn :=
  { committed := bareStore, working := bareStore }

/-- An environment in which `Math.random()` returns 1/2. -/
def halfEnv : Env :=
  { now := 1000, randNum := 1, randDen := 2, fault := fun _ => false }

/-- An environment in which the store rejects `commitTransaction`. -/
def commitFaultEnv : Env :=
  { now := 1000, randNum := 0, randDen := 1, fault := fun op => decide (op = .commitTransaction) }

/-- A transaction on `bareStore` in which the session has already inserted
FleetTask 1 (for task 20000) and not committed it. -/
def sessionTxn : Txn :=
  { committed := bareStore
    working := { bareStore with fleetTasks := [newFleetTask quietEnv 1 20000 fullData] } }

/-! ## Predicates on a store -/

/-- Task ids are pairwise distinct. -/
def TaskIdsDistinct (s : Store) : Prop :=
  (s.tasks.map (fun x => x.id)).Nodup

/-- FleetTask ids are pairwise distinct. -/
def FleetTaskIdsDistinct (s : Store) : Prop :=
  (s.fleetTasks.map (fun f => f.id)).Nodup

/-- No two FleetTask rows share a `taskId` (rows without a `taskId` aside). -/
def OneFleetTaskPerTask (s : Store) : Prop :=
  (s.fleetTasks.filterMap (fun f => f.taskId)).Nodup

/-- Every `taskId` on a FleetTask row is the id of a stored Task. -/
def FleetTasksReferToTasks (s : Store) : Prop :=
  ∀ f ∈ s.fleetTasks, ∀ x ∈ f.taskId, ∃ task ∈ s.tasks, task.id = x

/-- For every FleetTask, only the child collection that matches its
`transportType` holds rows with its id. -/
def ChildExclusive (s : Store) : Prop :=
  ∀ f ∈ s.fleetTasks,
    (f.transportType ≠ some "WORKER_TRANSPORT" → s.passengersOf f.id = []) ∧
    (f.transportType ≠ some "MATERIAL_TRANSPORT" → s.materialsOf f.id = []) ∧
    (f.transportType ≠ some "TOOL_TRANSPORT" → s.toolsOf f.id = [])

/-- Every passenger, material and tool row carries the id of a stored FleetTask. -/
def ChildrenOwned (s : Store) : Prop :=
  (∀ r ∈ s.passengers, ∃ f ∈ s.fleetTasks, f.id = r.fleetTaskId) ∧
  (∀ r ∈ s.materials, ∃ f ∈ s.fleetTasks, f.id = r.fleetTaskId) ∧
  (∀ r ∈ s.tools, ∃ f ∈ s.fleetTasks, f.id = r.fleetTaskId)

instance instDecidableTaskIdsDistinct (s : Store) : Decidable (TaskIdsDistinct s) := by
  unfold TaskIdsDistinct
  infer_instance

instance instDecidableFleetTaskIdsDistinct (s : Store) : Decidable (FleetTaskIdsDistinct s) := by
  unfold FleetTaskIdsDistinct
  infer_instance

instance instDecidableOneFleetTaskPerTask (s : Store) : Decidable (OneFleetTaskPerTask s) := by
  unfold OneFleetTaskPerTask
  infer_instance

instance instDecidableFleetTasksReferToTasks (s : Store) :
    Decidable (FleetTasksReferToTasks s) := by
  unfold FleetTasksReferToTasks
  infer_instance

instance instDecidableChildExclusive (s : Store) : Decidable (ChildExclusive s) := by
  unfold ChildExclusive
  infer_instance

instance instDecidableChildrenOwned (s : Store) : Decidable (ChildrenOwned s) := by
  unfold ChildrenOwned
  infer_instance

/-- A store with no Task and one FleetTask whose `taskId` is 10000. -/
def danglingStore : Store :=
  { tasks := [], fleetTasks := [{ tripFleetTask with id := 1, taskId := some 10000 }],
    passengers := [], materials := [], tools := [] }

/-- A store with no FleetTask and one passenger row left over from a deleted
FleetTask 1. -/
def orphanStore : Store :=
  { tasks := [], fleetTasks := [],
    passengers := [{ oldPassenger 1 1 with fleetTaskId := 1 }], materials := [], tools := [] }

/-- The store `tripStore` after `updateTask(20000, updatesOf materialData)`: the
FleetTask switches from WORKER_TRANSPORT to MATERIAL_TRANSPORT. -/
def afterSwitch : Store :=
  (updateTask quietEnv tripStore 20000 (updatesOf materialData)).1

/-- What `updateTask` does to the Task row it finds when the handler returned
`fleetTaskId`: the core `$set`, then the back-reference unless `fleetTaskId` is
falsy. -/
def taskAfterUpdate (env : Env) (updates : Updates) (fleetTaskId : Nat) (x : Task) : Task :=
  if fleetTaskId = 0 then Task.setCore env updates x
  else { Task.setCore env updates x with transportTaskId := some fleetTaskId }

/-- An environment like `quietEnv` with a later clock. -/
def laterEnv : Env :=
  { now := 2000, randNum := 0, randDen := 1, fault := fun _ => false }

/-- The store `afterSwitch` after the same update once more, at a later time. -/
def afterSwitchTwice : Store :=
  (updateTask laterEnv afterSwitch 20000 (updatesOf materialData)).1

/-! ## FleetTasksPage.jsx: `normalizeStatus` -/

/-- A value `normalizeStatus` can receive: `undefined`, `null` or a string. -/
inductive StatusValue where
  | undefined
  | null
  | str (s : String)
  deriving DecidableEq, Repr

/-- Whether the characters `sub` occur consecutively in a list of characters. -/
def occursIn (sub : List Char) : List Char → Bool
  | [] => sub.isEmpty
  | c :: cs => sub.isPrefixOf (c :: cs) || occursIn sub cs

/-- The test `s.includes(sub)` of JavaScript. -/
def includes (s sub : String) : Bool :=
  occursIn sub.data s.data

/-- `normalizeStatus(status)` (FleetTasksPage.jsx lines 40-48); the built-in
`String.prototype.toUpperCase` is the parameter `toUpperCase`. -/
def normalizeStatus (toUpperCase : String → String) (status : StatusValue) : String :=
  match status with
  | .undefined => "PLANNED"
  | .null => "PLANNED"
  | .str s =>
    if s = "" then "PLANNED"
    else
      let statusStr := toUpperCase s
      if includes statusStr "PLAN" || includes statusStr "SCHEDULE" then "PLANNED"
      else if includes statusStr "PROGRESS" || includes statusStr "ONGOING" ||
          includes statusStr "ACTIVE" then "ONGOING"
      else if includes statusStr "COMPLETE" || includes statusStr "DONE" ||
          includes statusStr "FINISH" then "COMPLETED"
      else if includes statusStr "CANCEL" then "CANCELLED"
      else "PLANNED"

/-- Upper-casing of the ASCII letters, other characters unchanged. -/
def asciiUpper (s : String) : String :=
  String.mk (s.data.map Char.toUpper)

/-! ## The REST controllers

The controllers write without a transaction: a saved document stays saved
whatever happens afterwards.  A response is its status code and its `success`
flag; message texts and echoed data are left out. -/

/-- A property of a request body that the controller uses as a number: absent,
a JSON number, or a JSON string.  The numbers are the naturals; a string that
`Number` reads as a negative or fractional number is left out. -/
inductive ReqNumber where
  | missing
  | num (n : Nat)
  | str (s : String)
  deriving DecidableEq, Repr

/-- The built-in functions the controllers call; the two readings of a string
as a number: `Number(s)`, which `isNaN` and the cast of a query value use, and
`parseInt(s)`, `none` being `NaN`; and the two date helpers of
fleetTaskRoutes.js (lines 139-151), whose results depend on the time zone of the
server. -/
structure JsLib where
  trim : String → String
  toUpperCase : String → String
  toLowerCase : String → String
  emailRegexTest : String → Bool
  toNumber : String → Option Nat
  parseInt : String → Option Nat
  formatDateWithoutTimezone : Nat → Nat
  formatDateTime : String → String

/-- The truth value of `!x`. -/
def ReqNumber.falsy : ReqNumber → Bool
  | .missing => true
  | .num n => n == 0
  | .str s => s == ""

/-- The number a query filter `{ id: x }` is cast to on a Number path:
`Number(x)` for a string, no number when that is `NaN`. -/
def ReqNumber.cast (js : JsLib) : ReqNumber → Option Nat
  | .missing => none
  | .num n => some n
  | .str s => js.toNumber s

/-- `isNaN(x)`. -/
def ReqNumber.isNaN (js : JsLib) : ReqNumber → Bool
  | .missing => true
  | .num _ => false
  | .str s => (js.toNumber s).isNone

/-- `parseInt(x)`; `none` is `NaN`. -/
def ReqNumber.parseInt (js : JsLib) : ReqNumber → Option Nat
  | .missing => none
  | .num n => some n
  | .str s => js.parseInt s

/-- Whether a stored numeric field is found by the filter `{ id: x }`. -/
def ReqNumber.matches (js : JsLib) (x : ReqNumber) (stored : Nat) : Bool :=
  x.cast js == some stored

/-- The truth value of a string property that may be absent. -/
def truthyStr : Option String → Bool
  | some s => s != ""
  | none => false

/-- `createdAt ? new Date(createdAt) : new Date()`. -/
def createdAtOr (createdAt : Option Nat) (now : Nat) : Nat :=
  match createdAt with
  | some (n + 1) => n + 1
  | _ => now

/-- The store operations of the controllers. -/
inductive ApiOp where
  | companyFindById
  | companyFindByTenant
  | companySave
  | userFindById
  | userFindByEmail
  | userSave
  | employeeFindById
  | employeeFindByCode
  | employeeSave
  | driverFindActive
  | driverFindLast
  | driverSave
  | fleetTaskFindLast
  | fleetTaskSave
  | projectFindById
  | vehicleFindById
  deriving DecidableEq, Repr

/-- The kinds of error the `catch` blocks tell apart. -/
inductive ApiError where
  | validationError
  | duplicateKey
  | invalidTime
  | other
  deriving DecidableEq, Repr

/-- The options object handed to `transporter.sendMail`; `sender` is its `from`
and `recipient` its `to`. -/
structure MailOptions where
  sender : String
  recipient : String
  subject : String
  html : String
  deriving DecidableEq, Repr

/-- What a controller takes from its environment: the clock, the store's
verdict on each operation (`none`: the operation goes through), the string
built-ins, the mail transport and `process.env.SMTP_USER`. -/
structure ApiEnv where
  now : Nat
  fault : ApiOp → Option ApiError
  js : JsLib
  sendMail : MailOptions → Except String Unit
  smtpUser : String

/-- A response: status code and `success`. -/
structure Response where
  status : Nat
  success : Bool
  deriving DecidableEq, Repr

/-- Modelled from the spec: `models/Company.js` is not among the sources; the
fields are those `createCompany` writes. -/
structure Company where
  id : Nat
  name : String
  tenantCode : String
  createdAt : Nat
  deriving DecidableEq, Repr

/-- A stored document of `models/User.js`. -/
structure User where
  id : Nat
  email : String
  name : String
  isActive : Bool
  createdAt : Nat
  deriving DecidableEq, Repr

/-- Modelled from the spec: `models/Employee.js` is not among the sources; the
fields are those `createEmployee` writes. -/
structure Employee where
  id : Nat
  companyId : Nat
  userId : Option Nat
  employeeCode : Option String
  fullName : String
  phone : Option String
  jobTitle : Option String
  status : String
  createdAt : Nat
  deriving DecidableEq, Repr

/-- Modelled from the spec: `models/Driver.js` is not among the sources; the
fields are those `createDriver` writes, the ids being Number paths as in every
schema of the sources. -/
structure Driver where
  id : Nat
  companyId : Nat
  employeeId : Nat
  employeeName : Option String
  employeeCode : Option String
  jobTitle : Option String
  licenseNo : String
  licenseExpiry : Option String
  vehicleId : Option Nat
  status : String
  createdAt : Nat
  updatedAt : Nat
  deriving DecidableEq, Repr

/-- Modelled from the spec: `models/Project.js` is not among the sources; the
fields are those the fleet-task route reads. -/
structure Project where
  id : Nat
  name : String
  deriving DecidableEq, Repr

/-- Modelled from the spec: `models/FleetVehicle.js` is not among the sources;
the fields are those the fleet-task route reads. -/
structure FleetVehicle where
  id : Nat
  registrationNo : String
  deriving DecidableEq, Repr

/-- The `catch` of `createCompany`, `createUser` and `createEmployee`. -/
def catchCreate (e : ApiError) : Response :=
  match e with
  | .validationError => { status := 400, success := false }
  | .duplicateKey => { status := 400, success := false }
  | .invalidTime => { status := 400, success := false }
  | .other => { status := 500, success := false }

/-- The body of `POST /api/companies`. -/
structure CompanyBody where
  id : ReqNumber
  name : Option String
  tenantCode : Option String
  createdAt : Option Nat
  deriving DecidableEq, Repr

/-- `createCompany(req, res)` (companyController.js lines 6-112): the Company
collection after the call and the response.  A `NaN` from `parseInt` fails the
validation of `save()`; whether the store rejects the save is the environment's
verdict. -/
def createCompany (env : ApiEnv) (companies : List Company) (body : CompanyBody) :
    List Company × Response :=
  if body.id.falsy || !truthyStr body.name || !truthyStr body.tenantCode then
    (companies, { status := 400, success := false })
  else if body.id.isNaN env.js then (companies, { status := 400, success := false })
  else if (env.js.trim (body.name.getD "")).length == 0 then
    (companies, { status := 400, success := false })
  else if (env.js.trim (body.tenantCode.getD "")).length == 0 then
    (companies, { status := 400, success := false })
  else
    match env.fault .companyFindById with
    | some e => (companies, catchCreate e)
    | none =>
      if companies.any (fun c => body.id.matches env.js c.id) then
        (companies, { status := 400, success := false })
      else
        match env.fault .companyFindByTenant with
        | some e => (companies, catchCreate e)
        | none =>
          if companies.any (fun c =>
              c.tenantCode == env.js.trim (env.js.toUpperCase (body.tenantCode.getD ""))) then
            (companies, { status := 400, success := false })
          else
            match body.id.parseInt env.js with
            | none => (companies, catchCreate .validationError)
            | some id =>
              match env.fault .companySave with
              | some e => (companies, catchCreate e)
              | none =>
                (companies ++
                  [{ id := id
                     name := env.js.trim (body.name.getD "")
                     tenantCode := env.js.trim (env.js.toUpperCase (body.tenantCode.getD ""))
                     createdAt := createdAtOr body.createdAt env.now }],
                 { status := 201, success := true })

/-- The body of `POST /api/users`. -/
structure UserBody where
  id : ReqNumber
  email : Option String
  name : Option String
  isActive : Option Bool
  createdAt : Option Nat
  deriving DecidableEq, Repr

/-- `createUser(req, res)` (userController.js lines 6-112).  A `NaN` from
`parseInt` fails the validation of `save()`, and the unique index of
`models/User.js` on `id` rejects an id that is stored already. -/
def createUser (env : ApiEnv) (users : List User) (body : UserBody) : List User × Response :=
  if body.id.falsy || !truthyStr body.email || !truthyStr body.name then
    (users, { status := 400, success := false })
  else if body.id.isNaN env.js then (users, { status := 400, success := false })
  else if !env.js.emailRegexTest (body.email.getD "") then
    (users, { status := 400, success := false })
  else if (env.js.trim (body.name.getD "")).length == 0 then
    (users, { status := 400, success := false })
  else
    match env.fault .userFindById with
    | some e => (users, catchCreate e)
    | none =>
      if users.any (fun u => body.id.matches env.js u.id) then
        (users, { status := 400, success := false })
      else
        match env.fault .userFindByEmail with
        | some e => (users, catchCreate e)
        | none =>
          if users.any (fun u =>
              u.email == env.js.trim (env.js.toLowerCase (body.email.getD ""))) then
            (users, { status := 400, success := false })
          else
            match body.id.parseInt env.js with
            | none => (users, catchCreate .validationError)
            | some id =>
              if users.any (fun u => u.id == id) then (users, catchCreate .duplicateKey)
              else
                match env.fault .userSave with
                | some e => (users, catchCreate e)
                | none =>
                  (users ++
                    [{ id := id
                       email := env.js.trim (env.js.toLowerCase (body.email.getD ""))
                       name := env.js.trim (body.name.getD "")
                       isActive := body.isActive.getD true
                       createdAt := createdAtOr body.createdAt env.now }],
                   { status := 201, success := true })

/-- The body of `POST /api/employees`. -/
structure EmployeeBody where
  id : ReqNumber
  companyId : ReqNumber
  userId : ReqNumber
  employeeCode : Option String
  fullName : Option String
  phone : Option String
  jobTitle : Option String
  status : Option String
  createdAt : Option Nat
  deriving DecidableEq, Repr

/-- `x ? x.trim() : null` for a string property. -/
def trimOrNull (js : JsLib) (x : Option String) : Option String :=
  if truthyStr x then some (js.trim (x.getD "")) else none

/-- `x ? parseInt(x) : null`: `none` is a `NaN`, `some none` is `null`. -/
def parseIntOrNull (js : JsLib) (x : ReqNumber) : Option (Option Nat) :=
  if x.falsy then some none else (x.parseInt js).map some

/-- `createEmployee(req, res)` (employeeController.js lines 115-246).  A `NaN`
from `parseInt` fails the validation of `save()`; whether the store rejects the
save is the environment's verdict. -/
def createEmployee (env : ApiEnv) (companies : List Company) (users : List User)
    (employees : List Employee) (body : EmployeeBody) : List Employee × Response :=
  if body.id.falsy || body.companyId.falsy || !truthyStr body.fullName then
    (employees, { status := 400, success := false })
  else if body.id.isNaN env.js || body.companyId.isNaN env.js ||
      (!body.userId.falsy && body.userId.isNaN env.js) then
    (employees, { status := 400, success := false })
  else if (env.js.trim (body.fullName.getD "")).length == 0 then
    (employees, { status := 400, success := false })
  else
    match env.fault .companyFindById with
    | some e => (employees, catchCreate e)
    | none =>
      if !companies.any (fun c => body.companyId.matches env.js c.id) then
        (employees, { status := 400, success := false })
      else
        match (if body.userId.falsy then none else env.fault .userFindById) with
        | some e => (employees, catchCreate e)
        | none =>
          if !body.userId.falsy && !users.any (fun u => body.userId.matches env.js u.id) then
            (employees, { status := 400, success := false })
          else
            match env.fault .employeeFindById with
            | some e => (employees, catchCreate e)
            | none =>
              if employees.any (fun x => body.id.matches env.js x.id) then
                (employees, { status := 400, success := false })
              else
                match (if truthyStr body.employeeCode then env.fault .employeeFindByCode
                    else none) with
                | some e => (employees, catchCreate e)
                | none =>
                  if truthyStr body.employeeCode && employees.any (fun x =>
                      x.employeeCode == some (env.js.trim (body.employeeCode.getD ""))) then
                    (employees, { status := 400, success := false })
                  else
                    match body.id.parseInt env.js, body.companyId.parseInt env.js,
                        parseIntOrNull env.js body.userId with
                    | some id, some companyId, some userId =>
                      match env.fault .employeeSave with
                      | some e => (employees, catchCreate e)
                      | none =>
                        (employees ++
                          [{ id := id
                             companyId := companyId
                             userId := userId
                             employeeCode := trimOrNull env.js body.employeeCode
                             fullName := env.js.trim (body.fullName.getD "")
                             phone := trimOrNull env.js body.phone
                             jobTitle := trimOrNull env.js body.jobTitle
                             status := if truthyStr body.status then body.status.getD ""
                               else "ACTIVE"
                             createdAt := createdAtOr body.createdAt env.now }],
                         { status := 201, success := true })
                    | _, _, _ => (employees, catchCreate .validationError)

/-- The truth value of a numeric property that is a number or absent. -/
def truthyNum : Option Nat → Bool
  | some (_ + 1) => true
  | _ => false

/-- The body of `POST /api/drivers`; `status` absent is JavaScript's
`undefined`, `vehicleId` is a number or absent. -/
structure DriverBody where
  companyId : ReqNumber
  employeeId : ReqNumber
  employeeName : Option String
  employeeCode : Option String
  jobTitle : Option String
  licenseNo : Option String
  licenseExpiry : Option String
  vehicleId : Option Nat
  status : Option String
  deriving DecidableEq, Repr

/-- `Driver.findOne().sort({ id: -1 })`: a driver of greatest id. -/
def latestDriver : List Driver → Option Driver
  | [] => none
  | x :: xs =>
    match latestDriver xs with
    | none => some x
    | some y => if y.id ≤ x.id then some x else some y

/-- `a || b` for string properties that may be absent. -/
def strOr (a b : Option String) : Option String :=
  if truthyStr a then a else b

/-- The `catch` of `createDriver`: every error is answered 400. -/
def catchDriver (_e : ApiError) : Response :=
  { status := 400, success := false }

/-- `createDriver(req, res)` (driverController.js lines 7-88): the Driver
collection after the call and the response.  The two lookups take the raw
`employeeId`, which the query casts with `Number` (a `NaN` makes the query
throw); the stored `employeeId` is `parseInt(employeeId)`, and a `NaN` there
fails the validation of `save()`. -/
def createDriver (env : ApiEnv) (employees : List Employee) (drivers : List Driver)
    (body : DriverBody) : List Driver × Response :=
  let status := body.status.getD "ACTIVE"
  if body.companyId.falsy || body.employeeId.falsy || !truthyStr body.licenseNo then
    (drivers, { status := 400, success := false })
  else
    match env.fault .employeeFindById with
    | some e => (drivers, catchDriver e)
    | none =>
      match body.employeeId.cast env.js with
      | none => (drivers, catchDriver .other)
      | some key =>
        match employees.find? (fun e => e.id == key) with
        | none => (drivers, { status := 400, success := false })
        | some employee =>
          match env.fault .driverFindActive with
          | some e => (drivers, catchDriver e)
          | none =>
            let existingActiveDriver :=
              drivers.find? (fun d => d.employeeId == key && d.status == "ACTIVE")
            if existingActiveDriver.isSome && status == "ACTIVE" then
              (drivers, { status := 400, success := false })
            else
              match env.fault .driverFindLast with
              | some e => (drivers, catchDriver e)
              | none =>
                let newId :=
                  match latestDriver drivers with
                  | some d => jsSucc d.id
                  | none => 1
                match body.companyId.parseInt env.js, body.employeeId.parseInt env.js with
                | some companyId, some employeeId =>
                  match env.fault .driverSave with
                  | some e => (drivers, catchDriver e)
                  | none =>
                    (drivers ++
                      [{ id := newId
                         companyId := companyId
                         employeeId := employeeId
                         employeeName := strOr body.employeeName (some employee.fullName)
                         employeeCode := strOr body.employeeCode employee.employeeCode
                         jobTitle := strOr body.jobTitle employee.jobTitle
                         licenseNo := body.licenseNo.getD ""
                         licenseExpiry := body.licenseExpiry
                         vehicleId := body.vehicleId
                         status := status
                         createdAt := env.now
                         updatedAt := env.now }],
                     { status := 201, success := true })
                | _, _ => (drivers, catchDriver .validationError)

/-- `sendEmailNotification(to, subject, html)` (emailService.js lines 17-33): the
`catch` logs the transport's error and does not rethrow, so the promise
resolves either way. -/
def sendEmailNotification (env : ApiEnv) (recipient subject html : String) :
    Except String Unit :=
  let mailOptions : MailOptions :=
    { sender := "\"Fleet Management\" <" ++ env.smtpUser ++ ">"
      recipient := recipient
      subject := subject
      html := html }
  match env.sendMail mailOptions with
  | .ok _ => .ok ()
  | .error _ => .ok ()

/-- The body of `POST /api/fleet-tasks`; its numeric properties are numbers or
absent.  The properties `pickupAddress`, `dropAddress`, `expectedPassengers`
and `notes` are left out, like the stored fields they fill. -/
structure FleetTaskBody where
  companyId : Option Nat
  vehicleId : Option Nat
  taskDate : Option Nat
  plannedPickupTime : Option String
  plannedDropTime : Option String
  pickupLocation : Option String
  dropLocation : Option String
  status : Option String
  driverId : Option Nat
  projectId : Option Nat
  createdBy : Option Nat
  deriving DecidableEq, Repr

/-- `x ? parseInt(x) : null` and `x || null` for a number. -/
def numOrNull (x : Option Nat) : Option Nat :=
  if truthyNum x then x else none

/-- `x ? f(x) : null` for a string. -/
def strOrNull (f : String → String) (x : Option String) : Option String :=
  if truthyStr x then x.map f else none

/-- `x?.trim() || ''`. -/
def trimOrEmpty (js : JsLib) (x : Option String) : String :=
  match x with
  | some s => js.trim s
  | none => ""

/-- Reading a property of the result of a `findOne`: `null` throws a
`TypeError`. -/
def deref {α : Type} (x : Option α) : Except String α :=
  match x with
  | some a => .ok a
  | none => .error "TypeError"

/-- One of the four lookups of the `Promise.all`. -/
def lookupOp (env : ApiEnv) (op : ApiOp) : Except String Unit :=
  match env.fault op with
  | some _ => .error "store"
  | none => .ok ()

/-- The text of the notification, its time lines and link left out. -/
def tripMailBody (driverName projectName registrationNo : String) : String :=
  "<h2>New Trip Assigned</h2><p>Hello " ++ driverName ++ ",</p><ul><li>Project: " ++
    projectName ++ "</li><li>Vehicle: " ++ registrationNo ++ "</li></ul>"

/-- Lines 197-231 of fleetTaskRoutes.js: what the POST route does between
`fleetTask.save()` and the 201 response. -/
def notifyDriver (env : ApiEnv) (employees : List Employee) (projects : List Project)
    (vehicles : List FleetVehicle) (users : List User) (body : FleetTaskBody) :
    Except String Unit := do
  lookupOp env .employeeFindById
  lookupOp env .projectFindById
  lookupOp env .vehicleFindById
  lookupOp env .userFindById
  let driver := employees.find? (fun e => some e.id == body.driverId)
  let project := projects.find? (fun p => some p.id == body.projectId)
  let vehicle := vehicles.find? (fun v => some v.id == body.vehicleId)
  let user := users.find? (fun u => some u.id == body.driverId)
  let project ← deref project
  let emailSubject := "🚐 New Trip Assigned — " ++ project.name
  let driver ← deref driver
  let vehicle ← deref vehicle
  let emailBody := tripMailBody driver.fullName project.name vehicle.registrationNo
  let user ← deref user
  sendEmailNotification env user.email emailSubject emailBody

/-- The POST route of fleetTaskRoutes.js (lines 111-239): the FleetTask
collection after the call and the response.  The `catch` answers 500; the
unique index on the FleetTask `id` rejects a new id that is stored already. -/
def postFleetTask (env : ApiEnv) (companies : List Company) (employees : List Employee)
    (projects : List Project) (vehicles : List FleetVehicle) (users : List User)
    (fleetTasks : List FleetTask) (body : FleetTaskBody) : List FleetTask × Response :=
  if !truthyNum body.companyId || !truthyNum body.vehicleId || !truthyNum body.taskDate then
    (fleetTasks, { status := 400, success := false })
  else
    match env.fault .companyFindById with
    | some _ => (fleetTasks, { status := 500, success := false })
    | none =>
      match companies.find? (fun c => some c.id == body.companyId) with
      | none => (fleetTasks, { status := 404, success := false })
      | some _company =>
        match env.fault .fleetTaskFindLast with
        | some _ => (fleetTasks, { status := 500, success := false })
        | none =>
          let newId := nextFleetTaskId (maxById fleetTasks)
          let fleetTask : FleetTask :=
            { id := newId
              taskId := none
              driverId := numOrNull body.driverId
              vehicleId := body.vehicleId
              transportType := none
              pickupLocation := some (trimOrEmpty env.js body.pickupLocation)
              dropLocation := some (trimOrEmpty env.js body.dropLocation)
              pickupTime := none
              dropTime := none
              companyId := body.companyId
              projectId := numOrNull body.projectId
              taskDate := body.taskDate.map env.js.formatDateWithoutTimezone
              plannedPickupTime := strOrNull env.js.formatDateTime body.plannedPickupTime
              plannedDropTime := strOrNull env.js.formatDateTime body.plannedDropTime
              status := some (if truthyStr body.status then body.status.getD "" else "PLANNED")
              createdBy := numOrNull body.createdBy
              createdAt := none
              updatedAt := none }
          match env.fault .fleetTaskSave with
          | some _ => (fleetTasks, { status := 500, success := false })
          | none =>
            if fleetTasks.any (fun x => x.id == newId) then
              (fleetTasks, { status := 500, success := false })
            else
              match notifyDriver env employees projects vehicles users body with
              | .ok _ => (fleetTasks ++ [fleetTask], { status := 201, success := true })
              | .error _ => (fleetTasks ++ [fleetTask], { status := 500, success := false })

/-! ## Concrete requests to the controllers -/

/-- The value of a string of decimal digits, read from the left with `acc` the
value so far; `none` when another character occurs. -/
def digitsValue : List Char → Nat → Option Nat
  | [], acc => some acc
  | c :: cs, acc => if c.isDigit then digitsValue cs (acc * 10 + (c.toNat - 48)) else none

/-- `Number(s)` on the empty string, on strings of decimal digits and on the
binary literal "0b101". -/
def sampleToNumber (s : String) : Option Nat :=
  if s = "" then some 0 else if s = "0b101" then some 5 else digitsValue s.data 0

/-- `parseInt(s)` on the same strings: the leading decimal digits are read, so
"0b101" gives 0, and the empty string gives `NaN`. -/
def sampleParseInt (s : String) : Option Nat :=
  if s = "" then none else if s = "0b101" then some 0 else digitsValue s.data 0

/-- Built-ins for the sample requests, whose texts carry no outer blanks, whose
e-mail addresses are in lower case and whose numeric strings are those
`sampleToNumber` knows: on the first two `trim` and `toLowerCase` change
nothing.  The server runs in UTC: a date, in milliseconds, is cut to its
midnight and a date-time is left as it is. -/
def plainJs : JsLib :=
  { trim := fun s => s
    toUpperCase := asciiUpper
    toLowerCase := fun s => s
    emailRegexTest := fun s => includes s "@"
    toNumber := sampleToNumber
    parseInt := sampleParseInt
    formatDateWithoutTimezone := fun t => t - t % 86400000
    formatDateTime := fun s => s }

/-- An environment whose store and mail transport never fail. -/
def quietApi : ApiEnv :=
  { now := 1000
    fault := fun _ => none
    js := plainJs
    sendMail := fun _ => .ok ()
    smtpUser := "fleet@example.com" }

/-- An environment whose mail transport rejects every message. -/
def deadMailApi : ApiEnv :=
  { quietApi with sendMail := fun _ => .error "ECONNREFUSED" }

/-- A stored company with id 3. -/
def acme : Company :=
  { id := 3, name := "Acme", tenantCode := "ACME", createdAt := 1 }

/-- A request to create a company with id 10. -/
def birchBody : CompanyBody :=
  { id := .num 10, name := some "Birch", tenantCode := some "BIRCH", createdAt := none }

/-- A stored user with id 5. -/
def dana : User :=
  { id := 5, email := "dana@example.com", name := "Dana", isActive := true, createdAt := 1 }

/-- A request to create a user with id 12. -/
def eliBody : UserBody :=
  { id := .num 12, email := some "eli@example.com", name := some "Eli", isActive := none,
    createdAt := none }

/-- A stored employee with id 5, of company 3. -/
def danaEmployee : Employee :=
  { id := 5, companyId := 3, userId := some 5, employeeCode := some "E5", fullName := "Dana",
    phone := none, jobTitle := some "Driver", status := "ACTIVE", createdAt := 1 }

/-- A request to create an employee with id 9 in company 3. -/
def finnBody : EmployeeBody :=
  { id := .num 9, companyId := .num 3, userId := .missing, employeeCode := none,
    fullName := some "Finn", phone := none, jobTitle := none, status := none,
    createdAt := none }

/-- The id the specification gives a new record of a collection holding the
ids `ids`: the greatest of them plus one, or 1 when there is none. -/
def specSequentialId (ids : List Nat) : Nat :=
  match ids with
  | [] => 1
  | x :: xs => (xs.foldl max x) + 1

/-- An ACTIVE driver for employee 5. -/
def danaDriver : Driver :=
  { id := 1, companyId := 3, employeeId := 5, employeeName := some "Dana",
    employeeCode := some "E5", jobTitle := some "Driver", licenseNo := "L-1",
    licenseExpiry := none, vehicleId := none, status := "ACTIVE", createdAt := 1,
    updatedAt := 1 }

/-- A request for a second driver for employee 5, `status` omitted. -/
def secondDriverBody : DriverBody :=
  { companyId := .num 3, employeeId := .num 5, employeeName := none, employeeCode := none,
    jobTitle := none, licenseNo := some "L-2", licenseExpiry := none, vehicleId := none,
    status := none }

/-- A stored vehicle with id 4. -/
def van : FleetVehicle :=
  { id := 4, registrationNo := "SBA1234A" }

/-- A stored project with id 6. -/
def harbour : Project :=
  { id := 6, name := "Harbour" }

/-- A request for a trip of vehicle 4 with driver 5 and no project. -/
def noProjectBody : FleetTaskBody :=
  { companyId := some 3, vehicleId := some 4, taskDate := some 500,
    plannedPickupTime := none, plannedDropTime := none, pickupLocation := some "Yard",
    dropLocation := some "Site", status := none, driverId := some 5, projectId := none,
    createdBy := none }

/-- The same request with project 6. -/
def harbourBody : FleetTaskBody :=
  { noProjectBody with projectId := some 6 }

/-- The FleetTask row the route builds from `noProjectBody` on an empty
collection, the task date cut to its midnight. -/
def noProjectRow : FleetTask :=
  { id := 1, taskId := none, driverId := some 5, vehicleId := some 4, transportType := none,
    pickupLocation := some "Yard", dropLocation := some "Site", pickupTime := none,
    dropTime := none, companyId := some 3, projectId := none, taskDate := some 0,
    plannedPickupTime := none, plannedDropTime := none, status := some "PLANNED",
    createdBy := none, createdAt := none, updatedAt := none }

/-- Each employeeId has at most one driver with status ACTIVE. -/
def ActiveDriverUnique (drivers : List Driver) : Prop :=
  drivers.Pairwise
    (fun a b => ¬ (a.employeeId = b.employeeId ∧ a.status = "ACTIVE" ∧ b.status = "ACTIVE"))

instance (drivers : List Driver) : Decidable (ActiveDriverUnique drivers) := by
  unfold ActiveDriverUnique; infer_instance

/-- A store whose only FleetTask has id `2^53 + 2`. -/
def hugeStore : Store :=
  { tasks := [], fleetTasks := [{ tripFleetTask with id := 9007199254740994 }],
    passengers := [], materials := [], tools := [] }

/-- A store whose only FleetTask has id `2^53`. -/
def edgeStore : Store :=
  { tasks := [], fleetTasks := [{ tripFleetTask with id := 9007199254740992 }],
    passengers := [], materials := [], tools := [] }

/-- An environment in which `Math.random()` returns the double
`6004799503160661 / 2^54`, just below one third. -/
def thirdEnv : Env :=
  { now := 1000, randNum := 6004799503160661, randDen := 2 ^ 54, fault := fun _ => false }

/-- A request for a driver whose `employeeId` is the string "0b101", which
`Number` reads as 5 and `parseInt` as 0; `status` omitted. -/
def oddDriverBody : DriverBody :=
  { companyId := .num 3, employeeId := .str "0b101", employeeName := none, employeeCode := none,
    jobTitle := none, licenseNo := some "L-9", licenseExpiry := none, vehicleId := none,
    status := none }

/-- The driver row `createDriver` stores for `oddDriverBody` under id `id`. -/
def oddDriver (id : Nat) : Driver :=
  { id := id, companyId := 3, employeeId := 0, employeeName := some "Dana",
    employeeCode := some "E5", jobTitle := some "Driver", licenseNo := "L-9",
    licenseExpiry := none, vehicleId := none, status := "ACTIVE", createdAt := 1000,
    updatedAt := 1000 }

/-- A request to create a user whose id is the string "0". -/
def zeroBody : UserBody :=
  { id := .str "0", email := some "zed@example.com", name := some "Zed", isActive := none,
    createdAt := none }

/-! # Theorems -/

/-! ## Double arithmetic -/

theorem bitsAux_spec : ∀ fuel n, n < 2 ^ fuel →
    n < 2 ^ bitsAux fuel n ∧ (n ≠ 0 → 2 ^ (bitsAux fuel n - 1) ≤ n) := by
  intro fuel
  induction fuel with
  | zero =>
    intro n h
    simp at h
    subst h
    simp [bitsAux]
  | succ f ih =>
    intro n h
    unfold bitsAux
    by_cases h0 : n = 0
    · simp [h0]
    · simp only [h0, if_false]
      have hh : n / 2 < 2 ^ f := by
        rw [Nat.div_lt_iff_lt_mul (by norm_num)]
        rw [pow_succ] at h
        exact h
      obtain ⟨h1, h2⟩ := ih (n / 2) hh
      constructor
      · rw [pow_succ]
        omega
      · intro _
        simp only [Nat.add_sub_cancel]
        by_cases hz : n / 2 = 0
        · have : bitsAux f (n / 2) = 0 := by
            rw [hz]; cases f <;> simp [bitsAux]
          rw [this]
          simp
          omega
        · have h3 := h2 hz
          have hpos : 0 < bitsAux f (n / 2) := by
            by_contra hc
            have : bitsAux f (n / 2) = 0 := by omega
            rw [this] at h1
            simp at h1
            exact hz h1
          have : bitsAux f (n / 2) = (bitsAux f (n / 2) - 1) + 1 := by omega
          rw [this, pow_succ]
          omega

theorem bitLength_spec (n : Nat) :
    n < 2 ^ bitLength n ∧ (n ≠ 0 → 2 ^ (bitLength n - 1) ≤ n) :=
  bitsAux_spec n n (Nat.lt_two_pow n)

theorem roundHalfEven_le {n d K : Nat} (hd : 0 < d) (h : n ≤ K * d) : roundHalfEven n d ≤ K := by
  unfold roundHalfEven
  have hq : n / d ≤ K := by
    calc n / d ≤ K * d / d := Nat.div_le_div_right h
      _ = K := Nat.mul_div_cancel _ hd
  have hmod := Nat.div_add_mod n d
  have hr := Nat.mod_lt n hd
  dsimp only
  by_cases hK : n / d = K
  · have h0 : n % d = 0 := by
      have : d * (n / d) = K * d := by rw [hK, Nat.mul_comm]
      omega
    simp [h0, hd, hK]
  · have : n / d + 1 ≤ K := by omega
    split_ifs <;> omega

theorem roundHalfEven_ge {n d K : Nat} (hd : 0 < d) (h : K * d ≤ n) : K ≤ roundHalfEven n d := by
  unfold roundHalfEven
  have hq : K ≤ n / d := (Nat.le_div_iff_mul_le hd).2 h
  dsimp only
  split_ifs <;> omega

theorem roundHalfEven_le_of_lt_half {n d K : Nat} (hd : 0 < d) (h : 2 * n < (2 * K + 1) * d) :
    roundHalfEven n d ≤ K := by
  unfold roundHalfEven
  have hlt : n < (K + 1) * d := by
    have : (2 * K + 1) * d ≤ 2 * ((K + 1) * d) := by nlinarith
    omega
  have hq : n / d ≤ K := by
    have := (Nat.div_lt_iff_lt_mul hd).2 hlt
    omega
  have hmod := Nat.div_add_mod n d
  dsimp only
  by_cases hK : n / d = K
  · have h1 : 2 * (n % d) < d := by
      have : d * (n / d) = K * d := by rw [hK, Nat.mul_comm]
      have e : (2 * K + 1) * d = 2 * (K * d) + d := by ring
      omega
    simp [h1, hK]
  · have : n / d + 1 ≤ K := by omega
    split_ifs <;> omega

theorem roundHalfEven_one (n : Nat) : roundHalfEven n 1 = n := by
  simp [roundHalfEven, Nat.mod_one]

theorem jsSucc_of_lt {n : Nat} (h : n < 2 ^ 53) : jsSucc n = n + 1 := by
  obtain ⟨hb1, hb2⟩ := bitLength_spec (n + 1)
  have hb2 := hb2 (by omega)
  unfold jsSucc roundDouble binade
  simp only [Nat.add_one_ne_zero, if_false, Nat.div_one, Nat.one_mul,
    show 1 ≤ n + 1 from Nat.le_add_left 1 n, if_true]
  generalize bitLength (n + 1) = L at *
  by_cases hL : L ≤ 53
  · simp only [hL, if_true, Nat.mul_one, roundHalfEven_one]
    exact Nat.mul_div_cancel _ (pow_pos (by norm_num) _)
  · have h54 : L = 54 := by
      by_contra hc
      have : 2 ^ 54 ≤ 2 ^ (L - 1) := Nat.pow_le_pow_right (by norm_num) (by omega)
      norm_num at this h
      omega
    subst h54
    have hn : n + 1 = 2 ^ 53 := by
      norm_num at hb2 h ⊢
      omega
    simp only [hL, if_false, hn]
    decide

theorem jsSucc_ne_zero (n : Nat) : jsSucc n ≠ 0 := by
  by_cases h : n < 2 ^ 53
  · rw [jsSucc_of_lt h]
    omega
  · obtain ⟨hb1, hb2⟩ := bitLength_spec (n + 1)
    have hb2 := hb2 (by omega)
    unfold jsSucc roundDouble binade
    simp only [Nat.add_one_ne_zero, if_false, Nat.div_one, Nat.one_mul,
      show 1 ≤ n + 1 from Nat.le_add_left 1 n, if_true]
    generalize bitLength (n + 1) = L at *
    have hL : ¬ L ≤ 53 := by
      intro hc
      have : 2 ^ L ≤ 2 ^ 53 := Nat.pow_le_pow_right (by norm_num) hc
      omega
    simp only [hL, if_false]
    have hbpos : 0 < 2 ^ (L - 53) := pow_pos (by norm_num) _
    have hM : 1 ≤ roundHalfEven (n + 1) (2 ^ (L - 53)) := by
      apply roundHalfEven_ge hbpos
      have : 2 ^ (L - 53) ≤ 2 ^ (L - 1) := Nat.pow_le_pow_right (by norm_num) (by omega)
      omega
    have : 0 < roundHalfEven (n + 1) (2 ^ (L - 53)) * 2 ^ (L - 53) := Nat.mul_pos hM hbpos
    simp only [Nat.div_one, Nat.mul_one]
    omega

theorem isDouble_le {n d : Nat} (h : IsDouble n d) (hlt : n < d) :
    n * 2 ^ 53 ≤ d * (2 ^ 53 - 1) := by
  obtain ⟨hd, m, k, hm, hk⟩ := h
  rcases hk with hk | hk
  · by_cases h53 : k ≤ 53
    · have hmk : m < 2 ^ k := by
        have : m * d < 2 ^ k * d := by
          rw [← hk, Nat.mul_comm (2 ^ k)]
          exact Nat.mul_lt_mul_of_pos_right hlt (pow_pos (by norm_num) _)
        exact Nat.lt_of_mul_lt_mul_right this
      have hsplit : 2 ^ 53 = 2 ^ k * 2 ^ (53 - k) := by
        rw [← pow_add]; congr 1; omega
      have hc : 1 ≤ 2 ^ (53 - k) := Nat.one_le_two_pow
      generalize 2 ^ (53 - k) = c at hsplit hc
      have e1 : n * 2 ^ 53 = m * d * c := by rw [hsplit, ← Nat.mul_assoc, hk]
      have e2 : m * d * c + d * c ≤ 2 ^ k * d * c := by
        have : (m + 1) * (d * c) ≤ 2 ^ k * (d * c) := Nat.mul_le_mul_right _ hmk
        calc m * d * c + d * c = (m + 1) * (d * c) := by ring
          _ ≤ 2 ^ k * (d * c) := this
          _ = 2 ^ k * d * c := by ring
      have e3 : 2 ^ k * d * c = d * 2 ^ 53 := by rw [hsplit]; ring
      have e4 : d ≤ d * c := Nat.le_mul_of_pos_right _ (by omega)
      have e5 : d * (2 ^ 53 - 1) + d = d * 2 ^ 53 := by
        have : (2 ^ 53 - 1) + 1 = 2 ^ 53 := by norm_num
        calc d * (2 ^ 53 - 1) + d = d * ((2 ^ 53 - 1) + 1) := by ring
          _ = d * 2 ^ 53 := by rw [this]
      omega
    · have hsplit : 2 ^ k = 2 ^ 53 * 2 ^ (k - 53) := by
        rw [← pow_add]; congr 1; omega
      have hc : 2 ≤ 2 ^ (k - 53) := by
        calc 2 = 2 ^ 1 := by norm_num
          _ ≤ 2 ^ (k - 53) := Nat.pow_le_pow_right (by norm_num) (by omega)
      generalize 2 ^ (k - 53) = c at hsplit hc
      have e1 : n * 2 ^ 53 * c = m * d := by rw [← hk, hsplit]; ring
      have e2 : m * d < 2 ^ 53 * d := Nat.mul_lt_mul_of_pos_right hm hd
      have e3 : n * 2 ^ 53 * 2 ≤ n * 2 ^ 53 * c := Nat.mul_le_mul_left _ hc
      have e5 : d * (2 ^ 53 - 1) + d = d * 2 ^ 53 := by
        have : (2 ^ 53 - 1) + 1 = 2 ^ 53 := by norm_num
        calc d * (2 ^ 53 - 1) + d = d * ((2 ^ 53 - 1) + 1) := by ring
          _ = d * 2 ^ 53 := by rw [this]
      have e6 : d * 2 ^ 53 = 2 ^ 53 * d := Nat.mul_comm _ _
      have e7 : 2 * d ≤ 2 ^ 53 * d := Nat.mul_le_mul_right _ (by norm_num)
      omega
  · have hz : m * 2 ^ k = 0 := by
      by_contra hc
      have : 1 ≤ m * 2 ^ k := by omega
      have : 1 * d ≤ m * 2 ^ k * d := Nat.mul_le_mul_right _ this
      omega
    rw [hk, hz]
    simp

/-! ## Inversion lemmas -/

theorem storeOp_ok_iff (env : Env) (op : Op) : storeOp env op = .ok () ↔ env.fault op = false := by
  unfold storeOp
  cases env.fault op <;> simp

theorem taskCreate_ok {env : Env} {doc d : Task} {t t1 : Txn}
    (h : Task.create env doc t = .ok (t1, d)) :
    d = doc ∧ t1 = { t with working := { t.working with tasks := t.working.tasks ++ [doc] } } ∧
      t.working.tasks.any (fun x => x.id == doc.id) = false := by
  unfold Task.create at h
  cases hf : env.fault .taskCreate <;>
    cases hd : t.working.tasks.any (fun x => x.id == doc.id) <;>
    simp [storeOp, hf, hd, bind, Except.bind, throw, throwThe, MonadExceptOf.throw, pure,
      Except.pure] at h
  obtain ⟨h1, h2⟩ := h
  exact ⟨h2.symm, h1.symm, rfl⟩

theorem fleetTaskCreate_ok {env : Env} {doc d : FleetTask} {t t1 : Txn}
    (h : FleetTask.create env doc t = .ok (t1, d)) :
    d = doc ∧
      t1 = { t with working := { t.working with fleetTasks := t.working.fleetTasks ++ [doc] } } := by
  unfold FleetTask.create at h
  cases hf : env.fault .fleetTaskCreate <;>
    cases hd : t.working.fleetTasks.any (fun x => x.id == doc.id) <;>
    simp [storeOp, hf, hd, bind, Except.bind, throw, throwThe, MonadExceptOf.throw, pure,
      Except.pure] at h
  obtain ⟨h1, h2⟩ := h
  exact ⟨h2.symm, h1.symm⟩

theorem taskUpdateOne_ok {env : Env} {taskId result : Nat} {t t1 : Txn}
    (h : Task.updateOne env taskId result t = .ok t1) :
    t1 = { t with working := { t.working with
      tasks := updateFirst (fun x => x.id == taskId)
        (fun x => { x with transportTaskId := some result }) t.working.tasks } } := by
  unfold Task.updateOne at h
  cases hf : env.fault .taskUpdateOne <;>
    simp [storeOp, hf, bind, Except.bind, pure, Except.pure] at h
  exact h.symm

theorem commitTransaction_ok {env : Env} {t t1 : Txn}
    (h : commitTransaction env t = .ok t1) :
    t1 = { committed := t.working, working := t.working } := by
  unfold commitTransaction at h
  cases hf : env.fault .commitTransaction <;>
    simp [storeOp, hf, bind, Except.bind, pure, Except.pure] at h
  exact h.symm

theorem passengerInsertMany_ok {env : Env} {docs : List PassengerDoc} {t t1 : Txn}
    (h : FleetTaskPassenger.insertMany env docs t = .ok t1) :
    ∃ rows, validateAll env docs = some rows ∧
      t1 = { t with working := { t.working with passengers := t.working.passengers ++ rows } } := by
  unfold FleetTaskPassenger.insertMany at h
  cases hv : validateAll env docs with
  | none => simp [hv] at h
  | some rows =>
    refine ⟨rows, rfl, ?_⟩
    rw [hv] at h
    cases hf : env.fault .passengerInsertMany <;>
      simp only [storeOp, hf, bind, Except.bind, throw, throwThe, MonadExceptOf.throw, pure,
        Except.pure, if_true, if_false, Bool.false_eq_true] at h
    · split at h
      · cases h
      · exact (Except.ok.inj h).symm
    · cases h

theorem materialInsertMany_ok {env : Env} {rows : List FleetTaskMaterial} {t t1 : Txn}
    (h : FleetTaskMaterial.insertMany env rows t = .ok t1) :
    t1 = { t with working := { t.working with materials := t.working.materials ++ rows } } := by
  unfold FleetTaskMaterial.insertMany at h
  cases hf : env.fault .materialInsertMany <;>
    simp [storeOp, hf, bind, Except.bind, pure, Except.pure] at h
  exact h.symm

theorem toolInsertMany_ok {env : Env} {rows : List FleetTaskTool} {t t1 : Txn}
    (h : FleetTaskTool.insertMany env rows t = .ok t1) :
    t1 = { t with working := { t.working with tools := t.working.tools ++ rows } } := by
  unfold FleetTaskTool.insertMany at h
  cases hf : env.fault .toolInsertMany <;>
    simp [storeOp, hf, bind, Except.bind, pure, Except.pure] at h
  exact h.symm

theorem sameCore_refl (t : Txn) : SameCore t t := ⟨rfl, rfl, rfl⟩

theorem sameCore_trans {a b c : Txn} (h1 : SameCore a b) (h2 : SameCore b c) : SameCore a c :=
  ⟨h2.1.trans h1.1, h2.2.1.trans h1.2.1, h2.2.2.trans h1.2.2⟩

theorem bind_ok {α β : Type} {x : Except Error α} {f : α → Except Error β} {b : β}
    (h : (x >>= f) = .ok b) : ∃ a, x = .ok a ∧ f a = .ok b := by
  cases x with
  | error e => cases h
  | ok a => exact ⟨a, rfl, h⟩

theorem insertPassengers_sameCore {env : Env} {d : TransportData} {id : Nat} {t t1 : Txn}
    (h : insertPassengers env d id t = .ok t1) : SameCore t t1 := by
  unfold insertPassengers at h
  split at h
  · obtain ⟨rows, _, hr⟩ := passengerInsertMany_ok h
    rw [hr]
    exact ⟨rfl, rfl, rfl⟩
  · cases h
    exact sameCore_refl t

theorem insertMaterials_sameCore {env : Env} {d : TransportData} {id : Nat} {t t1 : Txn}
    (h : insertMaterials env d id t = .ok t1) : SameCore t t1 := by
  unfold insertMaterials at h
  split at h
  · rw [materialInsertMany_ok h]
    exact ⟨rfl, rfl, rfl⟩
  · cases h
    exact sameCore_refl t

theorem insertTools_sameCore {env : Env} {d : TransportData} {id : Nat} {t t1 : Txn}
    (h : insertTools env d id t = .ok t1) : SameCore t t1 := by
  unfold insertTools at h
  split at h
  · rw [toolInsertMany_ok h]
    exact ⟨rfl, rfl, rfl⟩
  · cases h
    exact sameCore_refl t

theorem insertChildren_sameCore {env : Env} {d : TransportData} {id : Nat} {t t1 : Txn}
    (h : insertChildren env d id t = .ok t1) : SameCore t t1 := by
  unfold insertChildren at h
  obtain ⟨a, ha, h⟩ := bind_ok h
  obtain ⟨b, hb, h⟩ := bind_ok h
  exact sameCore_trans (sameCore_trans (insertPassengers_sameCore ha)
    (insertMaterials_sameCore hb)) (insertTools_sameCore h)

theorem maxById_mem {l : List FleetTask} {f : FleetTask} (h : maxById l = some f) : f ∈ l := by
  induction l generalizing f with
  | nil => simp [maxById] at h
  | cons x xs ih =>
    unfold maxById at h
    split at h
    · cases h
      exact List.mem_cons_self _ _
    · rename_i y hy
      split at h
      · cases h
        exact List.mem_cons_self _ _
      · cases h
        exact List.mem_cons_of_mem _ (ih hy)

theorem nextFleetTaskId_pos (o : Option FleetTask) : nextFleetTaskId o ≠ 0 := by
  cases o <;> simp [nextFleetTaskId, jsSucc_ne_zero]

theorem fleetTaskFindLast_ok {env : Env} {t : Txn} {o : Option FleetTask}
    (h : FleetTask.findLast env t = .ok o) : o = maxById t.committed.fleetTasks := by
  unfold FleetTask.findLast at h
  obtain ⟨_, _, h⟩ := bind_ok h
  cases h
  rfl

theorem requireData_ok {data : Option TransportData} {d : TransportData}
    (h : requireData data = .ok d) : data = some d := by
  cases data with
  | none => cases h
  | some x => cases h; rfl

theorem handleTransport_ok {env : Env} {taskId r : Nat} {data : Option TransportData} {t t1 : Txn}
    (h : handleTransport env taskId data t = .ok (t1, r)) :
    ∃ d, data = some d ∧ r = nextFleetTaskId (maxById t.committed.fleetTasks) ∧
      t1.committed = t.committed ∧ t1.working.tasks = t.working.tasks ∧
      t1.working.fleetTasks = t.working.fleetTasks ++ [newFleetTask env r taskId d] := by
  unfold handleTransport at h
  obtain ⟨o, ho, h⟩ := bind_ok h
  obtain ⟨d, hd, h⟩ := bind_ok h
  obtain ⟨⟨t2, ft⟩, hc, h⟩ := bind_ok h
  obtain ⟨t3, hi, h⟩ := bind_ok h
  obtain ⟨hft, ht2⟩ := fleetTaskCreate_ok hc
  have hs := insertChildren_sameCore hi
  have ho2 := fleetTaskFindLast_ok ho
  cases h
  subst hft ho2
  refine ⟨d, requireData_ok hd, rfl, ?_, ?_, ?_⟩
  · rw [hs.1, ht2]
  · rw [hs.2.1, ht2]
  · rw [hs.2.2, ht2]
    rfl

theorem createTaskWith_ok {handlers : TaskType → Option Handler} {env : Env} {s s1 : Store}
    {taskData : TaskData} {task : Task}
    (h : createTaskWith handlers env s taskData = (s1, .ok task)) :
    ∃ t1 t2, Task.create env (taskData.toTask (generateTaskId env))
        { committed := s, working := s } = .ok (t1, task) ∧
      delegate handlers env taskData.taskType task.id taskData.additionalData t1 = .ok t2 ∧
      s1 = t2.working := by
  unfold createTaskWith at h
  split at h
  · simp at h
  · rename_i t task1 hb
    split at h
    · rename_i t3 hm
      unfold createTaskBody at hb
      obtain ⟨⟨t1, task2⟩, hc, hb⟩ := bind_ok hb
      obtain ⟨t2, hd, hb⟩ := bind_ok hb
      have ht3 := commitTransaction_ok hm
      cases hb
      simp only [Prod.mk.injEq, Except.ok.injEq] at h
      obtain ⟨h1, h2⟩ := h
      subst h2
      refine ⟨_, _, hc, hd, ?_⟩
      rw [← h1, ht3]
    · simp at h

theorem createTaskWith_error {handlers : TaskType → Option Handler} {env : Env} {s s1 : Store}
    {taskData : TaskData} {e : Error}
    (h : createTaskWith handlers env s taskData = (s1, .error e)) : s1 = s := by
  unfold createTaskWith at h
  split at h
  · simp only [Prod.mk.injEq] at h
    exact h.1.symm
  · split at h
    · simp at h
    · simp only [Prod.mk.injEq] at h
      exact h.1.symm

theorem delegate_transport_ok (handler : Handler) {handlers : TaskType → Option Handler}
    {env : Env} {taskId : Nat} {data : Option TransportData} {t t2 : Txn}
    (hh : handlers .TRANSPORT = some handler)
    (h : delegate handlers env .TRANSPORT taskId data t = .ok t2) :
    ∃ t1 r, handler env taskId data t = .ok (t1, r) ∧
      (r ≠ 0 → Task.updateOne env taskId r t1 = .ok t2) ∧ (r = 0 → t2 = t1) := by
  unfold delegate at h
  rw [hh] at h
  simp only at h
  obtain ⟨⟨t1, r⟩, hr, h⟩ := bind_ok h
  refine ⟨t1, r, hr, ?_, ?_⟩
  · intro hne
    simpa [hne] using h
  · intro he
    simp [he, pure, Except.pure] at h
    exact h.symm

theorem delegate_none {handlers : TaskType → Option Handler} {env : Env} {ty : TaskType}
    {taskId : Nat} {data : Option TransportData} {t : Txn} (hh : handlers ty = none) :
    delegate handlers env ty taskId data t = .ok t := by
  unfold delegate
  rw [hh]
  rfl

theorem updateFirst_append_last {α : Type} (p : α → Bool) (f : α → α) (l : List α) (x : α)
    (hl : l.any p = false) (hx : p x = true) : updateFirst p f (l ++ [x]) = l ++ [f x] := by
  induction l with
  | nil => simp [updateFirst, hx]
  | cons y ys ih =>
    simp only [List.any_cons, Bool.or_eq_false_iff] at hl
    simp [updateFirst, hl.1, ih hl.2]

theorem createTask_transport_ok {env : Env} {s s1 : Store} {taskData : TaskData} {task : Task}
    (hType : taskData.taskType = .TRANSPORT)
    (h : createTask env s taskData = (s1, .ok task)) :
    ∃ d, taskData.additionalData = some d ∧ task = taskData.toTask (generateTaskId env) ∧
      s.tasks.any (fun x => x.id == task.id) = false ∧
      s1.fleetTasks = s.fleetTasks ++
        [newFleetTask env (nextFleetTaskId (maxById s.fleetTasks)) task.id d] ∧
      s1.tasks = s.tasks ++
        [{ task with transportTaskId := some (nextFleetTaskId (maxById s.fleetTasks)) }] := by
  obtain ⟨t1, t2, hc, hd, hs⟩ := createTaskWith_ok h
  obtain ⟨htask, ht1, hfresh⟩ := taskCreate_ok hc
  have hfresh1 : s.tasks.any (fun x => x.id == task.id) = false := by
    rw [htask]
    exact hfresh
  have hc1 : t1.committed = s := by rw [ht1]
  have hw1 : t1.working.tasks = s.tasks ++ [task] := by rw [ht1, htask]
  have hf1 : t1.working.fleetTasks = s.fleetTasks := by rw [ht1]
  rw [hType] at hd
  obtain ⟨t3, r, hr, hpatch, _⟩ := delegate_transport_ok handleTransport rfl hd
  obtain ⟨d, hdata, hrid, _, htasks, hfleet⟩ := handleTransport_ok hr
  rw [hc1] at hrid
  have hne : r ≠ 0 := by
    rw [hrid]
    exact nextFleetTaskId_pos _
  have ht2 := taskUpdateOne_ok (hpatch hne)
  have e1 : s1.fleetTasks = t3.working.fleetTasks := by rw [hs, ht2]
  have e2 : s1.tasks = updateFirst (fun x => x.id == task.id)
      (fun x => { x with transportTaskId := some r }) t3.working.tasks := by rw [hs, ht2]
  refine ⟨d, hdata, htask, hfresh1, ?_, ?_⟩
  · rw [e1, hfleet, hf1, hrid]
  · rw [e2, htasks, hw1, ← hrid]
    apply updateFirst_append_last _ _ _ _ hfresh1
    simp

theorem find_append_last {α : Type} (p : α → Bool) (l : List α) (x : α)
    (hl : l.any p = false) (hx : p x = true) : (l ++ [x]).find? p = some x := by
  induction l with
  | nil => simp [hx]
  | cons y ys ih =>
    simp only [List.any_cons, Bool.or_eq_false_iff] at hl
    simp [List.find?, hl.1, ih hl.2]

theorem fleetTaskFindOne_ok {env : Env} {taskId : Nat} {t : Txn} {o : Option FleetTask}
    (h : FleetTask.findOne env taskId t = .ok o) :
    o = t.working.fleetTasks.find? (fun f => f.taskId == some taskId) := by
  unfold FleetTask.findOne at h
  obtain ⟨_, _, h⟩ := bind_ok h
  cases h
  rfl

theorem fleetTaskUpdateOne_ok {env : Env} {id : Nat} {d : TransportData} {t t1 : Txn}
    (h : FleetTask.updateOne env id d t = .ok t1) :
    t1 = { t with working := { t.working with
      fleetTasks := updateFirst (fun f => f.id == id) (FleetTask.setFields env d)
        t.working.fleetTasks } } := by
  unfold FleetTask.updateOne at h
  obtain ⟨_, _, h⟩ := bind_ok h
  cases h
  rfl

theorem passengerDeleteMany_ok {env : Env} {id : Nat} {t t1 : Txn}
    (h : FleetTaskPassenger.deleteMany env id t = .ok t1) :
    t1 = { t with working := { t.working with
      passengers := t.working.passengers.filter (fun r => r.fleetTaskId != id) } } := by
  unfold FleetTaskPassenger.deleteMany at h
  obtain ⟨_, _, h⟩ := bind_ok h
  cases h
  rfl

theorem materialDeleteMany_ok {env : Env} {id : Nat} {t t1 : Txn}
    (h : FleetTaskMaterial.deleteMany env id t = .ok t1) :
    t1 = { t with working := { t.working with
      materials := t.working.materials.filter (fun r => r.fleetTaskId != id) } } := by
  unfold FleetTaskMaterial.deleteMany at h
  obtain ⟨_, _, h⟩ := bind_ok h
  cases h
  rfl

theorem toolDeleteMany_ok {env : Env} {id : Nat} {t t1 : Txn}
    (h : FleetTaskTool.deleteMany env id t = .ok t1) :
    t1 = { t with working := { t.working with
      tools := t.working.tools.filter (fun r => r.fleetTaskId != id) } } := by
  unfold FleetTaskTool.deleteMany at h
  obtain ⟨_, _, h⟩ := bind_ok h
  cases h
  rfl

theorem handleTransportUpdate_found_ok {env : Env} {taskId r : Nat}
    {data : Option TransportData} {t t1 : Txn} {f0 : FleetTask}
    (hfound : t.working.fleetTasks.find? (fun f => f.taskId == some taskId) = some f0)
    (h : handleTransportUpdate env taskId data t = .ok (t1, r)) :
    ∃ d, data = some d ∧ r = f0.id ∧ t1.committed = t.committed ∧
      t1.working.tasks = t.working.tasks ∧
      t1.working.fleetTasks =
        updateFirst (fun f => f.id == f0.id) (FleetTask.setFields env d) t.working.fleetTasks := by
  unfold handleTransportUpdate at h
  obtain ⟨o, ho, h⟩ := bind_ok h
  have ho2 := fleetTaskFindOne_ok ho
  rw [hfound] at ho2
  subst ho2
  simp only at h
  obtain ⟨d, hd, h⟩ := bind_ok h
  obtain ⟨a, ha, h⟩ := bind_ok h
  obtain ⟨b, hb, h⟩ := bind_ok h
  obtain ⟨c, hc, h⟩ := bind_ok h
  obtain ⟨e, he, h⟩ := bind_ok h
  obtain ⟨g, hg, h⟩ := bind_ok h
  have ha2 := fleetTaskUpdateOne_ok ha
  have hb2 := passengerDeleteMany_ok hb
  have hc2 := materialDeleteMany_ok hc
  have he2 := toolDeleteMany_ok he
  have hs := insertChildren_sameCore hg
  cases h
  refine ⟨d, requireData_ok hd, rfl, ?_, ?_, ?_⟩
  · rw [hs.1, he2, hc2, hb2, ha2]
  · rw [hs.2.1, he2, hc2, hb2, ha2]
  · rw [hs.2.2, he2, hc2, hb2, ha2]

theorem taskFindOneAndUpdate_ok {env : Env} {taskId : Nat} {updates : Updates} {t t1 : Txn}
    {o : Option Task} (h : Task.findOneAndUpdate env taskId updates t = .ok (t1, o)) :
    o = (t.working.tasks.find? (fun x => x.id == taskId)).map (Task.setCore env updates) ∧
      t1.committed = t.committed ∧ t1.working.fleetTasks = t.working.fleetTasks ∧
      t1.working.passengers = t.working.passengers ∧
      t1.working.materials = t.working.materials ∧ t1.working.tools = t.working.tools ∧
      t1.working.tasks =
        updateFirst (fun y => y.id == taskId) (Task.setCore env updates) t.working.tasks ∧
      (o = none → t1 = t) := by
  unfold Task.findOneAndUpdate at h
  obtain ⟨_, _, h⟩ := bind_ok h
  have key : ∀ l : List Task, l.find? (fun x => x.id == taskId) = none →
      updateFirst (fun y => y.id == taskId) (Task.setCore env updates) l = l := by
    intro l hl
    induction l with
    | nil => rfl
    | cons y ys ih =>
      simp only [List.find?_cons] at hl
      split at hl
      · cases hl
      · rename_i hy
        simp [updateFirst, hy, ih hl]
  split at h
  · rename_i hn
    cases h
    refine ⟨by rw [hn]; rfl, rfl, rfl, rfl, rfl, rfl, (key _ hn).symm, fun _ => rfl⟩
  · rename_i x hx
    cases h
    refine ⟨by rw [hx]; rfl, rfl, rfl, rfl, rfl, rfl, rfl, fun hh => by cases hh⟩

theorem updateTaskWith_ok {handlers : TaskType → Option Handler} {env : Env} {s s1 : Store}
    {taskId : Nat} {updates : Updates} {task : Task}
    (h : updateTaskWith handlers env s taskId updates = (s1, .ok task)) :
    ∃ t1 t2, Task.findOneAndUpdate env taskId updates
        { committed := s, working := s } = .ok (t1, some task) ∧
      delegate handlers env task.taskType taskId updates.additionalData t1 = .ok t2 ∧
      s1 = t2.working := by
  unfold updateTaskWith at h
  split at h
  · simp at h
  · rename_i t task1 hb
    split at h
    · rename_i t3 hm
      unfold updateTaskBody at hb
      obtain ⟨⟨t1, o⟩, hc, hb⟩ := bind_ok hb
      cases o with
      | none => cases hb
      | some updatedTask =>
        simp only at hb
        obtain ⟨t2, hd, hb⟩ := bind_ok hb
        have ht3 := commitTransaction_ok hm
        cases hb
        simp only [Prod.mk.injEq, Except.ok.injEq] at h
        obtain ⟨h1, h2⟩ := h
        subst h2
        refine ⟨_, _, hc, hd, ?_⟩
        rw [← h1, ht3]
    · simp at h

theorem updateTaskWith_error {handlers : TaskType → Option Handler} {env : Env} {s s1 : Store}
    {taskId : Nat} {updates : Updates} {e : Error}
    (h : updateTaskWith handlers env s taskId updates = (s1, .error e)) : s1 = s := by
  unfold updateTaskWith at h
  split at h
  · simp only [Prod.mk.injEq] at h
    exact h.1.symm
  · split at h
    · simp at h
    · simp only [Prod.mk.injEq] at h
      exact h.1.symm

theorem map_updateFirst {α β : Type} (key : α → β) (p : α → Bool) (g : α → α)
    (hg : ∀ x, key (g x) = key x) (l : List α) : (updateFirst p g l).map key = l.map key := by
  induction l with
  | nil => rfl
  | cons y ys ih =>
    unfold updateFirst
    split
    · simp [hg]
    · simp [ih]

theorem find_updateFirst_same {α : Type} (p : α → Bool) (g : α → α)
    (hg : ∀ x, p (g x) = p x) (l : List α) :
    (updateFirst p g l).find? p = (l.find? p).map g := by
  induction l with
  | nil => rfl
  | cons y ys ih =>
    unfold updateFirst
    cases hy : p y
    · simp [List.find?_cons, hy, ih]
    · simp [List.find?_cons, hy, hg]

theorem find_updateFirst_byId (q : FleetTask → Bool) (g : FleetTask → FleetTask)
    (hq : ∀ x, q (g x) = q x) (l : List FleetTask) (f0 : FleetTask)
    (hnd : (l.map (fun f => f.id)).Nodup) (hfind : l.find? q = some f0) :
    (updateFirst (fun f => f.id == f0.id) g l).find? q = some (g f0) := by
  induction l with
  | nil => cases hfind
  | cons y ys ih =>
    simp only [List.map_cons, List.nodup_cons] at hnd
    simp only [List.find?_cons] at hfind
    cases hy : q y
    · rw [hy] at hfind
      simp only at hfind
      have hmem : f0 ∈ ys := List.mem_of_find?_eq_some hfind
      have hne : (y.id == f0.id) = false := by
        rw [beq_eq_false_iff_ne]
        intro he
        apply hnd.1
        rw [he]
        exact List.mem_map_of_mem _ hmem
      simp [updateFirst, hne, List.find?_cons, hy, ih hnd.2 hfind]
    · rw [hy] at hfind
      simp only [Option.some.injEq] at hfind
      subst hfind
      simp [updateFirst, List.find?_cons, hq, hy]

theorem updateTask_existing_ok {env : Env} {s s1 : Store} {taskId : Nat} {updates : Updates}
    {r task0 : Task} {f0 : FleetTask}
    (hTask : s.findTask taskId = some task0) (hType : task0.taskType = .TRANSPORT)
    (hFleet : s.fleetTaskOf taskId = some f0)
    (h : updateTask env s taskId updates = (s1, .ok r)) :
    ∃ d, updates.additionalData = some d ∧ r = Task.setCore env updates task0 ∧
      s1.fleetTasks =
        updateFirst (fun f => f.id == f0.id) (FleetTask.setFields env d) s.fleetTasks ∧
      s1.tasks =
        if f0.id = 0 then
          updateFirst (fun y => y.id == taskId) (Task.setCore env updates) s.tasks
        else
          updateFirst (fun x => x.id == taskId)
            (fun x => { x with transportTaskId := some f0.id })
            (updateFirst (fun y => y.id == taskId) (Task.setCore env updates) s.tasks) := by
  obtain ⟨t1, t2, hc, hd, hs⟩ := updateTaskWith_ok h
  obtain ⟨ho, hcm, hfl, _, _, _, htk, _⟩ := taskFindOneAndUpdate_ok hc
  simp only at ho hcm hfl htk
  unfold Store.findTask at hTask
  rw [hTask] at ho
  simp only [Option.map_some', Option.some.injEq] at ho
  have hrt : r.taskType = .TRANSPORT := by rw [ho]; exact hType
  rw [hrt] at hd
  obtain ⟨t3, k, hk, hpatch, hzero⟩ :=
    delegate_transport_ok handleTransportUpdate rfl hd
  have hfound : t1.working.fleetTasks.find? (fun f => f.taskId == some taskId) = some f0 := by
    rw [hfl]
    exact hFleet
  obtain ⟨d, hdata, hkid, _, htasks, hfleet⟩ := handleTransportUpdate_found_ok hfound hk
  refine ⟨d, hdata, ho, ?_, ?_⟩
  · by_cases hz : k = 0
    · rw [hs, hzero hz, hfleet, hfl]
    · rw [hs, taskUpdateOne_ok (hpatch hz)]
      simp only
      rw [hfleet, hfl]
  · by_cases hz : k = 0
    · rw [if_pos (hkid ▸ hz), hs, hzero hz, htasks, htk]
    · rw [if_neg (hkid ▸ hz), hs, taskUpdateOne_ok (hpatch hz)]
      simp only
      rw [htasks, htk, hkid]

/-! ## Atomicity of `createTask` -/

/-- C1: when the task type is TRANSPORT, the core Task insert succeeded and the
transport handler then fails with `e`, `createTask` fails with `e` and the store
after the call is the store before it (no Task, FleetTask or child row is added). -/
theorem createTask_handler_failure_rolls_back (env : Env) (s : Store) (taskData : TaskData)
    (t1 : Txn) (task : Task) (e : Error)
    (hType : taskData.taskType = .TRANSPORT)
    (hInsert : Task.create env (taskData.toTask (generateTaskId env))
      { committed := s, working := s } = .ok (t1, task))
    (hFail : handleTransport env task.id taskData.additionalData t1 = .error e) :
    createTask env s taskData = (s, .error e) := by
  simp [createTask, createTaskWith, createTaskBody, hInsert, delegate, hType, taskHandlers,
    hFail, bind, Except.bind, catchAbort, abortTransaction]

/-- Witness for C1: the store rejects the tool insert, the last child insert of
the handler, after the Task and FleetTask rows were written in the session. -/
theorem createTask_handler_failure_rolls_back_witness :
    (transportTask toolData).taskType = .TRANSPORT ∧
    Task.create toolFaultEnv ((transportTask toolData).toTask (generateTaskId toolFaultEnv))
      { committed := emptyStore, working := emptyStore } =
      .ok ({ committed := emptyStore,
             working := { emptyStore with tasks := [(transportTask toolData).toTask 10000] } },
           (transportTask toolData).toTask 10000) ∧
    handleTransport toolFaultEnv 10000 (some toolData)
      { committed := emptyStore,
        working := { emptyStore with tasks := [(transportTask toolData).toTask 10000] } } =
      .error (.storeFault .toolInsertMany) ∧
    createTask toolFaultEnv emptyStore (transportTask toolData) =
      (emptyStore, .error (.storeFault .toolInsertMany)) :=
  ⟨rfl, by decide, by decide,
    createTask_handler_failure_rolls_back toolFaultEnv emptyStore (transportTask toolData)
      { committed := emptyStore,
        working := { emptyStore with tasks := [(transportTask toolData).toTask 10000] } }
      ((transportTask toolData).toTask 10000) (.storeFault .toolInsertMany) rfl
      (by decide) (by decide)⟩


/-! ## Dispatch and back-reference on create -/

/-- C2: for each of the eight task types other than TRANSPORT the dispatch table
holds no handler, `createTask` behaves as it does with an empty table, the
FleetTask collection and the three child collections are unchanged, and on
success the one Task row added is the returned one, with `transportTaskId` not set. -/
theorem createTask_other_types_no_handler (env : Env) (s : Store) (taskData : TaskData)
    (hType : taskData.taskType ∈
      [TaskType.WORK, .MATERIAL, .TOOL, .INSPECTION, .MAINTENANCE, .ADMIN, .TRAINING, .OTHER]) :
    taskHandlers taskData.taskType = none ∧
    createTask env s taskData = createTaskWith (fun _ => none) env s taskData ∧
    (createTask env s taskData).1.fleetTasks = s.fleetTasks ∧
    (createTask env s taskData).1.passengers = s.passengers ∧
    (createTask env s taskData).1.materials = s.materials ∧
    (createTask env s taskData).1.tools = s.tools ∧
    ∀ task, (createTask env s taskData).2 = .ok task →
      (createTask env s taskData).1.tasks = s.tasks ++ [task] ∧ task.transportTaskId = none := by
  have hnone : taskHandlers taskData.taskType = none := by
    cases hty : taskData.taskType <;> simp [hty] at hType <;> rfl
  have hdel : ∀ (H : TaskType → Option Handler), H taskData.taskType = none →
      ∀ s1 task, createTaskWith H env s taskData = (s1, .ok task) →
        s1 = { s with tasks := s.tasks ++ [task] } ∧ task.transportTaskId = none := by
    intro H hH s1 task h
    obtain ⟨t1, t2, hc, hd, hs⟩ := createTaskWith_ok h
    rw [delegate_none hH] at hd
    cases hd
    obtain ⟨htask, ht1, _⟩ := taskCreate_ok hc
    subst hs ht1 htask
    exact ⟨rfl, rfl⟩
  have hframe : ∀ (H : TaskType → Option Handler), H taskData.taskType = none →
      (createTaskWith H env s taskData).1.fleetTasks = s.fleetTasks ∧
      (createTaskWith H env s taskData).1.passengers = s.passengers ∧
      (createTaskWith H env s taskData).1.materials = s.materials ∧
      (createTaskWith H env s taskData).1.tools = s.tools := by
    intro H hH
    cases hr : createTaskWith H env s taskData with
    | mk s1 r =>
      cases r with
      | ok task =>
        obtain ⟨h1, _⟩ := hdel H hH s1 task hr
        subst h1
        exact ⟨rfl, rfl, rfl, rfl⟩
      | error e =>
        have : s1 = s := createTaskWith_error hr
        subst this
        exact ⟨rfl, rfl, rfl, rfl⟩
  refine ⟨hnone, ?_, (hframe _ hnone).1, (hframe _ hnone).2.1, (hframe _ hnone).2.2.1,
    (hframe _ hnone).2.2.2, ?_⟩
  · simp [createTask, createTaskWith, createTaskBody, delegate, hnone]
  · intro task h
    cases hr : createTask env s taskData with
    | mk s1 r =>
      rw [hr] at h
      simp only at h
      subst h
      obtain ⟨h1, h2⟩ := hdel taskHandlers hnone s1 task hr
      subst h1
      exact ⟨rfl, h2⟩


/-- Witness for C2: a WORK task whose `additionalData` looks like a worker
transport payload leaves the FleetTask and passenger collections empty. -/
theorem createTask_other_types_no_handler_witness :
    workTask.taskType ∈
      [TaskType.WORK, .MATERIAL, .TOOL, .INSPECTION, .MAINTENANCE, .ADMIN, .TRAINING, .OTHER] ∧
    taskHandlers workTask.taskType = none ∧
    (createTask quietEnv emptyStore workTask).1.fleetTasks = emptyStore.fleetTasks ∧
    (createTask quietEnv emptyStore workTask).1.passengers = emptyStore.passengers :=
  ⟨by decide,
    (createTask_other_types_no_handler quietEnv emptyStore workTask (by decide)).1,
    (createTask_other_types_no_handler quietEnv emptyStore workTask (by decide)).2.2.1,
    (createTask_other_types_no_handler quietEnv emptyStore workTask (by decide)).2.2.2.1⟩

/-- C6: after a successful `createTask` with task type TRANSPORT the call has
added exactly one FleetTask row `f`, whose `taskId` is the id of the new Task, and
the stored Task row (the one row added, found by its id) has
`transportTaskId = f.id`. -/
theorem createTask_transport_links_back (env : Env) (s s1 : Store) (taskData : TaskData)
    (task : Task) (hType : taskData.taskType = .TRANSPORT)
    (hOk : createTask env s taskData = (s1, .ok task)) :
    ∃ f stored, s1.fleetTasks = s.fleetTasks ++ [f] ∧ f.taskId = some task.id ∧
      s1.tasks = s.tasks ++ [stored] ∧ s1.findTask task.id = some stored ∧
      stored.id = task.id ∧ stored.transportTaskId = some f.id := by
  obtain ⟨d, _, _, hfresh, hfleet, htasks⟩ := createTask_transport_ok hType hOk
  refine ⟨_, _, hfleet, rfl, htasks, ?_, rfl, rfl⟩
  unfold Store.findTask
  rw [htasks]
  apply find_append_last _ _ _ hfresh
  simp


/-- Witness for C6: a material transport task created on `tripStore`, where
FleetTask 7 exists: the new FleetTask gets id 8 and the stored Task points to it. -/
theorem createTask_transport_links_back_witness :
    (transportTask materialData).taskType = .TRANSPORT ∧
    createTask quietEnv tripStore (transportTask materialData) =
      (afterMaterialTrip, .ok ((transportTask materialData).toTask 10000)) ∧
    afterMaterialTrip.fleetTasks.map (fun f => f.id) = [7, 8] ∧
    afterMaterialTrip.tasks.map (fun x => (x.id, x.transportTaskId)) =
      [(20000, some 7), (10000, some 8)] ∧
    ∃ f stored, afterMaterialTrip.fleetTasks = tripStore.fleetTasks ++ [f] ∧
      f.taskId = some ((transportTask materialData).toTask 10000).id ∧
      afterMaterialTrip.tasks = tripStore.tasks ++ [stored] ∧
      afterMaterialTrip.findTask ((transportTask materialData).toTask 10000).id = some stored ∧
      stored.id = ((transportTask materialData).toTask 10000).id ∧
      stored.transportTaskId = some f.id :=
  ⟨rfl, by decide, by decide, by decide,
    createTask_transport_links_back quietEnv tripStore afterMaterialTrip
      (transportTask materialData) ((transportTask materialData).toTask 10000) rfl (by decide)⟩

/-! ## Field overwrite on update -/

/-- C8 (as stated, refuted): on `tripStore`, an update with pickup "Gate A" and
driver 9, then one with pickup "Gate B" and no `driverId`: both calls succeed and
the FleetTask ends with pickup "Gate B" and driver 9, the value of the first
payload, which the second `$set` does not touch. -/
theorem updateTask_second_payload_keeps_driver :
    updateTask quietEnv tripStore 20000 gateA =
      (afterGateA, .ok (Task.setCore quietEnv gateA tripTask)) ∧
    updateTask quietEnv afterGateA 20000 gateB =
      (afterGateB, .ok (Task.setCore quietEnv gateB
        { Task.setCore quietEnv gateA tripTask with transportTaskId := some 7 })) ∧
    gateB.additionalData.map (fun d => (d.pickupLocation, d.driverId)) =
      some (some "Gate B", none) ∧
    (afterGateB.fleetTaskOf 20000).map (fun f => (f.pickupLocation, f.driverId)) =
      some (some "Gate B", some 9) := by
  decide

/-- C8 (amended): for a TRANSPORT task whose FleetTask `f0` exists (FleetTask ids
being pairwise distinct, as their unique index requires), after two successful
`updateTask` calls with payloads `u1` then `u2` the task's FleetTask is still the
row with id `f0.id`, and each overwritten field holds the value of `u2` when
`u2` gives the field a value, else the value of `u1` when `u1` gives one, else
the value it had before the two calls. -/
theorem updateTask_twice_fields_merge (env1 env2 : Env) (s s1 s2 : Store) (taskId : Nat)
    (u1 u2 : Updates) (r1 r2 task0 : Task) (f0 : FleetTask)
    (hTask : s.findTask taskId = some task0) (hType : task0.taskType = .TRANSPORT)
    (hFleet : s.fleetTaskOf taskId = some f0)
    (hIds : (s.fleetTasks.map (fun f => f.id)).Nodup)
    (h1 : updateTask env1 s taskId u1 = (s1, .ok r1))
    (h2 : updateTask env2 s1 taskId u2 = (s2, .ok r2)) :
    ∃ d1 d2 f2, u1.additionalData = some d1 ∧ u2.additionalData = some d2 ∧
      s2.fleetTaskOf taskId = some f2 ∧ f2.id = f0.id ∧
      f2.pickupLocation = setPath d2.pickupLocation (setPath d1.pickupLocation f0.pickupLocation) ∧
      f2.driverId = setPath d2.driverId (setPath d1.driverId f0.driverId) ∧
      f2.vehicleId = setPath d2.vehicleId (setPath d1.vehicleId f0.vehicleId) ∧
      f2.transportType = setPath d2.transportType (setPath d1.transportType f0.transportType) ∧
      f2.dropLocation = setPath d2.dropLocation (setPath d1.dropLocation f0.dropLocation) ∧
      f2.pickupTime = setPath d2.pickupTime (setPath d1.pickupTime f0.pickupTime) ∧
      f2.dropTime = setPath d2.dropTime (setPath d1.dropTime f0.dropTime) ∧
      f2.companyId = setPath d2.companyId (setPath d1.companyId f0.companyId) ∧
      f2.projectId = setPath d2.projectId (setPath d1.projectId f0.projectId) ∧
      f2.plannedPickupTime =
        setPath d2.pickupTime (setPath d1.pickupTime f0.plannedPickupTime) ∧
      f2.plannedDropTime = setPath d2.dropTime (setPath d1.dropTime f0.plannedDropTime) ∧
      (∀ v, d2.pickupLocation = some v → f2.pickupLocation = some v) ∧
      (d2.pickupLocation = none → ∀ v, d1.pickupLocation = some v →
        f2.pickupLocation = some v) := by
  obtain ⟨d1, hd1, hr1, hfl1, htk1⟩ := updateTask_existing_ok hTask hType hFleet h1
  have hq : ∀ (env : Env) (d : TransportData) (x : FleetTask),
      ((FleetTask.setFields env d x).taskId == some taskId) = (x.taskId == some taskId) :=
    fun _ _ _ => rfl
  have hFleet1 : s1.fleetTaskOf taskId = some (FleetTask.setFields env1 d1 f0) := by
    unfold Store.fleetTaskOf
    rw [hfl1]
    exact find_updateFirst_byId _ _ (hq env1 d1) _ _ hIds hFleet
  have hIds1 : (s1.fleetTasks.map (fun f => f.id)).Nodup := by
    rw [hfl1, map_updateFirst (fun f : FleetTask => f.id) (fun f => f.id == f0.id)
      (FleetTask.setFields env1 d1) (fun _ => rfl)]
    exact hIds
  have hTask1 : ∃ task1, s1.findTask taskId = some task1 ∧ task1.taskType = .TRANSPORT := by
    unfold Store.findTask at hTask ⊢
    rw [htk1]
    have hcore := find_updateFirst_same (fun x : Task => x.id == taskId) (Task.setCore env1 u1)
      (fun _ => rfl) s.tasks
    rw [hTask] at hcore
    split
    · exact ⟨_, hcore, hType⟩
    · rw [find_updateFirst_same (fun x : Task => x.id == taskId)
        (fun x => { x with transportTaskId := some f0.id }) (fun _ => rfl), hcore]
      exact ⟨_, rfl, hType⟩
  obtain ⟨task1, hTask1, hType1⟩ := hTask1
  obtain ⟨d2, hd2, _, hfl2, _⟩ := updateTask_existing_ok hTask1 hType1 hFleet1 h2
  refine ⟨d1, d2, FleetTask.setFields env2 d2 (FleetTask.setFields env1 d1 f0), hd1, hd2, ?_,
    rfl, rfl, rfl, rfl, rfl, rfl, rfl, rfl, rfl, rfl, rfl, rfl, ?_, ?_⟩
  · unfold Store.fleetTaskOf
    rw [hfl2]
    exact find_updateFirst_byId _ _ (hq env2 d2) _ _ hIds1 hFleet1
  · intro v hv
    simp [FleetTask.setFields, setPath, hv]
  · intro hn v hv
    simp [FleetTask.setFields, setPath, hn, hv]

/-- Witness for C8: on `tripStore`, an update with pickup "Gate A" and driver 9,
then one with pickup "Gate B" and no driver: the FleetTask ends with pickup
"Gate B", driver 9 and the vehicle it had before. -/
theorem updateTask_twice_fields_merge_witness :
    tripStore.findTask 20000 = some tripTask ∧ tripTask.taskType = .TRANSPORT ∧
    tripStore.fleetTaskOf 20000 = some tripFleetTask ∧
    (tripStore.fleetTasks.map (fun f => f.id)).Nodup ∧
    afterGateB.fleetTaskOf 20000 =
      some { tripFleetTask with
        driverId := some 9, pickupLocation := some "Gate B", updatedAt := some 1000 } ∧
    ∃ d1 d2 f2, gateA.additionalData = some d1 ∧ gateB.additionalData = some d2 ∧
      afterGateB.fleetTaskOf 20000 = some f2 ∧ f2.id = tripFleetTask.id ∧
      f2.pickupLocation =
        setPath d2.pickupLocation (setPath d1.pickupLocation tripFleetTask.pickupLocation) ∧
      f2.driverId = setPath d2.driverId (setPath d1.driverId tripFleetTask.driverId) ∧
      f2.vehicleId = setPath d2.vehicleId (setPath d1.vehicleId tripFleetTask.vehicleId) ∧
      f2.transportType =
        setPath d2.transportType (setPath d1.transportType tripFleetTask.transportType) ∧
      f2.dropLocation =
        setPath d2.dropLocation (setPath d1.dropLocation tripFleetTask.dropLocation) ∧
      f2.pickupTime = setPath d2.pickupTime (setPath d1.pickupTime tripFleetTask.pickupTime) ∧
      f2.dropTime = setPath d2.dropTime (setPath d1.dropTime tripFleetTask.dropTime) ∧
      f2.companyId = setPath d2.companyId (setPath d1.companyId tripFleetTask.companyId) ∧
      f2.projectId = setPath d2.projectId (setPath d1.projectId tripFleetTask.projectId) ∧
      f2.plannedPickupTime =
        setPath d2.pickupTime (setPath d1.pickupTime tripFleetTask.plannedPickupTime) ∧
      f2.plannedDropTime =
        setPath d2.dropTime (setPath d1.dropTime tripFleetTask.plannedDropTime) ∧
      (∀ v, d2.pickupLocation = some v → f2.pickupLocation = some v) ∧
      (d2.pickupLocation = none → ∀ v, d1.pickupLocation = some v →
        f2.pickupLocation = some v) :=
  ⟨by decide, rfl, by decide, by decide, by decide,
    updateTask_twice_fields_merge quietEnv quietEnv tripStore afterGateA afterGateB 20000
      gateA gateB (Task.setCore quietEnv gateA tripTask)
      (Task.setCore quietEnv gateB
        { Task.setCore quietEnv gateA tripTask with transportTaskId := some 7 })
      tripTask tripFleetTask (by decide) rfl (by decide) (by decide) (by decide) (by decide)⟩


/-! ## Returned record of `createTask` -/

/-- C7 (counterexample): `createTask` on the empty store with a material
transport payload succeeds, creates FleetTask 1 and stores `transportTaskId = 1`
on the Task row, yet the record it returns has no `transportTaskId`. -/
theorem createTask_returned_record_not_patched :
    (createTask quietEnv emptyStore (transportTask materialData)).2 =
      .ok ((transportTask materialData).toTask 10000) ∧
    ((transportTask materialData).toTask 10000).transportTaskId = none ∧
    (createTask quietEnv emptyStore (transportTask materialData)).1.fleetTasks.map
      (fun f => f.id) = [1] ∧
    (createTask quietEnv emptyStore (transportTask materialData)).1.tasks.map
      (fun x => x.transportTaskId) = [some 1] := by
  decide

/-- C7 (amended): after a successful `createTask` with task type TRANSPORT the
record returned to the caller is the document as it was inserted, before the
back-reference patch, so its `transportTaskId` is not populated; the id of the
new FleetTask is on the stored Task row only. -/
theorem createTask_returns_inserted_document (env : Env) (s s1 : Store) (taskData : TaskData)
    (task : Task) (hType : taskData.taskType = .TRANSPORT)
    (hOk : createTask env s taskData = (s1, .ok task)) :
    task = taskData.toTask (generateTaskId env) ∧ task.transportTaskId = none ∧
    ∃ f stored, s1.fleetTasks = s.fleetTasks ++ [f] ∧ s1.findTask task.id = some stored ∧
      stored = { task with transportTaskId := some f.id } := by
  obtain ⟨d, _, htask, hfresh, hfleet, htasks⟩ := createTask_transport_ok hType hOk
  refine ⟨htask, by rw [htask]; rfl, _, _, hfleet, ?_, rfl⟩
  unfold Store.findTask
  rw [htasks]
  apply find_append_last _ _ _ hfresh
  simp

/-- Witness for C7 (amended): a tool transport task created on `bareStore`. -/
theorem createTask_returns_inserted_document_witness :
    (transportTask toolData).taskType = .TRANSPORT ∧
    createTask quietEnv bareStore (transportTask toolData) =
      (afterToolTrip, .ok ((transportTask toolData).toTask 10000)) ∧
    (transportTask toolData).toTask 10000 =
      (transportTask toolData).toTask (generateTaskId quietEnv) ∧
    ((transportTask toolData).toTask 10000).transportTaskId = none ∧
    ∃ f stored, afterToolTrip.fleetTasks = bareStore.fleetTasks ++ [f] ∧
      afterToolTrip.findTask ((transportTask toolData).toTask 10000).id = some stored ∧
      stored = { (transportTask toolData).toTask 10000 with transportTaskId := some f.id } :=
  ⟨rfl, by decide,
    createTask_returns_inserted_document quietEnv bareStore afterToolTrip
      (transportTask toolData) ((transportTask toolData).toTask 10000) rfl (by decide)⟩

/-! ## Worker transport and the passenger schema -/

/-- C3 (failing input): `createTask` on the empty store with
`transportType = WORKER_TRANSPORT` and `workers = [1, 2, 3]`.  The passenger
documents carry neither `id` nor `companyId`, validation rejects them, the call
fails and no passenger row (nor any other row) exists afterwards. -/
theorem createTask_worker_transport_rejected :
    validateAll quietEnv ([1, 2, 3].map (fun empId => passengerOf 1 empId)) = none ∧
    createTask quietEnv emptyStore (transportTask workerData) =
      (emptyStore, .error .validationError) ∧
    (createTask quietEnv emptyStore (transportTask workerData)).1.passengersOf 1 = [] := by
  decide

/-- C4 (failing input): `updateTask` on `tripStore` (FleetTask 7 with three
passenger rows) with `transportType = WORKER_TRANSPORT` and `workers = [4, 5]`.
The re-insert is rejected by validation, the call fails, the transaction is
rolled back and the three old rows are still the passenger rows of FleetTask 7. -/
theorem updateTask_worker_transport_rejected :
    updateTask quietEnv tripStore 20000
        (updatesOf { blankData with transportType := some "WORKER_TRANSPORT",
                                    workers := some [4, 5] }) =
      (tripStore, .error .validationError) ∧
    (updateTask quietEnv tripStore 20000
        (updatesOf { blankData with transportType := some "WORKER_TRANSPORT",
                                    workers := some [4, 5] })).1.passengersOf 7 =
      [oldPassenger 1 1, oldPassenger 2 2, oldPassenger 3 3] := by
  decide

/-! ## Update of a task that has no FleetTask -/

/-- C5 (failing input): `updateTask` on `bareStore` (a TRANSPORT task with no
FleetTask) with a MATERIAL_TRANSPORT payload of one material line.  The call
succeeds and creates FleetTask 1 for the task, but inserts no material row,
whereas `handleTransport` with the same arguments inserts one. -/
theorem updateTask_fallback_inserts_no_children :
    bareStore.fleetTaskOf 20000 = none ∧
    (updateTask quietEnv bareStore 20000 (updatesOf materialData)).2 =
      .ok (Task.setCore quietEnv (updatesOf materialData)
        { tripTask with transportTaskId := none }) ∧
    (updateTask quietEnv bareStore 20000 (updatesOf materialData)).1.fleetTasks.map
      (fun f => (f.id, f.taskId, f.transportType)) =
      [(1, some 20000, some "MATERIAL_TRANSPORT")] ∧
    (updateTask quietEnv bareStore 20000 (updatesOf materialData)).1.materials = [] ∧
    (handleTransport quietEnv 20000 (some materialData)
        { committed := bareStore, working := bareStore }).map
      (fun r => r.1.working.materials) = .ok [⟨1, 7, 2⟩] := by
  decide

/-! ## Update of a task that does not exist -/

/-- C9: when no Task row has id `taskId`, `updateTask` leaves the store as it
was and fails, whatever the dispatch table holds (no update handler is reached);
when the store answers the lookup the error is "Task not found". -/
theorem updateTask_not_found (env : Env) (s : Store) (taskId : Nat) (updates : Updates)
    (hNone : s.findTask taskId = none) :
    (updateTask env s taskId updates).1 = s ∧
    (env.fault .taskFindOneAndUpdate = false →
      updateTask env s taskId updates = (s, .error (.jsError "Task not found"))) ∧
    ∀ handlers : TaskType → Option Handler,
      updateTaskWith handlers env s taskId updates = updateTask env s taskId updates ∧
      ∃ e, updateTaskWith handlers env s taskId updates = (s, .error e) := by
  have key : ∀ handlers : TaskType → Option Handler,
      updateTaskWith handlers env s taskId updates =
        (s, .error (if env.fault .taskFindOneAndUpdate then .storeFault .taskFindOneAndUpdate
          else .jsError "Task not found")) := by
    intro handlers
    unfold Store.findTask at hNone
    cases hf : env.fault .taskFindOneAndUpdate <;>
      simp [updateTaskWith, updateTaskBody, Task.findOneAndUpdate, storeOp, hf, hNone, bind,
        Except.bind, pure, Except.pure, throw, throwThe, MonadExceptOf.throw, catchAbort,
        abortTransaction]
  refine ⟨?_, ?_, ?_⟩
  · unfold updateTask
    rw [key]
  · intro hf
    unfold updateTask
    rw [key, hf]
    rfl
  · intro handlers
    unfold updateTask
    rw [key, key]
    exact ⟨rfl, _, rfl⟩

/-- Witness for C9: `tripStore` has no Task 20001. -/
theorem updateTask_not_found_witness :
    tripStore.findTask 20001 = none ∧
    updateTask quietEnv tripStore 20001 gateA =
      (tripStore, .error (.jsError "Task not found")) :=
  ⟨by decide, (updateTask_not_found quietEnv tripStore 20001 gateA (by decide)).2.1 rfl⟩

/-! ## Atomicity of `updateTask` -/

/-- C10: when the core Task update found a TRANSPORT task and the update
handler then fails with `e` (at the FleetTask update, a child delete or a child
re-insert), `updateTask` fails with `e` and the store after the call is the
store before it. -/
theorem updateTask_handler_failure_rolls_back (env : Env) (s : Store) (taskId : Nat)
    (updates : Updates) (t1 : Txn) (updatedTask : Task) (e : Error)
    (hCore : Task.findOneAndUpdate env taskId updates { committed := s, working := s } =
      .ok (t1, some updatedTask))
    (hType : updatedTask.taskType = .TRANSPORT)
    (hFail : handleTransportUpdate env taskId updates.additionalData t1 = .error e) :
    updateTask env s taskId updates = (s, .error e) := by
  simp [updateTask, updateTaskWith, updateTaskBody, hCore, delegate, hType, updateHandlers,
    hFail, bind, Except.bind, catchAbort, abortTransaction]

/-- Witness for C10: on `tripStore` the store rejects the tool delete, after the
Task update, the FleetTask update and two child deletes were done in the session. -/
theorem updateTask_handler_failure_rolls_back_witness :
    Task.findOneAndUpdate toolDeleteFaultEnv 20000 (updatesOf materialData)
        { committed := tripStore, working := tripStore } =
      .ok ({ committed := tripStore,
             working := { tripStore with
               tasks := [Task.setCore toolDeleteFaultEnv (updatesOf materialData) tripTask] } },
           some (Task.setCore toolDeleteFaultEnv (updatesOf materialData) tripTask)) ∧
    (Task.setCore toolDeleteFaultEnv (updatesOf materialData) tripTask).taskType = .TRANSPORT ∧
    handleTransportUpdate toolDeleteFaultEnv 20000 (updatesOf materialData).additionalData
        { committed := tripStore,
          working := { tripStore with
            tasks := [Task.setCore toolDeleteFaultEnv (updatesOf materialData) tripTask] } } =
      .error (.storeFault .toolDeleteMany) ∧
    updateTask toolDeleteFaultEnv tripStore 20000 (updatesOf materialData) =
      (tripStore, .error (.storeFault .toolDeleteMany)) :=
  ⟨by decide, rfl, by decide,
    updateTask_handler_failure_rolls_back toolDeleteFaultEnv tripStore 20000
      (updatesOf materialData)
      { committed := tripStore,
        working := { tripStore with
          tasks := [Task.setCore toolDeleteFaultEnv (updatesOf materialData) tripTask] } }
      (Task.setCore toolDeleteFaultEnv (updatesOf materialData) tripTask)
      (.storeFault .toolDeleteMany) (by decide) rfl (by decide)⟩

/-! ## Child rows written by the handlers -/

theorem validateAll_passengerOf {env : Env} {id : Nat} {ws : List Nat}
    {rows : List FleetTaskPassenger}
    (h : validateAll env (ws.map (fun empId => passengerOf id empId)) = some rows) : ws = [] := by
  cases ws with
  | nil => rfl
  | cons w ws => simp [validateAll, PassengerDoc.validate, passengerOf] at h

theorem getD_of_not_truthy {α : Type} {o : Option (List α)} (h : truthyArray o = false) :
    o.getD [] = [] := by
  cases o with
  | none => rfl
  | some l =>
    cases l with
    | nil => rfl
    | cons x xs => simp [truthyArray] at h

theorem insertPassengers_ok {env : Env} {d : TransportData} {id : Nat} {t t1 : Txn}
    (h : insertPassengers env d id t = .ok t1) : t1 = t := by
  unfold insertPassengers at h
  split at h
  · rename_i hc
    obtain ⟨rows, hv, _⟩ := passengerInsertMany_ok h
    have hw := validateAll_passengerOf hv
    simp only [Bool.and_eq_true] at hc
    cases hwk : d.workers with
    | none => rw [hwk] at hc; simp [truthyArray] at hc
    | some l =>
      rw [hwk] at hw hc
      simp only [Option.getD_some] at hw
      rw [hw] at hc
      simp [truthyArray] at hc
  · cases h
    rfl

theorem insertMaterials_ok {env : Env} {d : TransportData} {id : Nat} {t t1 : Txn}
    (h : insertMaterials env d id t = .ok t1) :
    t1 = { t with working := { t.working with
      materials := t.working.materials ++ materialRows d id } } := by
  unfold insertMaterials at h
  split at h
  · rename_i hc
    simp only [Bool.and_eq_true, beq_iff_eq] at hc
    rw [materialInsertMany_ok h]
    simp [materialRows, hc.1]
  · rename_i hc
    cases h
    have hrows : materialRows d id = [] := by
      unfold materialRows
      split
      · rename_i hty
        simp only [Bool.and_eq_true, beq_iff_eq, not_and, Bool.not_eq_true] at hc
        rw [getD_of_not_truthy (hc hty)]
        rfl
      · rfl
    simp [hrows]

theorem insertTools_ok {env : Env} {d : TransportData} {id : Nat} {t t1 : Txn}
    (h : insertTools env d id t = .ok t1) :
    t1 = { t with working := { t.working with tools := t.working.tools ++ toolRows d id } } := by
  unfold insertTools at h
  split at h
  · rename_i hc
    simp only [Bool.and_eq_true, beq_iff_eq] at hc
    rw [toolInsertMany_ok h]
    simp [toolRows, hc.1]
  · rename_i hc
    cases h
    have hrows : toolRows d id = [] := by
      unfold toolRows
      split
      · rename_i hty
        simp only [Bool.and_eq_true, beq_iff_eq, not_and, Bool.not_eq_true] at hc
        rw [getD_of_not_truthy (hc hty)]
        rfl
      · rfl
    simp [hrows]

theorem insertChildren_ok {env : Env} {d : TransportData} {id : Nat} {t t1 : Txn}
    (h : insertChildren env d id t = .ok t1) :
    t1 = { t with working := { t.working with
      materials := t.working.materials ++ materialRows d id
      tools := t.working.tools ++ toolRows d id } } := by
  unfold insertChildren at h
  obtain ⟨a, ha, h⟩ := bind_ok h
  obtain ⟨b, hb, h⟩ := bind_ok h
  rw [insertTools_ok h, insertMaterials_ok hb, insertPassengers_ok ha]

theorem materialRows_other (d : TransportData) (r : Nat)
    (h : d.transportType ≠ some "MATERIAL_TRANSPORT") : materialRows d r = [] := by
  unfold materialRows
  rw [if_neg h]

theorem toolRows_other (d : TransportData) (r : Nat)
    (h : d.transportType ≠ some "TOOL_TRANSPORT") : toolRows d r = [] := by
  unfold toolRows
  rw [if_neg h]

theorem handleTransport_full {env : Env} {taskId r : Nat} {data : Option TransportData}
    {t t1 : Txn} (h : handleTransport env taskId data t = .ok (t1, r)) :
    ∃ d, data = some d ∧ r = nextFleetTaskId (maxById t.committed.fleetTasks) ∧
      t1 = { committed := t.committed
             working := { t.working with
               fleetTasks := t.working.fleetTasks ++ [newFleetTask env r taskId d]
               materials := t.working.materials ++ materialRows d r
               tools := t.working.tools ++ toolRows d r } } := by
  unfold handleTransport at h
  obtain ⟨o, ho, h⟩ := bind_ok h
  obtain ⟨d, hd, h⟩ := bind_ok h
  obtain ⟨⟨t2, ft⟩, hc, h⟩ := bind_ok h
  obtain ⟨t3, hi, h⟩ := bind_ok h
  obtain ⟨hft, ht2⟩ := fleetTaskCreate_ok hc
  have hi2 := insertChildren_ok hi
  have ho2 := fleetTaskFindLast_ok ho
  cases h
  subst hft ho2
  refine ⟨d, requireData_ok hd, rfl, ?_⟩
  rw [hi2, ht2]
  rfl

theorem handleTransportUpdate_missing_ok {env : Env} {taskId r : Nat}
    {data : Option TransportData} {t t1 : Txn}
    (hnone : t.working.fleetTasks.find? (fun f => f.taskId == some taskId) = none)
    (h : handleTransportUpdate env taskId data t = .ok (t1, r)) :
    ∃ d, data = some d ∧ r = nextFleetTaskId (maxById t.committed.fleetTasks) ∧
      t1 = { t with working := { t.working with
        fleetTasks := t.working.fleetTasks ++ [newFleetTask env r taskId d] } } := by
  unfold handleTransportUpdate at h
  obtain ⟨o, ho, h⟩ := bind_ok h
  have ho2 := fleetTaskFindOne_ok ho
  rw [hnone] at ho2
  subst ho2
  simp only at h
  obtain ⟨o2, hl, h⟩ := bind_ok h
  obtain ⟨d, hd, h⟩ := bind_ok h
  obtain ⟨⟨t2, ft⟩, hc, h⟩ := bind_ok h
  obtain ⟨hft, ht2⟩ := fleetTaskCreate_ok hc
  have hl2 := fleetTaskFindLast_ok hl
  cases h
  subst hft hl2
  exact ⟨d, requireData_ok hd, rfl, ht2⟩

theorem handleTransportUpdate_found_full {env : Env} {taskId r : Nat}
    {data : Option TransportData} {t t1 : Txn} {f0 : FleetTask}
    (hfound : t.working.fleetTasks.find? (fun f => f.taskId == some taskId) = some f0)
    (h : handleTransportUpdate env taskId data t = .ok (t1, r)) :
    ∃ d, data = some d ∧ r = f0.id ∧
      t1 = { committed := t.committed
             working :=
               { tasks := t.working.tasks
                 fleetTasks := updateFirst (fun f => f.id == f0.id) (FleetTask.setFields env d)
                   t.working.fleetTasks
                 passengers := t.working.passengers.filter (fun x => x.fleetTaskId != f0.id)
                 materials := t.working.materials.filter (fun x => x.fleetTaskId != f0.id) ++
                   materialRows d f0.id
                 tools := t.working.tools.filter (fun x => x.fleetTaskId != f0.id) ++
                   toolRows d f0.id } } := by
  unfold handleTransportUpdate at h
  obtain ⟨o, ho, h⟩ := bind_ok h
  have ho2 := fleetTaskFindOne_ok ho
  rw [hfound] at ho2
  subst ho2
  simp only at h
  obtain ⟨d, hd, h⟩ := bind_ok h
  obtain ⟨a, ha, h⟩ := bind_ok h
  obtain ⟨b, hb, h⟩ := bind_ok h
  obtain ⟨c, hc, h⟩ := bind_ok h
  obtain ⟨e, he, h⟩ := bind_ok h
  obtain ⟨g, hg, h⟩ := bind_ok h
  have ha2 := fleetTaskUpdateOne_ok ha
  have hb2 := passengerDeleteMany_ok hb
  have hc2 := materialDeleteMany_ok hc
  have he2 := toolDeleteMany_ok he
  have hg2 := insertChildren_ok hg
  cases h
  refine ⟨d, requireData_ok hd, rfl, ?_⟩
  rw [hg2, he2, hc2, hb2, ha2]

/-! ## What a successful call leaves in the store -/

theorem taskHandlers_none {ty : TaskType} (h : ty ≠ .TRANSPORT) : taskHandlers ty = none := by
  cases ty <;> first | rfl | exact absurd rfl h

theorem updateHandlers_none {ty : TaskType} (h : ty ≠ .TRANSPORT) : updateHandlers ty = none := by
  cases ty <;> first | rfl | exact absurd rfl h

theorem createTask_ok_full {env : Env} {s s1 : Store} {taskData : TaskData} {task : Task}
    (h : createTask env s taskData = (s1, .ok task)) :
    task = taskData.toTask (generateTaskId env) ∧
    s.tasks.any (fun x => x.id == task.id) = false ∧
    ((taskData.taskType ≠ .TRANSPORT ∧ s1 = { s with tasks := s.tasks ++ [task] }) ∨
     (taskData.taskType = .TRANSPORT ∧ ∃ d, taskData.additionalData = some d ∧
       s1 =
         { tasks := s.tasks ++
             [{ task with transportTaskId := some (nextFleetTaskId (maxById s.fleetTasks)) }]
           fleetTasks := s.fleetTasks ++
             [newFleetTask env (nextFleetTaskId (maxById s.fleetTasks)) task.id d]
           passengers := s.passengers
           materials := s.materials ++ materialRows d (nextFleetTaskId (maxById s.fleetTasks))
           tools := s.tools ++ toolRows d (nextFleetTaskId (maxById s.fleetTasks)) })) := by
  obtain ⟨t1, t2, hc, hd, hs⟩ := createTaskWith_ok h
  obtain ⟨htask, ht1, hfresh⟩ := taskCreate_ok hc
  have hfresh1 : s.tasks.any (fun x => x.id == task.id) = false := by
    rw [htask]
    exact hfresh
  refine ⟨htask, hfresh1, ?_⟩
  by_cases hty : taskData.taskType = .TRANSPORT
  · right
    refine ⟨hty, ?_⟩
    rw [hty] at hd
    obtain ⟨t3, r, hr, hpatch, _⟩ := delegate_transport_ok handleTransport rfl hd
    obtain ⟨d, hdata, hrid, ht3⟩ := handleTransport_full hr
    have hc1 : t1.committed = s := by rw [ht1]
    rw [hc1] at hrid
    have hne : r ≠ 0 := by
      rw [hrid]
      exact nextFleetTaskId_pos _
    have ht2 := taskUpdateOne_ok (hpatch hne)
    refine ⟨d, hdata, ?_⟩
    rw [hs, ht2, ht3, ht1, ← hrid]
    simp only
    rw [← htask, updateFirst_append_last _ _ _ _ hfresh1 (by simp)]
  · left
    refine ⟨hty, ?_⟩
    rw [delegate_none (taskHandlers_none hty)] at hd
    cases hd
    rw [hs, ht1, htask]

theorem updateTask_ok_full {env : Env} {s s1 : Store} {taskId : Nat} {updates : Updates}
    {r : Task} (h : updateTask env s taskId updates = (s1, .ok r)) :
    ∃ task0, s.findTask taskId = some task0 ∧ r = Task.setCore env updates task0 ∧
    ((task0.taskType ≠ .TRANSPORT ∧
        s1 = { s with tasks := tasksAfterUpdate env updates taskId 0 s.tasks }) ∨
     (task0.taskType = .TRANSPORT ∧ ∃ d, updates.additionalData = some d ∧
       ((s.fleetTaskOf taskId = none ∧
          s1 = { s with
            tasks := tasksAfterUpdate env updates taskId
              (nextFleetTaskId (maxById s.fleetTasks)) s.tasks
            fleetTasks := s.fleetTasks ++
              [newFleetTask env (nextFleetTaskId (maxById s.fleetTasks)) taskId d] }) ∨
        (∃ f0, s.fleetTaskOf taskId = some f0 ∧
          s1 =
            { tasks := tasksAfterUpdate env updates taskId f0.id s.tasks
              fleetTasks := updateFirst (fun f => f.id == f0.id) (FleetTask.setFields env d)
                s.fleetTasks
              passengers := s.passengers.filter (fun x => x.fleetTaskId != f0.id)
              materials := s.materials.filter (fun x => x.fleetTaskId != f0.id) ++
                materialRows d f0.id
              tools := s.tools.filter (fun x => x.fleetTaskId != f0.id) ++
                toolRows d f0.id })))) := by
  obtain ⟨t1, t2, hc, hd, hs⟩ := updateTaskWith_ok h
  obtain ⟨ho, hcm, hfl, hps, hms, hts, htk, _⟩ := taskFindOneAndUpdate_ok hc
  simp only at ho hcm hfl hps hms hts htk
  cases hfind : s.tasks.find? (fun x => x.id == taskId) with
  | none => rw [hfind] at ho; cases ho
  | some task0 =>
    rw [hfind] at ho
    simp only [Option.map_some', Option.some.injEq] at ho
    have ht1 : t1 = { committed := s, working := { s with
        tasks := updateFirst (fun y => y.id == taskId) (Task.setCore env updates) s.tasks } } := by
      cases t1 with
      | mk c w =>
        cases w
        simp only at hcm hfl hps hms hts htk
        subst hcm hfl hps hms hts htk
        rfl
    refine ⟨task0, hfind, ho, ?_⟩
    have hrt : r.taskType = task0.taskType := by rw [ho]; rfl
    by_cases hty : task0.taskType = .TRANSPORT
    · right
      refine ⟨hty, ?_⟩
      rw [hrt, hty] at hd
      obtain ⟨t3, k, hk, hpatch, hzero⟩ := delegate_transport_ok handleTransportUpdate rfl hd
      cases hff : s.fleetTaskOf taskId with
      | none =>
        have hnone : t1.working.fleetTasks.find? (fun f => f.taskId == some taskId) = none := by
          rw [hfl]
          exact hff
        obtain ⟨d, hdata, hkid, ht3⟩ := handleTransportUpdate_missing_ok hnone hk
        rw [hcm] at hkid
        have hne : k ≠ 0 := by
          rw [hkid]
          exact nextFleetTaskId_pos _
        refine ⟨d, hdata, Or.inl ⟨rfl, ?_⟩⟩
        rw [hs, taskUpdateOne_ok (hpatch hne), ht3, ht1, ← hkid]
        simp [tasksAfterUpdate, hne]
      | some f0 =>
        have hfound : t1.working.fleetTasks.find? (fun f => f.taskId == some taskId) =
            some f0 := by
          rw [hfl]
          exact hff
        obtain ⟨d, hdata, hkid, ht3⟩ := handleTransportUpdate_found_full hfound hk
        refine ⟨d, hdata, Or.inr ⟨f0, rfl, ?_⟩⟩
        by_cases hz : k = 0
        · rw [hs, hzero hz, ht3, ht1]
          simp [tasksAfterUpdate, ← hkid, hz]
        · rw [hs, taskUpdateOne_ok (hpatch hz), ht3, ht1]
          simp [tasksAfterUpdate, ← hkid, hz]
    · left
      refine ⟨hty, ?_⟩
      rw [hrt, delegate_none (updateHandlers_none hty)] at hd
      cases hd
      rw [hs, ht1]
      simp [tasksAfterUpdate]

theorem createTask_error {env : Env} {s s1 : Store} {taskData : TaskData} {e : Error}
    (h : createTask env s taskData = (s1, .error e)) : s1 = s :=
  createTaskWith_error h

theorem updateTask_error {env : Env} {s s1 : Store} {taskId : Nat} {updates : Updates}
    {e : Error} (h : updateTask env s taskId updates = (s1, .error e)) : s1 = s :=
  updateTaskWith_error h

theorem tasksAfterUpdate_keys (env : Env) (updates : Updates) (taskId fid : Nat)
    (l : List Task) :
    (tasksAfterUpdate env updates taskId fid l).map (fun x => (x.id, x.taskType)) =
      l.map (fun x => (x.id, x.taskType)) := by
  unfold tasksAfterUpdate
  split
  · exact map_updateFirst (fun x : Task => (x.id, x.taskType)) (fun y => y.id == taskId)
      (Task.setCore env updates) (fun _ => rfl) l
  · rw [map_updateFirst (fun x : Task => (x.id, x.taskType)) (fun y => y.id == taskId)
      (fun x => { x with transportTaskId := some fid }) (fun _ => rfl)]
    exact map_updateFirst (fun x : Task => (x.id, x.taskType)) (fun y => y.id == taskId)
      (Task.setCore env updates) (fun _ => rfl) l

theorem tasksAfterUpdate_find (env : Env) (updates : Updates) {taskId : Nat} (fid : Nat)
    {l : List Task} {task0 : Task} (h : l.find? (fun x => x.id == taskId) = some task0) :
    ∃ t1, (tasksAfterUpdate env updates taskId fid l).find? (fun x => x.id == taskId) = some t1 ∧
      t1.id = task0.id ∧ t1.taskType = task0.taskType ∧
      t1.taskName = setPath updates.taskName task0.taskName ∧
      t1.additionalData = setPath updates.additionalData task0.additionalData := by
  have hcore := find_updateFirst_same (fun x : Task => x.id == taskId) (Task.setCore env updates)
    (fun _ => rfl) l
  rw [h] at hcore
  unfold tasksAfterUpdate
  split
  · exact ⟨_, hcore, rfl, rfl, rfl, rfl⟩
  · rw [find_updateFirst_same (fun x : Task => x.id == taskId)
      (fun x => { x with transportTaskId := some fid }) (fun _ => rfl), hcore]
    exact ⟨_, rfl, rfl, rfl, rfl, rfl⟩

theorem updateTask_tasks (env : Env) (s : Store) (taskId : Nat) (updates : Updates) :
    (updateTask env s taskId updates).1.tasks = s.tasks ∨
    ∃ fid, (updateTask env s taskId updates).1.tasks =
      tasksAfterUpdate env updates taskId fid s.tasks := by
  cases hr : updateTask env s taskId updates with
  | mk s1 res =>
    cases res with
    | error e =>
      left
      rw [updateTask_error hr]
    | ok r =>
      right
      obtain ⟨task0, _, _, hcase⟩ := updateTask_ok_full hr
      rcases hcase with ⟨_, hs⟩ | ⟨_, d, _, ⟨_, hs⟩ | ⟨f0, _, hs⟩⟩
      · exact ⟨0, by rw [hs]⟩
      · exact ⟨_, by rw [hs]⟩
      · exact ⟨f0.id, by rw [hs]⟩

/-! ## Dispatch on update -/

/-- C11: for an existing Task, `updateTask` gives the same result whatever
`taskType` the payload carries; two dispatch tables that agree on the Task's
stored type give the same result (only the entry of the stored type is
consulted); and after the call every stored Task has the id and `taskType` it
had, in particular the Task with id `taskId`. -/
theorem updateTask_dispatch_by_stored_type (env : Env) (s : Store) (taskId : Nat)
    (updates : Updates) (task0 : Task) (hTask : s.findTask taskId = some task0) :
    (∀ ty, updateTask env s taskId { updates with taskType := ty } =
      updateTask env s taskId updates) ∧
    (∀ H1 H2 : TaskType → Option Handler, H1 task0.taskType = H2 task0.taskType →
      updateTaskWith H1 env s taskId updates = updateTaskWith H2 env s taskId updates) ∧
    (updateTask env s taskId updates).1.tasks.map (fun x => (x.id, x.taskType)) =
      s.tasks.map (fun x => (x.id, x.taskType)) ∧
    ∃ t1, (updateTask env s taskId updates).1.findTask taskId = some t1 ∧
      t1.id = task0.id ∧ t1.taskType = task0.taskType := by
  refine ⟨fun ty => rfl, ?_, ?_, ?_⟩
  · intro H1 H2 hH
    have hdel : ∀ t, delegate H1 env task0.taskType taskId updates.additionalData t =
        delegate H2 env task0.taskType taskId updates.additionalData t := by
      intro t
      unfold delegate
      rw [hH]
    unfold Store.findTask at hTask
    cases hf : env.fault .taskFindOneAndUpdate <;>
      simp [updateTaskWith, updateTaskBody, Task.findOneAndUpdate, storeOp, hf, hTask, bind,
        Except.bind, pure, Except.pure, Task.setCore, hdel]
  · rcases updateTask_tasks env s taskId updates with
      h | ⟨fid, h⟩
    · rw [h]
    · rw [h, tasksAfterUpdate_keys]
  · unfold Store.findTask at hTask ⊢
    rcases updateTask_tasks env s taskId updates with
      h | ⟨fid, h⟩
    · rw [h]
      exact ⟨task0, hTask, rfl, rfl⟩
    · rw [h]
      obtain ⟨t1, h1, h2, h3, _⟩ := tasksAfterUpdate_find env updates fid hTask
      exact ⟨t1, h1, h2, h3⟩

/-- Witness for C11: `tripStore` holds TRANSPORT task 20000; an update whose
payload says `taskType = WORK` and carries no `additionalData` still reaches the
transport handler, which fails on the missing data. -/
theorem updateTask_dispatch_by_stored_type_witness :
    tripStore.findTask 20000 = some tripTask ∧
    updateTask quietEnv tripStore 20000 retypeUpdates = (tripStore, .error .typeError) ∧
    (∀ ty, updateTask quietEnv tripStore 20000 { retypeUpdates with taskType := ty } =
      updateTask quietEnv tripStore 20000 retypeUpdates) ∧
    (updateTask quietEnv tripStore 20000 retypeUpdates).1.tasks.map (fun x => (x.id, x.taskType)) =
      tripStore.tasks.map (fun x => (x.id, x.taskType)) :=
  ⟨by decide, by decide,
    (updateTask_dispatch_by_stored_type quietEnv tripStore 20000 retypeUpdates tripTask
      (by decide)).1,
    (updateTask_dispatch_by_stored_type quietEnv tripStore 20000 retypeUpdates tripTask
      (by decide)).2.2.1⟩

/-! ## The id of a new FleetTask -/

theorem maxById_eq_none {l : List FleetTask} (h : maxById l = none) : l = [] := by
  cases l with
  | nil => rfl
  | cons x xs =>
    unfold maxById at h
    split at h
    · cases h
    · split at h <;> cases h

theorem maxById_le {l : List FleetTask} {g : FleetTask} (h : maxById l = some g) :
    ∀ f ∈ l, f.id ≤ g.id := by
  induction l generalizing g with
  | nil => intro f hf; cases hf
  | cons x xs ih =>
    unfold maxById at h
    split at h
    · rename_i hn
      cases h
      intro f hf
      rw [maxById_eq_none hn] at hf
      simp only [List.mem_singleton] at hf
      rw [hf]
    · rename_i y hy
      split at h
      · rename_i hle
        cases h
        intro f hf
        rcases List.mem_cons.mp hf with rfl | hmem
        · exact Nat.le_refl _
        · exact Nat.le_trans (ih hy f hmem) hle
      · rename_i hlt
        cases h
        intro f hf
        rcases List.mem_cons.mp hf with rfl | hmem
        · omega
        · exact ih hy f hmem

theorem nextFleetTaskId_of_safe {l : List FleetTask} {g : FleetTask} (hm : maxById l = some g)
    (hSafe : ∀ f ∈ l, f.id < 2 ^ 53) : nextFleetTaskId (maxById l) = g.id + 1 := by
  rw [hm]
  simp only [nextFleetTaskId]
  exact jsSucc_of_lt (hSafe g (maxById_mem hm))

theorem nextFleetTaskId_gt (l : List FleetTask) (hSafe : ∀ f ∈ l, f.id < 2 ^ 53) :
    ∀ f ∈ l, f.id < nextFleetTaskId (maxById l) := by
  intro f hf
  cases hm : maxById l with
  | none =>
    rw [maxById_eq_none hm] at hf
    cases hf
  | some g =>
    have := maxById_le hm f hf
    rw [← hm, nextFleetTaskId_of_safe hm hSafe]
    omega

theorem nextFleetTaskId_fresh (l : List FleetTask) (hSafe : ∀ f ∈ l, f.id < 2 ^ 53) :
    l.any (fun x => x.id == nextFleetTaskId (maxById l)) = false := by
  rw [List.any_eq_false]
  intro f hf
  have := nextFleetTaskId_gt l hSafe f hf
  simp only [beq_iff_eq]
  omega

theorem fleetTaskCreate_fresh {env : Env} {doc d : FleetTask} {t t1 : Txn}
    (h : FleetTask.create env doc t = .ok (t1, d)) :
    t.working.fleetTasks.any (fun x => x.id == doc.id) = false := by
  unfold FleetTask.create at h
  cases hf : env.fault .fleetTaskCreate <;>
    cases hd : t.working.fleetTasks.any (fun x => x.id == doc.id) <;>
    simp [storeOp, hf, hd, bind, Except.bind, throw, throwThe, MonadExceptOf.throw, pure,
      Except.pure] at h
  rfl

theorem handleTransport_fresh {env : Env} {taskId r : Nat} {data : Option TransportData}
    {t t1 : Txn} (h : handleTransport env taskId data t = .ok (t1, r)) :
    ∀ f ∈ t.working.fleetTasks, f.id ≠ r := by
  unfold handleTransport at h
  obtain ⟨o, ho, h⟩ := bind_ok h
  obtain ⟨d, hd, h⟩ := bind_ok h
  obtain ⟨⟨t2, ft⟩, hc, h⟩ := bind_ok h
  obtain ⟨t3, hi, h⟩ := bind_ok h
  obtain ⟨hft, _⟩ := fleetTaskCreate_ok hc
  have hfr := fleetTaskCreate_fresh hc
  cases h
  subst hft
  rw [List.any_eq_false] at hfr
  intro f hf he
  exact hfr f hf (by simpa [newFleetTask] using he)

theorem handleTransportUpdate_missing_fresh {env : Env} {taskId r : Nat}
    {data : Option TransportData} {t t1 : Txn}
    (hnone : t.working.fleetTasks.find? (fun f => f.taskId == some taskId) = none)
    (h : handleTransportUpdate env taskId data t = .ok (t1, r)) :
    ∀ f ∈ t.working.fleetTasks, f.id ≠ r := by
  unfold handleTransportUpdate at h
  obtain ⟨o, ho, h⟩ := bind_ok h
  have ho2 := fleetTaskFindOne_ok ho
  rw [hnone] at ho2
  subst ho2
  simp only at h
  obtain ⟨o2, hl, h⟩ := bind_ok h
  obtain ⟨d, hd, h⟩ := bind_ok h
  obtain ⟨⟨t2, ft⟩, hc, h⟩ := bind_ok h
  obtain ⟨hft, _⟩ := fleetTaskCreate_ok hc
  have hfr := fleetTaskCreate_fresh hc
  cases h
  subst hft
  rw [List.any_eq_false] at hfr
  intro f hf he
  exact hfr f hf (by simpa [newFleetTask] using he)

theorem createTask_fleet_fresh {env : Env} {s s1 : Store} {taskData : TaskData} {task : Task}
    (hType : taskData.taskType = .TRANSPORT)
    (h : createTask env s taskData = (s1, .ok task)) :
    ∀ f ∈ s.fleetTasks, f.id ≠ nextFleetTaskId (maxById s.fleetTasks) := by
  obtain ⟨t1, t2, hc, hd, _⟩ := createTaskWith_ok h
  obtain ⟨_, ht1, _⟩ := taskCreate_ok hc
  rw [hType] at hd
  obtain ⟨t3, r, hr, _, _⟩ := delegate_transport_ok handleTransport rfl hd
  obtain ⟨d, _, hrid, _⟩ := handleTransport_full hr
  have hfr := handleTransport_fresh hr
  rw [ht1] at hfr hrid
  rw [← hrid]
  exact hfr

theorem updateTask_fleet_fresh {env : Env} {s s1 : Store} {taskId : Nat} {updates : Updates}
    {r task0 : Task} (hTask : s.findTask taskId = some task0)
    (hType : task0.taskType = .TRANSPORT) (hNone : s.fleetTaskOf taskId = none)
    (h : updateTask env s taskId updates = (s1, .ok r)) :
    ∀ f ∈ s.fleetTasks, f.id ≠ nextFleetTaskId (maxById s.fleetTasks) := by
  obtain ⟨t1, t2, hc, hd, _⟩ := updateTaskWith_ok h
  obtain ⟨ho, hcm, hfl, _, _, _, _, _⟩ := taskFindOneAndUpdate_ok hc
  simp only at ho hcm hfl
  unfold Store.findTask at hTask
  rw [hTask] at ho
  simp only [Option.map_some', Option.some.injEq] at ho
  have hrt : r.taskType = .TRANSPORT := by rw [ho]; exact hType
  rw [hrt] at hd
  obtain ⟨t3, k, hk, _, _⟩ := delegate_transport_ok handleTransportUpdate rfl hd
  have hnone1 : t1.working.fleetTasks.find? (fun f => f.taskId == some taskId) = none := by
    rw [hfl]
    exact hNone
  obtain ⟨d, _, hkid, _⟩ := handleTransportUpdate_missing_ok hnone1 hk
  have hfr := handleTransportUpdate_missing_fresh hnone1 hk
  rw [hfl] at hfr
  rw [hcm] at hkid
  rw [← hkid]
  exact hfr

theorem truthyArray_eq_false {α : Type} {o : Option (List α)} (h : o = none ∨ o = some []) :
    truthyArray o = false := by
  rcases h with rfl | rfl <;> rfl

theorem exists_unsafe_of_taken {l : List FleetTask}
    (h : l.any (fun x => x.id == nextFleetTaskId (maxById l)) = true) :
    ∃ f ∈ l, 2 ^ 53 ≤ f.id := by
  by_contra hc
  have hSafe : ∀ f ∈ l, f.id < 2 ^ 53 := by
    intro f hf
    by_contra hlt
    exact hc ⟨f, hf, by omega⟩
  rw [nextFleetTaskId_fresh l hSafe] at h
  cases h

theorem handleTransport_taken (env : Env) (taskId : Nat) (d : TransportData) (t : Txn)
    (hLast : env.fault .fleetTaskFindLast = false) (hCreate : env.fault .fleetTaskCreate = false)
    (hView : t.working.fleetTasks = t.committed.fleetTasks)
    (hTaken : t.committed.fleetTasks.any
      (fun x => x.id == nextFleetTaskId (maxById t.committed.fleetTasks)) = true) :
    handleTransport env taskId (some d) t = .error .duplicateKey := by
  rw [← hView] at hTaken
  simp only [handleTransport, FleetTask.findLast, FleetTask.create, storeOp, hLast, hCreate,
    requireData, bind, Except.bind, pure, Except.pure, newFleetTask,
    Bool.false_eq_true, if_false]
  rw [← hView]
  simp only [hTaken, if_true]

theorem handleTransport_eq (env : Env) (taskId : Nat) (d : TransportData) (t : Txn)
    (hLast : env.fault .fleetTaskFindLast = false) (hCreate : env.fault .fleetTaskCreate = false)
    (hView : t.working.fleetTasks = t.committed.fleetTasks)
    (hfresh : t.committed.fleetTasks.any
      (fun x => x.id == nextFleetTaskId (maxById t.committed.fleetTasks)) = false) :
    handleTransport env taskId (some d) t =
      (insertChildren env d (nextFleetTaskId (maxById t.committed.fleetTasks))
        { t with working := { t.working with
          fleetTasks := t.working.fleetTasks ++
            [newFleetTask env (nextFleetTaskId (maxById t.committed.fleetTasks)) taskId d] } }).map
        (fun t2 => (t2, nextFleetTaskId (maxById t.committed.fleetTasks))) := by
  rw [← hView] at hfresh
  rw [← hView]
  simp only [handleTransport, FleetTask.findLast, FleetTask.create, storeOp, hLast, hCreate,
    requireData, bind, Except.bind, pure, Except.pure, newFleetTask, hView.symm ▸ hfresh,
    Bool.false_eq_true, if_false]
  rw [← hView] at *
  simp only [hfresh, Bool.false_eq_true, if_false]
  cases insertChildren env d (nextFleetTaskId (maxById t.working.fleetTasks)) _ <;> rfl

theorem insertChildren_material (env : Env) (d : TransportData) (id : Nat) (t : Txn)
    (hType : d.transportType = some "MATERIAL_TRANSPORT")
    (hStore : env.fault .materialInsertMany = false) :
    insertChildren env d id t = .ok { t with working := { t.working with
      materials := t.working.materials ++ (d.materialQuantities.getD []).map (fun material =>
        { fleetTaskId := id, materialId := material.materialId,
          quantity := material.quantity }) } } := by
  cases hq : truthyArray d.materialQuantities
  · simp [insertChildren, insertPassengers, insertMaterials, insertTools, hType, hq,
      getD_of_not_truthy hq, bind, Except.bind, pure, Except.pure]
  · simp [insertChildren, insertPassengers, insertMaterials, insertTools, hType, hq,
      FleetTaskMaterial.insertMany, storeOp, hStore, bind, Except.bind, pure, Except.pure]

theorem insertChildren_tool (env : Env) (d : TransportData) (id : Nat) (t : Txn)
    (hType : d.transportType = some "TOOL_TRANSPORT")
    (hStore : env.fault .toolInsertMany = false) :
    insertChildren env d id t = .ok { t with working := { t.working with
      tools := t.working.tools ++ (d.toolQuantities.getD []).map (fun tool =>
        { fleetTaskId := id, toolId := tool.toolId, quantity := tool.quantity }) } } := by
  cases hq : truthyArray d.toolQuantities
  · simp [insertChildren, insertPassengers, insertMaterials, insertTools, hType, hq,
      getD_of_not_truthy hq, bind, Except.bind, pure, Except.pure]
  · simp [insertChildren, insertPassengers, insertMaterials, insertTools, hType, hq,
      FleetTaskTool.insertMany, storeOp, hStore, bind, Except.bind, pure, Except.pure]

theorem insertChildren_nothing (env : Env) (d : TransportData) (id : Nat) (t : Txn)
    (hW : d.transportType = some "WORKER_TRANSPORT" → truthyArray d.workers = false)
    (hM : d.transportType = some "MATERIAL_TRANSPORT" → truthyArray d.materialQuantities = false)
    (hT : d.transportType = some "TOOL_TRANSPORT" → truthyArray d.toolQuantities = false) :
    insertChildren env d id t = .ok t := by
  have h1 : (d.transportType == some "WORKER_TRANSPORT" && truthyArray d.workers) = false := by
    by_cases h : d.transportType = some "WORKER_TRANSPORT"
    · simp [hW h]
    · simp [h]
  have h2 : (d.transportType == some "MATERIAL_TRANSPORT" &&
      truthyArray d.materialQuantities) = false := by
    by_cases h : d.transportType = some "MATERIAL_TRANSPORT"
    · simp [hM h]
    · simp [h]
  have h3 : (d.transportType == some "TOOL_TRANSPORT" && truthyArray d.toolQuantities) = false := by
    by_cases h : d.transportType = some "TOOL_TRANSPORT"
    · simp [hT h]
    · simp [h]
  simp only [insertChildren, insertPassengers, insertMaterials, insertTools, h1, h2, h3, bind,
    Except.bind, pure, Except.pure, Bool.false_eq_true, if_false]

/-! ## Rows written by `handleTransport` -/

/-- C13: with `transportType = MATERIAL_TRANSPORT` and `materialQuantities = ms`,
whenever `handleTransport` succeeds it has appended exactly one material row per
entry of `ms`, in order, each `{fleetTaskId: the new id, materialId, quantity}`,
and no passenger or tool row; and it does succeed when the store accepts the
operations and the session has written no FleetTask, except that the insert is
rejected as a duplicate when the double increment of a greatest id of `2^53` or
more lands on a stored id.  Likewise for TOOL_TRANSPORT with
`toolQuantities = ts` and tool rows `{fleetTaskId, toolId, quantity}`. -/
theorem handleTransport_material_tool_rows (env : Env) (taskId : Nat) (d : TransportData)
    (t : Txn) :
    (∀ ms, d.transportType = some "MATERIAL_TRANSPORT" → d.materialQuantities = some ms →
      (∀ t1 r, handleTransport env taskId (some d) t = .ok (t1, r) →
        t1.working.materials = t.working.materials ++ ms.map (fun m =>
          { fleetTaskId := r, materialId := m.materialId, quantity := m.quantity }) ∧
        t1.working.passengers = t.working.passengers ∧ t1.working.tools = t.working.tools) ∧
      (env.fault .fleetTaskFindLast = false → env.fault .fleetTaskCreate = false →
        env.fault .materialInsertMany = false →
        t.working.fleetTasks = t.committed.fleetTasks →
        (∃ t1 r, handleTransport env taskId (some d) t = .ok (t1, r)) ∨
        (handleTransport env taskId (some d) t = .error .duplicateKey ∧
          ∃ f ∈ t.committed.fleetTasks, 2 ^ 53 ≤ f.id))) ∧
    (∀ ts, d.transportType = some "TOOL_TRANSPORT" → d.toolQuantities = some ts →
      (∀ t1 r, handleTransport env taskId (some d) t = .ok (t1, r) →
        t1.working.tools = t.working.tools ++ ts.map (fun x =>
          { fleetTaskId := r, toolId := x.toolId, quantity := x.quantity }) ∧
        t1.working.passengers = t.working.passengers ∧
        t1.working.materials = t.working.materials) ∧
      (env.fault .fleetTaskFindLast = false → env.fault .fleetTaskCreate = false →
        env.fault .toolInsertMany = false →
        t.working.fleetTasks = t.committed.fleetTasks →
        (∃ t1 r, handleTransport env taskId (some d) t = .ok (t1, r)) ∨
        (handleTransport env taskId (some d) t = .error .duplicateKey ∧
          ∃ f ∈ t.committed.fleetTasks, 2 ^ 53 ≤ f.id))) := by
  constructor
  · intro ms hType hms
    constructor
    · intro t1 r hOk
      obtain ⟨d1, hd, _, ht1⟩ := handleTransport_full hOk
      cases hd
      have htool : toolRows d r = [] := toolRows_other d r (by rw [hType]; decide)
      have hmat : materialRows d r = ms.map (fun m =>
          { fleetTaskId := r, materialId := m.materialId, quantity := m.quantity }) := by
        simp [materialRows, hType, hms]
      rw [ht1]
      simp [htool, hmat]
    · intro hLast hCreate hStore hView
      cases hAny : t.committed.fleetTasks.any
          (fun x => x.id == nextFleetTaskId (maxById t.committed.fleetTasks))
      · left
        rw [handleTransport_eq env taskId d t hLast hCreate hView hAny,
          insertChildren_material env d _ _ hType hStore]
        exact ⟨_, _, rfl⟩
      · right
        exact ⟨handleTransport_taken env taskId d t hLast hCreate hView hAny,
          exists_unsafe_of_taken hAny⟩
  · intro ts hType hts
    constructor
    · intro t1 r hOk
      obtain ⟨d1, hd, _, ht1⟩ := handleTransport_full hOk
      cases hd
      have hmat : materialRows d r = [] := materialRows_other d r (by rw [hType]; decide)
      have htool : toolRows d r = ts.map (fun x =>
          { fleetTaskId := r, toolId := x.toolId, quantity := x.quantity }) := by
        simp [toolRows, hType, hts]
      rw [ht1]
      simp [htool, hmat]
    · intro hLast hCreate hStore hView
      cases hAny : t.committed.fleetTasks.any
          (fun x => x.id == nextFleetTaskId (maxById t.committed.fleetTasks))
      · left
        rw [handleTransport_eq env taskId d t hLast hCreate hView hAny,
          insertChildren_tool env d _ _ hType hStore]
        exact ⟨_, _, rfl⟩
      · right
        exact ⟨handleTransport_taken env taskId d t hLast hCreate hView hAny,
          exists_unsafe_of_taken hAny⟩

/-- Witness for C13: two tool lines on `tripStore`, where FleetTask 7 exists:
FleetTask 8 is created with the tool rows (8, 4, 1) and (8, 9, 3) and no other
child row. -/
theorem handleTransport_material_tool_rows_witness :
    twoToolsData.transportType = some "TOOL_TRANSPORT" ∧
    twoToolsData.toolQuantities = some [⟨4, 1⟩, ⟨9, 3⟩] ∧
    handleTransport quietEnv 30000 (some twoToolsData) tripTxn =
      .ok ({ tripTxn with working := { tripStore with
              fleetTasks := tripStore.fleetTasks ++ [newFleetTask quietEnv 8 30000 twoToolsData]
              tools := [⟨8, 4, 1⟩, ⟨8, 9, 3⟩] } }, 8) ∧
    (({ tripTxn with working := { tripStore with
          fleetTasks := tripStore.fleetTasks ++ [newFleetTask quietEnv 8 30000 twoToolsData]
          tools := [⟨8, 4, 1⟩, ⟨8, 9, 3⟩] } } : Txn).working.tools =
        tripTxn.working.tools ++ [(⟨4, 1⟩ : ToolQuantity), ⟨9, 3⟩].map (fun x =>
          { fleetTaskId := 8, toolId := x.toolId, quantity := x.quantity }) ∧
      ({ tripTxn with working := { tripStore with
          fleetTasks := tripStore.fleetTasks ++ [newFleetTask quietEnv 8 30000 twoToolsData]
          tools := [⟨8, 4, 1⟩, ⟨8, 9, 3⟩] } } : Txn).working.passengers =
        tripTxn.working.passengers ∧
      ({ tripTxn with working := { tripStore with
          fleetTasks := tripStore.fleetTasks ++ [newFleetTask quietEnv 8 30000 twoToolsData]
          tools := [⟨8, 4, 1⟩, ⟨8, 9, 3⟩] } } : Txn).working.materials =
        tripTxn.working.materials) :=
  ⟨rfl, rfl, by decide,
    ((handleTransport_material_tool_rows quietEnv 30000 twoToolsData tripTxn).2
      [⟨4, 1⟩, ⟨9, 3⟩] rfl rfl).1
      { tripTxn with working := { tripStore with
          fleetTasks := tripStore.fleetTasks ++ [newFleetTask quietEnv 8 30000 twoToolsData]
          tools := [⟨8, 4, 1⟩, ⟨8, 9, 3⟩] } } 8 (by decide)⟩

/-- C14: when the store accepts the two FleetTask operations and the session has
written no FleetTask, `handleTransport` with a payload whose `transportType` is
none of the three types, or whose array for the matching type is missing or
empty, adds the FleetTask row, leaves the three child collections as they were
and returns the new FleetTask id.  The one exception is a new id that is already
stored, which needs a stored id of `2^53` or more (from there on the double
increment is not exact): then the unique index rejects the insert. -/
theorem handleTransport_without_children (env : Env) (taskId : Nat) (d : TransportData)
    (t : Txn) (hLast : env.fault .fleetTaskFindLast = false)
    (hCreate : env.fault .fleetTaskCreate = false)
    (hView : t.working.fleetTasks = t.committed.fleetTasks)
    (hCase :
      (d.transportType ≠ some "WORKER_TRANSPORT" ∧ d.transportType ≠ some "MATERIAL_TRANSPORT" ∧
        d.transportType ≠ some "TOOL_TRANSPORT") ∨
      (d.transportType = some "WORKER_TRANSPORT" ∧ (d.workers = none ∨ d.workers = some [])) ∨
      (d.transportType = some "MATERIAL_TRANSPORT" ∧
        (d.materialQuantities = none ∨ d.materialQuantities = some [])) ∨
      (d.transportType = some "TOOL_TRANSPORT" ∧
        (d.toolQuantities = none ∨ d.toolQuantities = some []))) :
    handleTransport env taskId (some d) t =
      (if t.committed.fleetTasks.any
          (fun x => x.id == nextFleetTaskId (maxById t.committed.fleetTasks)) then
        .error .duplicateKey
      else
        .ok ({ committed := t.committed
               working :=
                 { tasks := t.working.tasks
                   fleetTasks := t.working.fleetTasks ++
                     [newFleetTask env (nextFleetTaskId (maxById t.committed.fleetTasks)) taskId d]
                   passengers := t.working.passengers
                   materials := t.working.materials
                   tools := t.working.tools } },
             nextFleetTaskId (maxById t.committed.fleetTasks))) ∧
    ((∀ f ∈ t.committed.fleetTasks, f.id < 2 ^ 53) →
      t.committed.fleetTasks.any
        (fun x => x.id == nextFleetTaskId (maxById t.committed.fleetTasks)) = false) := by
  refine ⟨?_, nextFleetTaskId_fresh _⟩
  cases hAny : t.committed.fleetTasks.any
      (fun x => x.id == nextFleetTaskId (maxById t.committed.fleetTasks))
  · simp only [Bool.false_eq_true, if_false]
    rw [handleTransport_eq env taskId d t hLast hCreate hView hAny, insertChildren_nothing]
    · rfl
    · intro h
      rcases hCase with ⟨h1, _, _⟩ | ⟨_, h2⟩ | ⟨h3, _⟩ | ⟨h4, _⟩
      · exact absurd h h1
      · exact truthyArray_eq_false h2
      · rw [h] at h3; simp at h3
      · rw [h] at h4; simp at h4
    · intro h
      rcases hCase with ⟨_, h1, _⟩ | ⟨h2, _⟩ | ⟨_, h3⟩ | ⟨h4, _⟩
      · exact absurd h h1
      · rw [h] at h2; simp at h2
      · exact truthyArray_eq_false h3
      · rw [h] at h4; simp at h4
    · intro h
      rcases hCase with ⟨_, _, h1⟩ | ⟨h2, _⟩ | ⟨h3, _⟩ | ⟨_, h4⟩
      · exact absurd h h1
      · rw [h] at h2; simp at h2
      · rw [h] at h3; simp at h3
      · exact truthyArray_eq_false h4
  · simp only [if_true]
    exact handleTransport_taken env taskId d t hLast hCreate hView hAny

/-- Witness for C14: a WORKER_TRANSPORT payload with an empty `workers` list on
`bareStore`: FleetTask 1 is created and no child row. -/
theorem handleTransport_without_children_witness :
    quietEnv.fault .fleetTaskFindLast = false ∧ quietEnv.fault .fleetTaskCreate = false ∧
    bareTxn.working.fleetTasks = bareTxn.committed.fleetTasks ∧
    ({ blankData with transportType := some "WORKER_TRANSPORT",
                      workers := some [] } : TransportData).workers = some [] ∧
    handleTransport quietEnv 20000
        (some { blankData with transportType := some "WORKER_TRANSPORT", workers := some [] })
        bareTxn =
      .ok ({ committed := bareTxn.committed
             working :=
               { tasks := bareTxn.working.tasks
                 fleetTasks := bareTxn.working.fleetTasks ++
                   [newFleetTask quietEnv 1 20000
                     { blankData with transportType := some "WORKER_TRANSPORT",
                                      workers := some [] }]
                 passengers := bareTxn.working.passengers
                 materials := bareTxn.working.materials
                 tools := bareTxn.working.tools } },
           1) :=
  ⟨rfl, rfl, rfl, rfl,
    (handleTransport_without_children quietEnv 20000
      { blankData with transportType := some "WORKER_TRANSPORT", workers := some [] } bareTxn
      rfl rfl rfl (Or.inr (Or.inl ⟨rfl, Or.inr rfl⟩))).1⟩

/-- C15: when `handleTransport` succeeds for `taskId` and a payload, exactly one
FleetTask row is added; it has `status = 'PLANNED'`, `taskId` the given task id,
the payload's driverId, vehicleId, transportType, pickupLocation, dropLocation,
pickupTime, dropTime, companyId, projectId and createdBy, and
`plannedPickupTime = pickupTime`, `plannedDropTime = dropTime`; its id is the id
the handler returns. -/
theorem handleTransport_inserted_row (env : Env) (taskId r : Nat)
    (data : Option TransportData) (t t1 : Txn)
    (hOk : handleTransport env taskId data t = .ok (t1, r)) :
    ∃ d f, data = some d ∧ t1.working.fleetTasks = t.working.fleetTasks ++ [f] ∧
      f.id = r ∧ f.status = some "PLANNED" ∧ f.taskId = some taskId ∧
      f.driverId = d.driverId ∧ f.vehicleId = d.vehicleId ∧
      f.transportType = d.transportType ∧ f.pickupLocation = d.pickupLocation ∧
      f.dropLocation = d.dropLocation ∧ f.pickupTime = d.pickupTime ∧
      f.dropTime = d.dropTime ∧ f.companyId = d.companyId ∧ f.projectId = d.projectId ∧
      f.createdBy = d.createdBy ∧ f.plannedPickupTime = d.pickupTime ∧
      f.plannedDropTime = d.dropTime ∧ f.taskDate = some env.now := by
  obtain ⟨d, hd, _, ht1⟩ := handleTransport_full hOk
  refine ⟨d, newFleetTask env r taskId d, hd, ?_, rfl, rfl, rfl, rfl, rfl, rfl, rfl, rfl, rfl,
    rfl, rfl, rfl, rfl, rfl, rfl, rfl⟩
  rw [ht1]

/-- Witness for C15: `fullData` on `tripStore`: FleetTask 8 for task 30000. -/
theorem handleTransport_inserted_row_witness :
    handleTransport quietEnv 30000 (some fullData) tripTxn =
      .ok ({ tripTxn with working := { tripStore with
              fleetTasks := tripStore.fleetTasks ++ [newFleetTask quietEnv 8 30000 fullData] } },
           8) ∧
    ∃ d f, some fullData = some d ∧
      ({ tripTxn with working := { tripStore with
          fleetTasks := tripStore.fleetTasks ++
            [newFleetTask quietEnv 8 30000 fullData] } } : Txn).working.fleetTasks =
        tripTxn.working.fleetTasks ++ [f] ∧
      f.id = 8 ∧ f.status = some "PLANNED" ∧ f.taskId = some 30000 ∧
      f.driverId = d.driverId ∧ f.vehicleId = d.vehicleId ∧
      f.transportType = d.transportType ∧ f.pickupLocation = d.pickupLocation ∧
      f.dropLocation = d.dropLocation ∧ f.pickupTime = d.pickupTime ∧
      f.dropTime = d.dropTime ∧ f.companyId = d.companyId ∧ f.projectId = d.projectId ∧
      f.createdBy = d.createdBy ∧ f.plannedPickupTime = d.pickupTime ∧
      f.plannedDropTime = d.dropTime ∧ f.taskDate = some quietEnv.now :=
  ⟨by decide,
    handleTransport_inserted_row quietEnv 30000 8 (some fullData) tripTxn
      { tripTxn with working := { tripStore with
          fleetTasks := tripStore.fleetTasks ++ [newFleetTask quietEnv 8 30000 fullData] } }
      (by decide)⟩

/-- C16 (as stated, refuted): the increment is a double addition.  With a
single FleetTask of id `2^53 + 2` stored, `handleTransport` succeeds and gives
the new FleetTask the id `2^53 + 4`, not `2^53 + 3`; with a single FleetTask of
id `2^53` stored, the increment gives `2^53` again and the insert is rejected as
a duplicate. -/
theorem new_fleetTask_id_rounds_from_2_pow_53 :
    hugeStore.fleetTasks.map (fun f => f.id) = [2 ^ 53 + 2] ∧
    handleTransport quietEnv 30000 (some fullData) { committed := hugeStore, working := hugeStore } =
      .ok ({ committed := hugeStore
             working := { hugeStore with
               fleetTasks := hugeStore.fleetTasks ++
                 [newFleetTask quietEnv (2 ^ 53 + 4) 30000 fullData] } },
           2 ^ 53 + 4) ∧
    edgeStore.fleetTasks.map (fun f => f.id) = [2 ^ 53] ∧
    nextFleetTaskId (maxById edgeStore.fleetTasks) = 2 ^ 53 ∧
    handleTransport quietEnv 30000 (some fullData) { committed := edgeStore, working := edgeStore } =
      .error .duplicateKey := by
  decide

/-- C16 (amended): when `handleTransport`, or the create branch of
`handleTransportUpdate` (no FleetTask for the task), succeeds and returns `r`:
`r` is 1 when the committed FleetTask collection (the one the greatest-id read
sees) is empty; when every id of that collection is below `2^53`, `r` is (the
greatest existing id) + 1 and greater than, and different from, every id of the
collection; in every case exactly one FleetTask row, with id `r`, is added, `r`
differs from every FleetTask id the session sees, and pairwise distinct ids stay
pairwise distinct. -/
theorem new_fleetTask_id_is_max_plus_one (env : Env) (taskId r : Nat)
    (data : Option TransportData) (t t1 : Txn)
    (hOk : handleTransport env taskId data t = .ok (t1, r) ∨
      (t.working.fleetTasks.find? (fun f => f.taskId == some taskId) = none ∧
        handleTransportUpdate env taskId data t = .ok (t1, r))) :
    (t.committed.fleetTasks = [] → r = 1) ∧
    ((∀ f ∈ t.committed.fleetTasks, f.id < 2 ^ 53) →
      (t.committed.fleetTasks ≠ [] → ∃ g ∈ t.committed.fleetTasks,
        (∀ f ∈ t.committed.fleetTasks, f.id ≤ g.id) ∧ r = g.id + 1) ∧
      (∀ f ∈ t.committed.fleetTasks, f.id < r ∧ f.id ≠ r)) ∧
    (∃ f, f.id = r ∧ t1.working.fleetTasks = t.working.fleetTasks ++ [f]) ∧
    (∀ f ∈ t.working.fleetTasks, f.id ≠ r) ∧
    ((t.working.fleetTasks.map (fun f => f.id)).Nodup →
      (t1.working.fleetTasks.map (fun f => f.id)).Nodup) := by
  have key : ∃ d, r = nextFleetTaskId (maxById t.committed.fleetTasks) ∧
      t1.working.fleetTasks = t.working.fleetTasks ++ [newFleetTask env r taskId d] := by
    rcases hOk with h | ⟨hnone, h⟩
    · obtain ⟨d, _, hr, ht1⟩ := handleTransport_full h
      exact ⟨d, hr, by rw [ht1]⟩
    · obtain ⟨d, _, hr, ht1⟩ := handleTransportUpdate_missing_ok hnone h
      exact ⟨d, hr, by rw [ht1]⟩
  have hfresh : ∀ f ∈ t.working.fleetTasks, f.id ≠ r := by
    rcases hOk with h | ⟨hnone, h⟩
    · exact handleTransport_fresh h
    · exact handleTransportUpdate_missing_fresh hnone h
  obtain ⟨d, hr, ht1⟩ := key
  refine ⟨?_, ?_, ⟨_, rfl, ht1⟩, hfresh, ?_⟩
  · intro he
    rw [hr, he]
    rfl
  · intro hSafe
    have hgt : ∀ f ∈ t.committed.fleetTasks, f.id < r := by
      rw [hr]
      exact nextFleetTaskId_gt _ hSafe
    constructor
    · intro hne
      cases hm : maxById t.committed.fleetTasks with
      | none => exact absurd (maxById_eq_none hm) hne
      | some g =>
        refine ⟨g, maxById_mem hm, maxById_le hm, ?_⟩
        rw [hr, nextFleetTaskId_of_safe hm hSafe]
    · intro f hf
      have := hgt f hf
      exact ⟨this, by omega⟩
  · intro hnd
    rw [ht1, List.map_append, List.nodup_append]
    refine ⟨hnd, by simp, ?_⟩
    intro a ha hb
    simp only [List.map_cons, List.map_nil, List.mem_singleton] at hb
    rw [List.mem_map] at ha
    obtain ⟨f, hf, hfa⟩ := ha
    have := hfresh f hf
    have hid : (newFleetTask env r taskId d).id = r := rfl
    omega

/-- Witness for C16: on `tripStore` (greatest id 7) `handleTransport` returns 8;
on `bareStore` (no FleetTask) the create branch of `handleTransportUpdate`
returns 1. -/
theorem new_fleetTask_id_is_max_plus_one_witness :
    handleTransport quietEnv 30000 (some fullData) tripTxn =
      .ok ({ tripTxn with working := { tripStore with
              fleetTasks := tripStore.fleetTasks ++ [newFleetTask quietEnv 8 30000 fullData] } },
           8) ∧
    (bareTxn.working.fleetTasks.find? (fun f => f.taskId == some 20000) = none ∧
      handleTransportUpdate quietEnv 20000 (some fullData) bareTxn =
        .ok ({ bareTxn with working := { bareStore with
                fleetTasks := [newFleetTask quietEnv 1 20000 fullData] } }, 1)) ∧
    (∀ f ∈ tripTxn.committed.fleetTasks, f.id < 2 ^ 53) ∧
    (tripTxn.committed.fleetTasks ≠ [] → ∃ g ∈ tripTxn.committed.fleetTasks,
      (∀ f ∈ tripTxn.committed.fleetTasks, f.id ≤ g.id) ∧ 8 = g.id + 1) ∧
    (bareTxn.committed.fleetTasks = [] → 1 = 1) :=
  ⟨by decide, by decide, by decide,
    ((new_fleetTask_id_is_max_plus_one quietEnv 30000 8 (some fullData) tripTxn
      { tripTxn with working := { tripStore with
          fleetTasks := tripStore.fleetTasks ++ [newFleetTask quietEnv 8 30000 fullData] } }
      (Or.inl (by decide))).2.1 (by decide)).1,
    (new_fleetTask_id_is_max_plus_one quietEnv 20000 1 (some fullData) bareTxn
      { bareTxn with working := { bareStore with
          fleetTasks := [newFleetTask quietEnv 1 20000 fullData] } }
      (Or.inr (by decide))).1⟩

/-! ## The id of a new Task -/

theorem roundDouble_snd_pos (n d : Nat) : 0 < (roundDouble n d).2 := by
  unfold roundDouble binade
  split_ifs <;> simp

theorem product_le (rn rd : Nat) (hd : 0 < rd) (h : rn * 2 ^ 53 ≤ rd * (2 ^ 53 - 1)) :
    (roundDouble (rn * 90000) rd).1 * 2 ^ 36 ≤
      (90000 * 2 ^ 36 - 1) * (roundDouble (rn * 90000) rd).2 := by
  have hlt : rn < rd := by
    by_contra hc
    have : rd * 2 ^ 53 ≤ rn * 2 ^ 53 := Nat.mul_le_mul_right _ (by omega)
    have : rd * (2 ^ 53 - 1) < rd * 2 ^ 53 := Nat.mul_lt_mul_of_pos_left (by norm_num) hd
    omega
  unfold roundDouble
  by_cases h0 : rn * 90000 = 0
  · simp [h0]
  simp only [h0, if_false]
  unfold binade
  by_cases hx : rd ≤ rn * 90000
  · simp only [hx, if_true]
    obtain ⟨hb1, hb2⟩ := bitLength_spec (rn * 90000 / rd)
    have hq0 : rn * 90000 / rd ≠ 0 := by
      have := (Nat.le_div_iff_mul_le hd).2 (by simpa using hx : 1 * rd ≤ rn * 90000)
      omega
    have hb2 := hb2 hq0
    have hq : rn * 90000 / rd < 90000 := by
      rw [Nat.div_lt_iff_lt_mul hd]
      nlinarith
    generalize hL : bitLength (rn * 90000 / rd) = L at *
    have hL17 : L ≤ 17 := by
      by_contra hc
      have : 2 ^ 17 ≤ 2 ^ (L - 1) := Nat.pow_le_pow_right (by norm_num) (by omega)
      norm_num at this
      omega
    have hL1 : 1 ≤ L := by
      by_contra hc
      have : L = 0 := by omega
      rw [this] at hb1
      simp at hb1
      exact hq0 hb1
    have h53 : L ≤ 53 := by omega
    simp only [h53, if_true, Nat.mul_one]
    have hnlt : rn * 90000 < 2 ^ L * rd := by
      have := (Nat.div_lt_iff_lt_mul hd).1 hb1
      rwa [Nat.mul_comm] at this ⊢
    by_cases h17 : L = 17
    · subst h17
      have : roundHalfEven (rn * 90000 * 2 ^ (53 - 17)) rd ≤ 90000 * 2 ^ 36 - 1 := by
        apply roundHalfEven_le_of_lt_half hd
        norm_num
        norm_num at h
        omega
      norm_num at this ⊢
      omega
    · have hM : roundHalfEven (rn * 90000 * 2 ^ (53 - L)) rd ≤ 2 ^ 53 := by
        apply roundHalfEven_le hd
        have : 2 ^ 53 = 2 ^ L * 2 ^ (53 - L) := by
          rw [← pow_add]; congr 1; omega
        rw [this]
        calc rn * 90000 * 2 ^ (53 - L) ≤ (2 ^ L * rd) * 2 ^ (53 - L) :=
              Nat.mul_le_mul_right _ (Nat.le_of_lt hnlt)
          _ = 2 ^ L * 2 ^ (53 - L) * rd := by ring
      have hpow : 2 ^ 37 ≤ 2 ^ (53 - L) := Nat.pow_le_pow_right (by norm_num) (by omega)
      calc roundHalfEven (rn * 90000 * 2 ^ (53 - L)) rd * 2 ^ 36
          ≤ 2 ^ 53 * 2 ^ 36 := Nat.mul_le_mul_right _ hM
        _ ≤ (90000 * 2 ^ 36 - 1) * 2 ^ 37 := by norm_num
        _ ≤ (90000 * 2 ^ 36 - 1) * 2 ^ (53 - L) := Nat.mul_le_mul_left _ hpow
  · simp only [hx, if_false, Nat.mul_one]
    have hnpos : 0 < rn * 90000 := by omega
    obtain ⟨hb1, hb2⟩ := bitLength_spec ((rd - 1) / (rn * 90000))
    have hq0 : (rd - 1) / (rn * 90000) ≠ 0 := by
      have := (Nat.le_div_iff_mul_le hnpos).2 (by omega : 1 * (rn * 90000) ≤ rd - 1)
      omega
    have hb2 := hb2 hq0
    generalize hL : bitLength ((rd - 1) / (rn * 90000)) = j at *
    have hj1 : 1 ≤ j := by
      by_contra hc
      have : j = 0 := by omega
      rw [this] at hb1
      simp at hb1
      exact hq0 hb1
    have hle : 2 ^ (j - 1) * (rn * 90000) ≤ rd - 1 := (Nat.le_div_iff_mul_le hnpos).1 hb2
    have hM : roundHalfEven (rn * 90000 * 2 ^ (j + 52)) rd ≤ 2 ^ 53 := by
      apply roundHalfEven_le hd
      have : 2 ^ (j + 52) = 2 ^ (j - 1) * 2 ^ 53 := by
        rw [← pow_add]; congr 1; omega
      rw [this]
      calc rn * 90000 * (2 ^ (j - 1) * 2 ^ 53) = (2 ^ (j - 1) * (rn * 90000)) * 2 ^ 53 := by ring
        _ ≤ rd * 2 ^ 53 := Nat.mul_le_mul_right _ (by omega)
        _ = 2 ^ 53 * rd := by ring
    have hpow : 2 ^ 53 ≤ 2 ^ (j + 52) := Nat.pow_le_pow_right (by norm_num) (by omega)
    calc roundHalfEven (rn * 90000 * 2 ^ (j + 52)) rd * 2 ^ 36
        ≤ 2 ^ 53 * 2 ^ 36 := Nat.mul_le_mul_right _ hM
      _ ≤ (90000 * 2 ^ 36 - 1) * 2 ^ 53 := by norm_num
      _ ≤ (90000 * 2 ^ 36 - 1) * 2 ^ (j + 52) := Nat.mul_le_mul_left _ hpow

theorem sum_floor_bounds (pn pd : Nat) (hd : 0 < pd)
    (h : pn * 2 ^ 36 ≤ (90000 * 2 ^ 36 - 1) * pd) :
    10000 ≤ (roundDouble (10000 * pd + pn) pd).1 / (roundDouble (10000 * pd + pn) pd).2 ∧
    (roundDouble (10000 * pd + pn) pd).1 / (roundDouble (10000 * pd + pn) pd).2 ≤ 99999 := by
  have hN : 10000 * pd ≤ 10000 * pd + pn := Nat.le_add_right _ _
  have hU : (10000 * pd + pn) * 2 ^ 36 ≤ (100000 * 2 ^ 36 - 1) * pd := by
    norm_num at h ⊢
    omega
  generalize 10000 * pd + pn = N at hN hU
  have hqlo : 10000 ≤ N / pd := (Nat.le_div_iff_mul_le hd).2 hN
  have hqhi : N / pd < 100000 := by
    rw [Nat.div_lt_iff_lt_mul hd]
    norm_num at hU
    omega
  unfold roundDouble
  have h0 : N ≠ 0 := by omega
  simp only [h0, if_false]
  unfold binade
  have hx : pd ≤ N := by omega
  simp only [hx, if_true]
  obtain ⟨hb1, hb2⟩ := bitLength_spec (N / pd)
  have hb2 := hb2 (by omega)
  generalize hL : bitLength (N / pd) = L at *
  have hL17 : L ≤ 17 := by
    by_contra hc
    have : 2 ^ 17 ≤ 2 ^ (L - 1) := Nat.pow_le_pow_right (by norm_num) (by omega)
    norm_num at this
    omega
  have hL14 : 14 ≤ L := by
    by_contra hc
    have : 2 ^ L ≤ 2 ^ 13 := Nat.pow_le_pow_right (by norm_num) (by omega)
    norm_num at this
    omega
  have h53 : L ≤ 53 := by omega
  simp only [h53, if_true, Nat.mul_one]
  have hapos : 0 < 2 ^ (53 - L) := pow_pos (by norm_num) _
  constructor
  · rw [Nat.le_div_iff_mul_le hapos]
    apply roundHalfEven_ge hd
    calc 10000 * 2 ^ (53 - L) * pd = (10000 * pd) * 2 ^ (53 - L) := by ring
      _ ≤ N * 2 ^ (53 - L) := Nat.mul_le_mul_right _ hN
  · have : roundHalfEven (N * 2 ^ (53 - L)) pd ≤ 100000 * 2 ^ (53 - L) - 1 := by
      apply roundHalfEven_le hd
      have hsplit : 2 ^ (53 - L) = 2 ^ 36 * 2 ^ (17 - L) := by
        rw [← pow_add]; congr 1; omega
      have hc : 1 ≤ 2 ^ (17 - L) := Nat.one_le_two_pow
      rw [hsplit]
      generalize 2 ^ (17 - L) = c at hc
      have hcpd : pd ≤ c * pd := Nat.le_mul_of_pos_left _ (by omega)
      have e0 : (100000 * 2 ^ 36 - 1) * pd + pd = 100000 * 2 ^ 36 * pd := by
        have : (100000 * 2 ^ 36 - 1 : ℕ) + 1 = 100000 * 2 ^ 36 := by norm_num
        calc (100000 * 2 ^ 36 - 1) * pd + pd = ((100000 * 2 ^ 36 - 1) + 1) * pd := by ring
          _ = 100000 * 2 ^ 36 * pd := by rw [this]
      have e2 : (100000 * (2 ^ 36 * c) - 1) * pd + pd = 100000 * (2 ^ 36 * c) * pd := by
        have : (100000 * (2 ^ 36 * c) - 1) + 1 = 100000 * (2 ^ 36 * c) := by
          have : 0 < 100000 * (2 ^ 36 * c) :=
            Nat.mul_pos (by norm_num) (Nat.mul_pos (by norm_num) (by omega))
          omega
        calc (100000 * (2 ^ 36 * c) - 1) * pd + pd =
              ((100000 * (2 ^ 36 * c) - 1) + 1) * pd := by ring
          _ = 100000 * (2 ^ 36 * c) * pd := by rw [this]
      have e1 : ((100000 * 2 ^ 36 - 1) * pd) * c + c * pd = 100000 * (2 ^ 36 * c) * pd := by
        calc ((100000 * 2 ^ 36 - 1) * pd) * c + c * pd =
              ((100000 * 2 ^ 36 - 1) * pd + pd) * c := by ring
          _ = 100000 * 2 ^ 36 * pd * c := by rw [e0]
          _ = 100000 * (2 ^ 36 * c) * pd := by ring
      calc N * (2 ^ 36 * c) = (N * 2 ^ 36) * c := by ring
        _ ≤ ((100000 * 2 ^ 36 - 1) * pd) * c := Nat.mul_le_mul_right _ hU
        _ ≤ (100000 * (2 ^ 36 * c) - 1) * pd := by omega
    have hlt : roundHalfEven (N * 2 ^ (53 - L)) pd < 100000 * 2 ^ (53 - L) := by
      have : 0 < 100000 * 2 ^ (53 - L) := Nat.mul_pos (by norm_num) hapos
      omega
    have := (Nat.div_lt_iff_lt_mul hapos).2 hlt
    omega

theorem generateTaskId_bounds (env : Env) (hDouble : IsDouble env.randNum env.randDen)
    (h : env.randNum < env.randDen) :
    10000 ≤ generateTaskId env ∧ generateTaskId env ≤ 99999 := by
  unfold generateTaskId
  exact sum_floor_bounds _ _ (roundDouble_snd_pos _ _)
    (product_le env.randNum env.randDen hDouble.1 (isDouble_le hDouble h))

/-- C17: for `Math.random() = randNum / randDen`, a double with
`0 ≤ randNum / randDen < 1`, the Task id of `createTask`, the floor of
`10000 + r * 90000` computed in double arithmetic, lies between 10000 and 99999
and has exactly five decimal digits; the id a caller puts in the payload has no
effect on the call, and the Task returned by a successful call carries the
generated id. -/
theorem generateTaskId_five_digits (env : Env) (hDouble : IsDouble env.randNum env.randDen)
    (h : env.randNum < env.randDen) :
    10000 ≤ generateTaskId env ∧ generateTaskId env ≤ 99999 ∧
    (Nat.digits 10 (generateTaskId env)).length = 5 ∧
    (∀ (s : Store) (taskData : TaskData) (callerId : Option Nat),
      createTask env s { taskData with id := callerId } = createTask env s taskData) ∧
    (∀ (s s1 : Store) (taskData : TaskData) (task : Task),
      createTask env s taskData = (s1, .ok task) → task.id = generateTaskId env) := by
  obtain ⟨hlo, hhi⟩ := generateTaskId_bounds env hDouble h
  refine ⟨hlo, hhi, ?_, fun _ _ _ => rfl, ?_⟩
  · rw [Nat.digits_len 10 _ (by norm_num) (by omega)]
    have : Nat.log 10 (generateTaskId env) = 4 := by
      rw [Nat.log_eq_iff (Or.inl (by norm_num))]
      constructor <;> norm_num <;> omega
    rw [this]
  · intro s s1 taskData task hOk
    obtain ⟨htask, _, _⟩ := createTask_ok_full hOk
    rw [htask]
    rfl

/-- Witness for C17: `Math.random() = 1/2` gives the id 55000, whatever id the
payload carries; `Math.random() = 6004799503160661 / 2^54` gives 40000, the
product being rounded up to 30000 (the exact value of `10000 + r * 90000` lies
just below 40000). -/
theorem generateTaskId_five_digits_witness :
    (IsDouble halfEnv.randNum halfEnv.randDen ∧ halfEnv.randNum < halfEnv.randDen) ∧
    generateTaskId halfEnv = 55000 ∧
    (createTask halfEnv emptyStore workTask).2.toOption.map (fun x => x.id) = some 55000 ∧
    generateTaskId thirdEnv = 40000 ∧
    (10000 * thirdEnv.randDen + thirdEnv.randNum * 90000) / thirdEnv.randDen = 39999 ∧
    10000 ≤ generateTaskId halfEnv ∧ generateTaskId halfEnv ≤ 99999 ∧
    (Nat.digits 10 (generateTaskId halfEnv)).length = 5 :=
  ⟨⟨⟨by decide, 1, 1, by decide, Or.inl (by decide)⟩, by decide⟩, by decide, by decide,
    by decide, by decide,
    (generateTaskId_five_digits halfEnv ⟨by decide, 1, 1, by decide, Or.inl (by decide)⟩
      (by decide)).1,
    (generateTaskId_five_digits halfEnv ⟨by decide, 1, 1, by decide, Or.inl (by decide)⟩
      (by decide)).2.1,
    (generateTaskId_five_digits halfEnv ⟨by decide, 1, 1, by decide, Or.inl (by decide)⟩
      (by decide)).2.2.1⟩

/-! ## Error propagation -/

/-- C18: a commit that fails with `e` does not make `createTask` or `updateTask`
fail with `e`: the `catch` calls `abortTransaction`, which throws after a commit
attempt, and the caller gets that error; the store is as before.  The other
steps behave as claimed: the core Task write, the dispatched handler or the
back-reference patch failing with `e` makes the call fail with the same `e` and
leaves the store as it was, and a store operation of `handleTransport` or
`handleTransportUpdate` that fails with `e` makes the handler fail with the
same `e`. -/
theorem errors_propagate_except_commit (env : Env) (s : Store) (taskData : TaskData)
    (taskId : Nat) (updates : Updates) (data : Option TransportData) (t : Txn) (e : Error) :
    -- createTask: core write, delegation, commit
    (Task.create env (taskData.toTask (generateTaskId env)) { committed := s, working := s } =
        .error e → createTask env s taskData = (s, .error e)) ∧
    (∀ t1 task, Task.create env (taskData.toTask (generateTaskId env))
        { committed := s, working := s } = .ok (t1, task) →
      delegate taskHandlers env taskData.taskType task.id taskData.additionalData t1 = .error e →
      createTask env s taskData = (s, .error e)) ∧
    (∀ t1 task t2, Task.create env (taskData.toTask (generateTaskId env))
        { committed := s, working := s } = .ok (t1, task) →
      delegate taskHandlers env taskData.taskType task.id taskData.additionalData t1 = .ok t2 →
      commitTransaction env t2 = .error e →
      createTask env s taskData =
        (s, .error (.jsError "Cannot call abortTransaction after calling commitTransaction"))) ∧
    -- updateTask: core write, delegation, commit
    (Task.findOneAndUpdate env taskId updates { committed := s, working := s } = .error e →
      updateTask env s taskId updates = (s, .error e)) ∧
    (∀ t1 updatedTask, Task.findOneAndUpdate env taskId updates
        { committed := s, working := s } = .ok (t1, some updatedTask) →
      delegate updateHandlers env updatedTask.taskType taskId updates.additionalData t1 =
        .error e →
      updateTask env s taskId updates = (s, .error e)) ∧
    (∀ t1 updatedTask t2, Task.findOneAndUpdate env taskId updates
        { committed := s, working := s } = .ok (t1, some updatedTask) →
      delegate updateHandlers env updatedTask.taskType taskId updates.additionalData t1 =
        .ok t2 →
      commitTransaction env t2 = .error e →
      updateTask env s taskId updates =
        (s, .error (.jsError "Cannot call abortTransaction after calling commitTransaction"))) ∧
    -- delegation: the handler, the back-reference patch
    (∀ (handlers : TaskType → Option Handler) (ty : TaskType) (handler : Handler),
      handlers ty = some handler → handler env taskId data t = .error e →
      delegate handlers env ty taskId data t = .error e) ∧
    (∀ (handlers : TaskType → Option Handler) (handler : Handler) (t1 : Txn) (r : Nat),
      handlers .TRANSPORT = some handler → handler env taskId data t = .ok (t1, r) → r ≠ 0 →
      Task.updateOne env taskId r t1 = .error e →
      delegate handlers env .TRANSPORT taskId data t = .error e) ∧
    -- handleTransport
    (FleetTask.findLast env t = .error e → handleTransport env taskId data t = .error e) ∧
    (∀ o d, FleetTask.findLast env t = .ok o → data = some d →
      FleetTask.create env (newFleetTask env (nextFleetTaskId o) taskId d) t = .error e →
      handleTransport env taskId data t = .error e) ∧
    (∀ o d t1 f, FleetTask.findLast env t = .ok o → data = some d →
      FleetTask.create env (newFleetTask env (nextFleetTaskId o) taskId d) t = .ok (t1, f) →
      insertChildren env d f.id t1 = .error e →
      handleTransport env taskId data t = .error e) ∧
    -- the three insertMany blocks
    (∀ d id, insertPassengers env d id t = .error e → insertChildren env d id t = .error e) ∧
    (∀ d id t1, insertPassengers env d id t = .ok t1 → insertMaterials env d id t1 = .error e →
      insertChildren env d id t = .error e) ∧
    (∀ d id t1 t2, insertPassengers env d id t = .ok t1 → insertMaterials env d id t1 = .ok t2 →
      insertTools env d id t2 = .error e → insertChildren env d id t = .error e) ∧
    -- handleTransportUpdate
    (FleetTask.findOne env taskId t = .error e →
      handleTransportUpdate env taskId data t = .error e) ∧
    (FleetTask.findOne env taskId t = .ok none → FleetTask.findLast env t = .error e →
      handleTransportUpdate env taskId data t = .error e) ∧
    (∀ o d, FleetTask.findOne env taskId t = .ok none → FleetTask.findLast env t = .ok o →
      data = some d →
      FleetTask.create env (newFleetTask env (nextFleetTaskId o) taskId d) t = .error e →
      handleTransportUpdate env taskId data t = .error e) ∧
    (∀ f d, FleetTask.findOne env taskId t = .ok (some f) → data = some d →
      FleetTask.updateOne env f.id d t = .error e →
      handleTransportUpdate env taskId data t = .error e) ∧
    (∀ f d t1, FleetTask.findOne env taskId t = .ok (some f) → data = some d →
      FleetTask.updateOne env f.id d t = .ok t1 →
      FleetTaskPassenger.deleteMany env f.id t1 = .error e →
      handleTransportUpdate env taskId data t = .error e) ∧
    (∀ f d t1 t2, FleetTask.findOne env taskId t = .ok (some f) → data = some d →
      FleetTask.updateOne env f.id d t = .ok t1 →
      FleetTaskPassenger.deleteMany env f.id t1 = .ok t2 →
      FleetTaskMaterial.deleteMany env f.id t2 = .error e →
      handleTransportUpdate env taskId data t = .error e) ∧
    (∀ f d t1 t2 t3, FleetTask.findOne env taskId t = .ok (some f) → data = some d →
      FleetTask.updateOne env f.id d t = .ok t1 →
      FleetTaskPassenger.deleteMany env f.id t1 = .ok t2 →
      FleetTaskMaterial.deleteMany env f.id t2 = .ok t3 →
      FleetTaskTool.deleteMany env f.id t3 = .error e →
      handleTransportUpdate env taskId data t = .error e) ∧
    (∀ f d t1 t2 t3 t4, FleetTask.findOne env taskId t = .ok (some f) → data = some d →
      FleetTask.updateOne env f.id d t = .ok t1 →
      FleetTaskPassenger.deleteMany env f.id t1 = .ok t2 →
      FleetTaskMaterial.deleteMany env f.id t2 = .ok t3 →
      FleetTaskTool.deleteMany env f.id t3 = .ok t4 →
      insertChildren env d f.id t4 = .error e →
      handleTransportUpdate env taskId data t = .error e) := by
  refine ⟨?_, ?_, ?_, ?_, ?_, ?_, ?_, ?_, ?_, ?_, ?_, ?_, ?_, ?_, ?_, ?_, ?_, ?_, ?_, ?_, ?_, ?_⟩
  · intro h
    simp [createTask, createTaskWith, createTaskBody, h, bind, Except.bind, catchAbort,
      abortTransaction]
  · intro t1 task h1 h2
    simp [createTask, createTaskWith, createTaskBody, h1, h2, bind, Except.bind, catchAbort,
      abortTransaction]
  · intro t1 task t2 h1 h2 h3
    simp [createTask, createTaskWith, createTaskBody, h1, h2, h3, bind, Except.bind, pure,
      Except.pure, catchAbort, abortTransaction]
  · intro h
    simp [updateTask, updateTaskWith, updateTaskBody, h, bind, Except.bind, catchAbort,
      abortTransaction]
  · intro t1 u h1 h2
    simp [updateTask, updateTaskWith, updateTaskBody, h1, h2, bind, Except.bind, catchAbort,
      abortTransaction]
  · intro t1 u t2 h1 h2 h3
    simp [updateTask, updateTaskWith, updateTaskBody, h1, h2, h3, bind, Except.bind, pure,
      Except.pure, catchAbort, abortTransaction]
  · intro H ty handler hH h
    simp [delegate, hH, h, bind, Except.bind]
  · intro H handler t1 r hH h hr hp
    simp [delegate, hH, h, hr, hp, bind, Except.bind]
  · intro h
    simp [handleTransport, h, bind, Except.bind]
  · intro o d h1 hd h2
    simp [handleTransport, h1, hd, requireData, h2, bind, Except.bind]
  · intro o d t1 f h1 hd h2 h3
    simp [handleTransport, h1, hd, requireData, h2, h3, bind, Except.bind]
  · intro d id h
    simp [insertChildren, h, bind, Except.bind]
  · intro d id t1 h1 h2
    simp [insertChildren, h1, h2, bind, Except.bind]
  · intro d id t1 t2 h1 h2 h3
    simp [insertChildren, h1, h2, h3, bind, Except.bind]
  · intro h
    simp [handleTransportUpdate, h, bind, Except.bind]
  · intro h1 h2
    simp [handleTransportUpdate, h1, h2, bind, Except.bind]
  · intro o d h1 h2 hd h3
    simp [handleTransportUpdate, h1, h2, hd, requireData, h3, bind, Except.bind]
  · intro f d h1 hd h2
    simp [handleTransportUpdate, h1, hd, requireData, h2, bind, Except.bind]
  · intro f d t1 h1 hd h2 h3
    simp [handleTransportUpdate, h1, hd, requireData, h2, h3, bind, Except.bind]
  · intro f d t1 t2 h1 hd h2 h3 h4
    simp [handleTransportUpdate, h1, hd, requireData, h2, h3, h4, bind, Except.bind]
  · intro f d t1 t2 t3 h1 hd h2 h3 h4 h5
    simp [handleTransportUpdate, h1, hd, requireData, h2, h3, h4, h5, bind, Except.bind]
  · intro f d t1 t2 t3 t4 h1 hd h2 h3 h4 h5 h6
    simp [handleTransportUpdate, h1, hd, requireData, h2, h3, h4, h5, h6, bind, Except.bind]

/-- Witness for C18: the store rejects the commit of a WORK task with the error
`storeFault commitTransaction`; `createTask` fails with the error of
`abortTransaction`, not with that store error, and the store is as before. -/
theorem errors_propagate_except_commit_witness :
    Task.create commitFaultEnv (workTask.toTask (generateTaskId commitFaultEnv))
        { committed := emptyStore, working := emptyStore } =
      .ok ({ committed := emptyStore,
             working := { emptyStore with tasks := [workTask.toTask 10000] } },
           workTask.toTask 10000) ∧
    delegate taskHandlers commitFaultEnv workTask.taskType (workTask.toTask 10000).id
        workTask.additionalData
        { committed := emptyStore,
          working := { emptyStore with tasks := [workTask.toTask 10000] } } =
      .ok { committed := emptyStore,
            working := { emptyStore with tasks := [workTask.toTask 10000] } } ∧
    commitTransaction commitFaultEnv
        { committed := emptyStore,
          working := { emptyStore with tasks := [workTask.toTask 10000] } } =
      .error (.storeFault .commitTransaction) ∧
    createTask commitFaultEnv emptyStore workTask =
      (emptyStore,
        .error (.jsError "Cannot call abortTransaction after calling commitTransaction")) :=
  ⟨by decide, by decide, by decide,
    (errors_propagate_except_commit commitFaultEnv emptyStore workTask 0 retypeUpdates none
      { committed := emptyStore, working := emptyStore }
      (.storeFault .commitTransaction)).2.2.1
      { committed := emptyStore, working := { emptyStore with tasks := [workTask.toTask 10000] } }
      (workTask.toTask 10000)
      { committed := emptyStore, working := { emptyStore with tasks := [workTask.toTask 10000] } }
      (by decide) (by decide) (by decide)⟩

/-! ## Session binding of the reads -/

/-- C19 (failing input): `handleTransport` called in a session that has already
inserted FleetTask 1 and not committed it.  The read bound to the session
(`FleetTask.findOne({ taskId })`) sees that row; the read of the greatest id,
issued without the session, sees the committed collection, which is empty, so
the handler picks id 1 again and the insert fails on the duplicate key.  In
general the result of the greatest-id read does not depend on what the session
has written. -/
theorem max_id_read_is_outside_the_session :
    FleetTask.findOne quietEnv 20000 sessionTxn =
      .ok (some (newFleetTask quietEnv 1 20000 fullData)) ∧
    FleetTask.findLast quietEnv sessionTxn = .ok none ∧
    handleTransport quietEnv 30000 (some fullData) sessionTxn = .error .duplicateKey ∧
    ∀ (env : Env) (t : Txn) (w : Store),
      FleetTask.findLast env { t with working := w } = FleetTask.findLast env t := by
  refine ⟨by decide, by decide, by decide, fun _ _ _ => rfl⟩

/-! ## One FleetTask per Task -/

theorem filterMap_updateFirst {α β : Type} (key : α → Option β) (p : α → Bool) (g : α → α)
    (hg : ∀ x, key (g x) = key x) (l : List α) :
    (updateFirst p g l).filterMap key = l.filterMap key := by
  induction l with
  | nil => rfl
  | cons y ys ih =>
    unfold updateFirst
    split
    · simp [List.filterMap_cons, hg]
    · simp [List.filterMap_cons, ih]

theorem nodup_filterMap_append_new {l : List FleetTask} {f : FleetTask} (tid : Nat)
    (hnd : (l.filterMap (fun x => x.taskId)).Nodup) (hf : f.taskId = some tid)
    (hnew : ∀ x ∈ l, x.taskId ≠ some tid) :
    ((l ++ [f]).filterMap (fun x => x.taskId)).Nodup := by
  rw [List.filterMap_append, List.nodup_append]
  refine ⟨hnd, by simp [List.filterMap_cons, hf], ?_⟩
  intro a ha hb
  simp only [List.filterMap_cons, hf, List.filterMap_nil, List.mem_singleton] at hb
  rw [List.mem_filterMap] at ha
  obtain ⟨x, hx, hxa⟩ := ha
  exact hnew x hx (by rw [hxa, hb])

/-- C20 (counterexample): `danglingStore` has no Task and one FleetTask whose
`taskId` is 10000, so Task ids are pairwise distinct and no two FleetTasks share a
`taskId`; `createTask` draws the id 10000, succeeds and adds FleetTask 2 with
`taskId` 10000: two FleetTask rows now share a `taskId`. -/
theorem createTask_shares_dangling_taskId :
    TaskIdsDistinct danglingStore ∧ OneFleetTaskPerTask danglingStore ∧
    (createTask quietEnv danglingStore (transportTask blankData)).2 =
      .ok ((transportTask blankData).toTask 10000) ∧
    (createTask quietEnv danglingStore (transportTask blankData)).1.fleetTasks.map
      (fun f => (f.id, f.taskId)) = [(1, some 10000), (2, some 10000)] ∧
    ¬ OneFleetTaskPerTask (createTask quietEnv danglingStore (transportTask blankData)).1 := by
  decide

/-- C20 (amended): for every store in which Task ids are pairwise distinct, no
two FleetTask rows share a `taskId` and every `taskId` on a FleetTask row is the
id of a stored Task, after any successful `createTask` or `updateTask` no two
FleetTask rows share a `taskId`. -/
theorem one_fleetTask_per_task_preserved (env : Env) (s s1 : Store) (r : Task)
    (hTasks : TaskIdsDistinct s) (hOne : OneFleetTaskPerTask s)
    (hRefer : FleetTasksReferToTasks s) :
    (∀ taskData, createTask env s taskData = (s1, .ok r) → OneFleetTaskPerTask s1) ∧
    (∀ taskId updates, updateTask env s taskId updates = (s1, .ok r) →
      OneFleetTaskPerTask s1) := by
  have _ := hTasks
  unfold OneFleetTaskPerTask at hOne ⊢
  constructor
  · intro taskData h
    obtain ⟨_, hfresh, hcase⟩ := createTask_ok_full h
    rcases hcase with ⟨_, hs⟩ | ⟨_, d, _, hs⟩
    · rw [hs]
      exact hOne
    · rw [hs]
      apply nodup_filterMap_append_new r.id hOne rfl
      intro x hx hxt
      obtain ⟨task, htask, hid⟩ := hRefer x hx r.id (by rw [hxt]; rfl)
      rw [List.any_eq_false] at hfresh
      exact hfresh task htask (by simp [hid])
  · intro taskId updates h
    obtain ⟨task0, _, _, hcase⟩ := updateTask_ok_full h
    rcases hcase with ⟨_, hs⟩ | ⟨_, d, _, ⟨hnone, hs⟩ | ⟨f0, _, hs⟩⟩
    · rw [hs]
      exact hOne
    · rw [hs]
      apply nodup_filterMap_append_new taskId hOne rfl
      intro x hx hxt
      unfold Store.fleetTaskOf at hnone
      rw [List.find?_eq_none] at hnone
      exact hnone x hx (by simp [hxt])
    · rw [hs]
      simp only
      rw [filterMap_updateFirst (fun x : FleetTask => x.taskId) (fun f => f.id == f0.id)
        (FleetTask.setFields env d) (fun _ => rfl)]
      exact hOne

/-- Witness for C20 (amended): on `tripStore`, whose one FleetTask belongs to the
stored task 20000, a new material transport task gets its own FleetTask. -/
theorem one_fleetTask_per_task_preserved_witness :
    TaskIdsDistinct tripStore ∧ OneFleetTaskPerTask tripStore ∧
    FleetTasksReferToTasks tripStore ∧
    createTask quietEnv tripStore (transportTask materialData) =
      (afterMaterialTrip, .ok ((transportTask materialData).toTask 10000)) ∧
    afterMaterialTrip.fleetTasks.map (fun f => (f.id, f.taskId)) =
      [(7, some 20000), (8, some 10000)] ∧
    OneFleetTaskPerTask afterMaterialTrip :=
  ⟨by decide, by decide, by decide, by decide, by decide,
    (one_fleetTask_per_task_preserved quietEnv tripStore afterMaterialTrip
      ((transportTask materialData).toTask 10000) (by decide) (by decide) (by decide)).1
      (transportTask materialData) (by decide)⟩

/-! ## Child rows and the transport type -/

theorem filter_eq_of_filter_ne {α : Type} (key : α → Nat) (l : List α) {i j : Nat}
    (h : i ≠ j) :
    (l.filter (fun x => key x != j)).filter (fun x => key x == i) =
      l.filter (fun x => key x == i) := by
  rw [List.filter_filter]
  apply List.filter_congr
  intro x _
  by_cases hx : key x = i
  · simp [hx, h]
  · simp [hx]

theorem filter_eq_of_filter_ne_self {α : Type} (key : α → Nat) (l : List α) (j : Nat) :
    (l.filter (fun x => key x != j)).filter (fun x => key x == j) = [] := by
  rw [List.filter_filter, List.filter_eq_nil_iff]
  intro x _
  by_cases hx : key x = j <;> simp [hx]

theorem filter_eq_nil_of_key {α : Type} (key : α → Nat) (l : List α) {i r : Nat}
    (hl : ∀ x ∈ l, key x = r) (h : i ≠ r) : l.filter (fun x => key x == i) = [] := by
  rw [List.filter_eq_nil_iff]
  intro x hx
  rw [hl x hx]
  simp [Ne.symm h]

theorem materialRows_key (d : TransportData) (r : Nat) :
    ∀ x ∈ materialRows d r, x.fleetTaskId = r := by
  intro x hx
  unfold materialRows at hx
  split at hx
  · rw [List.mem_map] at hx
    obtain ⟨m, _, hm⟩ := hx
    rw [← hm]
  · cases hx

theorem toolRows_key (d : TransportData) (r : Nat) : ∀ x ∈ toolRows d r, x.fleetTaskId = r := by
  intro x hx
  unfold toolRows at hx
  split at hx
  · rw [List.mem_map] at hx
    obtain ⟨m, _, hm⟩ := hx
    rw [← hm]
  · cases hx

theorem filter_eq_nil_of_owned {α : Type} (key : α → Nat) (l : List α) (fs : List FleetTask)
    (r : Nat) (hOwned : ∀ x ∈ l, ∃ f ∈ fs, f.id = key x) (hfresh : ∀ f ∈ fs, f.id ≠ r) :
    l.filter (fun x => key x == r) = [] := by
  rw [List.filter_eq_nil_iff]
  intro x hx
  obtain ⟨f, hf, hfx⟩ := hOwned x hx
  have := hfresh f hf
  simp only [beq_iff_eq]
  omega

theorem mem_updateFirst_byId (g : FleetTask → FleetTask) {l : List FleetTask} {i : Nat}
    {x : FleetTask} (hnd : (l.map (fun f => f.id)).Nodup) (hg : ∀ y, (g y).id = y.id)
    (hx : x ∈ updateFirst (fun f => f.id == i) g l) :
    (x.id ≠ i ∧ x ∈ l) ∨ (x.id = i ∧ ∃ y ∈ l, x = g y) := by
  induction l with
  | nil => cases hx
  | cons y ys ih =>
    simp only [List.map_cons, List.nodup_cons] at hnd
    unfold updateFirst at hx
    split at hx
    · rename_i hy
      simp only [beq_iff_eq] at hy
      rcases List.mem_cons.mp hx with rfl | hmem
      · exact Or.inr ⟨by rw [hg, hy], y, List.mem_cons_self _ _, rfl⟩
      · left
        refine ⟨?_, List.mem_cons_of_mem _ hmem⟩
        intro hxi
        apply hnd.1
        rw [hy, ← hxi]
        exact List.mem_map_of_mem _ hmem
    · rcases List.mem_cons.mp hx with rfl | hmem
      · rename_i hy
        simp only [beq_iff_eq] at hy
        exact Or.inl ⟨hy, List.mem_cons_self _ _⟩
      · rcases ih hnd.2 hmem with ⟨h1, h2⟩ | ⟨h1, z, hz, h2⟩
        · exact Or.inl ⟨h1, List.mem_cons_of_mem _ h2⟩
        · exact Or.inr ⟨h1, z, List.mem_cons_of_mem _ hz, h2⟩

theorem childExclusive_append_new {s : Store} (tasks1 : List Task) (nf : FleetTask)
    (ms : List FleetTaskMaterial) (ts : List FleetTaskTool)
    (hInv : ChildExclusive s) (hOwned : ChildrenOwned s)
    (hfresh : ∀ f ∈ s.fleetTasks, f.id ≠ nf.id)
    (hms : ∀ x ∈ ms, x.fleetTaskId = nf.id) (hts : ∀ x ∈ ts, x.fleetTaskId = nf.id)
    (hmty : nf.transportType ≠ some "MATERIAL_TRANSPORT" → ms = [])
    (htty : nf.transportType ≠ some "TOOL_TRANSPORT" → ts = []) :
    ChildExclusive
      { tasks := tasks1, fleetTasks := s.fleetTasks ++ [nf], passengers := s.passengers,
        materials := s.materials ++ ms, tools := s.tools ++ ts } := by
  intro f hf
  simp only [Store.passengersOf, Store.materialsOf, Store.toolsOf, List.filter_append]
  rcases List.mem_append.mp hf with hold | hnew
  · obtain ⟨h1, h2, h3⟩ := hInv f hold
    simp only [Store.passengersOf, Store.materialsOf, Store.toolsOf] at h1 h2 h3
    have hne := hfresh f hold
    rw [filter_eq_nil_of_key (fun x : FleetTaskMaterial => x.fleetTaskId) ms hms hne,
      filter_eq_nil_of_key (fun x : FleetTaskTool => x.fleetTaskId) ts hts hne]
    simp only [List.append_nil]
    exact ⟨h1, h2, h3⟩
  · simp only [List.mem_singleton] at hnew
    subst hnew
    rw [filter_eq_nil_of_owned (fun x : FleetTaskPassenger => x.fleetTaskId) s.passengers
        s.fleetTasks f.id hOwned.1 hfresh,
      filter_eq_nil_of_owned (fun x : FleetTaskMaterial => x.fleetTaskId) s.materials
        s.fleetTasks f.id hOwned.2.1 hfresh,
      filter_eq_nil_of_owned (fun x : FleetTaskTool => x.fleetTaskId) s.tools
        s.fleetTasks f.id hOwned.2.2 hfresh]
    refine ⟨fun _ => rfl, ?_, ?_⟩
    · intro h
      rw [hmty h]
      rfl
    · intro h
      rw [htty h]
      rfl

theorem childExclusive_update_found {s : Store} (tasks1 : List Task) (env : Env)
    (d : TransportData) (i : Nat) (ms : List FleetTaskMaterial) (ts : List FleetTaskTool)
    (hInv : ChildExclusive s) (hIds : (s.fleetTasks.map (fun f => f.id)).Nodup)
    (hms : ∀ x ∈ ms, x.fleetTaskId = i) (hts : ∀ x ∈ ts, x.fleetTaskId = i)
    (hmty : d.transportType ≠ some "MATERIAL_TRANSPORT" → ms = [])
    (htty : d.transportType ≠ some "TOOL_TRANSPORT" → ts = []) :
    ChildExclusive
      { tasks := tasks1
        fleetTasks := updateFirst (fun f => f.id == i) (FleetTask.setFields env d) s.fleetTasks
        passengers := s.passengers.filter (fun x => x.fleetTaskId != i)
        materials := s.materials.filter (fun x => x.fleetTaskId != i) ++ ms
        tools := s.tools.filter (fun x => x.fleetTaskId != i) ++ ts } := by
  intro f hf
  simp only [Store.passengersOf, Store.materialsOf, Store.toolsOf, List.filter_append]
  have hf1 : f ∈ updateFirst (fun f => f.id == i) (FleetTask.setFields env d) s.fleetTasks := hf
  rcases mem_updateFirst_byId (FleetTask.setFields env d) hIds (fun _ => rfl) hf1 with
    ⟨hne, hold⟩ | ⟨heq, y, _, hy⟩
  · obtain ⟨h1, h2, h3⟩ := hInv f hold
    simp only [Store.passengersOf, Store.materialsOf, Store.toolsOf] at h1 h2 h3
    rw [filter_eq_of_filter_ne (fun x : FleetTaskPassenger => x.fleetTaskId) _ hne,
      filter_eq_of_filter_ne (fun x : FleetTaskMaterial => x.fleetTaskId) _ hne,
      filter_eq_of_filter_ne (fun x : FleetTaskTool => x.fleetTaskId) _ hne,
      filter_eq_nil_of_key (fun x : FleetTaskMaterial => x.fleetTaskId) ms hms hne,
      filter_eq_nil_of_key (fun x : FleetTaskTool => x.fleetTaskId) ts hts hne]
    simp only [List.append_nil]
    exact ⟨h1, h2, h3⟩
  · have hty : d.transportType = none ∨ f.transportType = d.transportType := by
      rw [hy]
      cases hd : d.transportType with
      | none => exact Or.inl rfl
      | some v => exact Or.inr (by simp [FleetTask.setFields, setPath, hd])
    rw [heq, filter_eq_of_filter_ne_self (fun x : FleetTaskPassenger => x.fleetTaskId),
      filter_eq_of_filter_ne_self (fun x : FleetTaskMaterial => x.fleetTaskId),
      filter_eq_of_filter_ne_self (fun x : FleetTaskTool => x.fleetTaskId)]
    refine ⟨fun _ => rfl, ?_, ?_⟩
    · intro h
      have hd : d.transportType ≠ some "MATERIAL_TRANSPORT" := by
        rcases hty with h0 | h0
        · rw [h0]; simp
        · rw [← h0]; exact h
      rw [hmty hd]
      rfl
    · intro h
      have hd : d.transportType ≠ some "TOOL_TRANSPORT" := by
        rcases hty with h0 | h0
        · rw [h0]; simp
        · rw [← h0]; exact h
      rw [htty hd]
      rfl

/-- C12 (counterexample): `orphanStore` has no FleetTask and one passenger row
left with `fleetTaskId = 1`; the predicate holds there.  `createTask` with a
MATERIAL_TRANSPORT payload succeeds and creates FleetTask 1, which now has a
passenger row although its `transportType` is MATERIAL_TRANSPORT. -/
theorem createTask_breaks_child_exclusive :
    ChildExclusive orphanStore ∧
    (createTask quietEnv orphanStore (transportTask materialData)).2 =
      .ok ((transportTask materialData).toTask 10000) ∧
    (createTask quietEnv orphanStore (transportTask materialData)).1.fleetTasks.map
      (fun f => (f.id, f.transportType)) = [(1, some "MATERIAL_TRANSPORT")] ∧
    ((createTask quietEnv orphanStore (transportTask materialData)).1.passengersOf 1).length = 1 ∧
    ¬ ChildExclusive (createTask quietEnv orphanStore (transportTask materialData)).1 := by
  decide

/-- C12 (amended): on a store whose FleetTask ids are pairwise distinct and whose
passenger, material and tool rows all carry the id of a stored FleetTask, the
predicate 'for every FleetTask, only the child collection matching its
`transportType` holds rows with its id' is preserved by every successful
`createTask` and `updateTask`, an `updateTask` that switches `transportType`
included. -/
theorem child_exclusive_preserved (env : Env) (s s1 : Store) (r : Task)
    (hInv : ChildExclusive s) (hOwned : ChildrenOwned s) (hIds : FleetTaskIdsDistinct s) :
    (∀ taskData, createTask env s taskData = (s1, .ok r) → ChildExclusive s1) ∧
    (∀ taskId updates, updateTask env s taskId updates = (s1, .ok r) → ChildExclusive s1) := by
  constructor
  · intro taskData h
    obtain ⟨_, _, hcase⟩ := createTask_ok_full h
    rcases hcase with ⟨_, hs⟩ | ⟨hType, d, _, hs⟩
    · rw [hs]
      exact hInv
    · have hfresh := createTask_fleet_fresh hType h
      rw [hs]
      exact childExclusive_append_new _ _ _ _ hInv hOwned hfresh (materialRows_key d _)
        (toolRows_key d _) (materialRows_other d _) (toolRows_other d _)
  · intro taskId updates h
    obtain ⟨task0, hTask0, _, hcase⟩ := updateTask_ok_full h
    rcases hcase with ⟨_, hs⟩ | ⟨hType, d, _, ⟨hNone, hs⟩ | ⟨f0, _, hs⟩⟩
    · rw [hs]
      exact hInv
    · have hfresh := updateTask_fleet_fresh hTask0 hType hNone h
      rw [hs]
      have := childExclusive_append_new
        (tasksAfterUpdate env updates taskId (nextFleetTaskId (maxById s.fleetTasks)) s.tasks)
        (newFleetTask env (nextFleetTaskId (maxById s.fleetTasks)) taskId d) [] []
        hInv hOwned hfresh (fun _ hx => by cases hx) (fun _ hx => by cases hx)
        (fun _ => rfl) (fun _ => rfl)
      simpa using this
    · rw [hs]
      exact childExclusive_update_found _ env d f0.id _ _ hInv hIds (materialRows_key d _)
        (toolRows_key d _) (materialRows_other d _) (toolRows_other d _)

/-- Witness for C12 (amended): on `tripStore` FleetTask 7 is a WORKER_TRANSPORT
with three passenger rows; an update with a MATERIAL_TRANSPORT payload leaves it
with one material row and no passenger row. -/
theorem child_exclusive_preserved_witness :
    ChildExclusive tripStore ∧ ChildrenOwned tripStore ∧ FleetTaskIdsDistinct tripStore ∧
    updateTask quietEnv tripStore 20000 (updatesOf materialData) =
      (afterSwitch, .ok (Task.setCore quietEnv (updatesOf materialData) tripTask)) ∧
    afterSwitch.fleetTasks.map (fun f => (f.id, f.transportType)) =
      [(7, some "MATERIAL_TRANSPORT")] ∧
    afterSwitch.passengersOf 7 = [] ∧ afterSwitch.materialsOf 7 = [⟨7, 7, 2⟩] ∧
    ChildExclusive afterSwitch :=
  ⟨by decide, by decide, by decide, by decide, by decide, by decide, by decide,
    (child_exclusive_preserved quietEnv tripStore afterSwitch
      (Task.setCore quietEnv (updatesOf materialData) tripTask)
      (by decide) (by decide) (by decide)).2 20000 (updatesOf materialData) (by decide)⟩

/-! ## The fallback of `handleTransportUpdate` and the create path -/

/-- C23: in a transaction whose session sees no FleetTask for `taskId`: when the
fallback branch of `handleTransportUpdate` and `handleTransport` both succeed for
the same arguments, they return the same id and add the same FleetTask row (id
1 or greatest id + 1, the given `taskId`, status 'PLANNED', the payload fields,
`plannedPickupTime = pickupTime`, `plannedDropTime = dropTime`), each returning
that row's id; and whenever `handleTransport` succeeds and the store answers the
lookup by `taskId`, the fallback succeeds too. -/
theorem fallback_row_equals_create_row (env : Env) (taskId : Nat)
    (data : Option TransportData) (t : Txn)
    (hNone : t.working.fleetTasks.find? (fun f => f.taskId == some taskId) = none) :
    (∀ t1 r1 t2 r2, handleTransportUpdate env taskId data t = .ok (t1, r1) →
      handleTransport env taskId data t = .ok (t2, r2) →
      r1 = r2 ∧ t1.working.fleetTasks = t2.working.fleetTasks ∧
      ∃ d f, data = some d ∧ t1.working.fleetTasks = t.working.fleetTasks ++ [f] ∧
        f = newFleetTask env (nextFleetTaskId (maxById t.committed.fleetTasks)) taskId d ∧
        f.id = r1 ∧ f.taskId = some taskId ∧ f.status = some "PLANNED" ∧
        f.plannedPickupTime = d.pickupTime ∧ f.plannedDropTime = d.dropTime) ∧
    (∀ t2 r2, handleTransport env taskId data t = .ok (t2, r2) →
      env.fault .fleetTaskFindOne = false →
      ∃ t1, handleTransportUpdate env taskId data t = .ok (t1, r2) ∧
        t1.working.fleetTasks = t2.working.fleetTasks) := by
  constructor
  · intro t1 r1 t2 r2 h1 h2
    obtain ⟨d1, hd1, hr1, ht1⟩ := handleTransportUpdate_missing_ok hNone h1
    obtain ⟨d2, hd2, hr2, ht2⟩ := handleTransport_full h2
    rw [hd1] at hd2
    cases hd2
    have hr : r1 = r2 := by rw [hr1, hr2]
    refine ⟨hr, ?_, d1, _, hd1, ?_, rfl, ?_, rfl, rfl, rfl, rfl⟩
    · rw [ht1, ht2, hr]
    · rw [ht1, hr1]
    · rw [hr1]
      rfl
  · intro t2 r2 h2 hf
    obtain ⟨d, hd, hr, ht2⟩ := handleTransport_full h2
    unfold handleTransport at h2
    obtain ⟨o, ho, h2⟩ := bind_ok h2
    obtain ⟨d1, hd1, h2⟩ := bind_ok h2
    obtain ⟨⟨t3, ft⟩, hc, h2⟩ := bind_ok h2
    obtain ⟨hft, ht3⟩ := fleetTaskCreate_ok hc
    refine ⟨t3, ?_, ?_⟩
    · have hfo : FleetTask.findOne env taskId t = .ok none := by
        simp [FleetTask.findOne, storeOp, hf, hNone, bind, Except.bind, pure, Except.pure]
      have hrid : ft.id = r2 := by
        rw [hft, hr, fleetTaskFindLast_ok ho]
        rfl
      simp [handleTransportUpdate, hfo, ho, hd1, hc, hrid, bind, Except.bind, pure, Except.pure]
    · have hdd : d1 = d := by
        have := requireData_ok hd1
        rw [hd] at this
        cases this
        rfl
      rw [ht3, ht2, hr, fleetTaskFindLast_ok ho, hdd]

/-- Witness for C23: on `bareStore` task 20000 has no FleetTask; both paths
create FleetTask 1 from `fullData`. -/
theorem fallback_row_equals_create_row_witness :
    bareTxn.working.fleetTasks.find? (fun f => f.taskId == some 20000) = none ∧
    handleTransportUpdate quietEnv 20000 (some fullData) bareTxn =
      .ok ({ bareTxn with working := { bareStore with
              fleetTasks := [newFleetTask quietEnv 1 20000 fullData] } }, 1) ∧
    handleTransport quietEnv 20000 (some fullData) bareTxn =
      .ok ({ bareTxn with working := { bareStore with
              fleetTasks := [newFleetTask quietEnv 1 20000 fullData] } }, 1) ∧
    (1 : Nat) = 1 ∧
    ({ bareTxn with working := { bareStore with
        fleetTasks := [newFleetTask quietEnv 1 20000 fullData] } } : Txn).working.fleetTasks =
      ({ bareTxn with working := { bareStore with
        fleetTasks := [newFleetTask quietEnv 1 20000 fullData] } } : Txn).working.fleetTasks :=
  ⟨by decide, by decide, by decide,
    ((fallback_row_equals_create_row quietEnv 20000 (some fullData) bareTxn (by decide)).1
      { bareTxn with working := { bareStore with
          fleetTasks := [newFleetTask quietEnv 1 20000 fullData] } } 1
      { bareTxn with working := { bareStore with
          fleetTasks := [newFleetTask quietEnv 1 20000 fullData] } } 1
      (by decide) (by decide)).1,
    ((fallback_row_equals_create_row quietEnv 20000 (some fullData) bareTxn (by decide)).1
      { bareTxn with working := { bareStore with
          fleetTasks := [newFleetTask quietEnv 1 20000 fullData] } } 1
      { bareTxn with working := { bareStore with
          fleetTasks := [newFleetTask quietEnv 1 20000 fullData] } } 1
      (by decide) (by decide)).2.1⟩

/-! ## Passenger documents and the schema -/

/-- C26 (failing input and general form): a document the handlers build for a
worker carries `fleetTaskId` and `workerEmployeeId` only; `id` and `companyId`,
both `required` in `models/FleetTaskPassenger.js`, are missing, validation
rejects the document, `insertMany` rejects every non-empty list of such
documents whatever the store does, and `handleTransport` with
`transportType = WORKER_TRANSPORT` and `workers = [1, 2, 3]` fails. -/
theorem passenger_documents_fail_validation :
    (∀ fleetTaskId empId : Nat,
      (passengerOf fleetTaskId empId).id = none ∧
      (passengerOf fleetTaskId empId).companyId = none ∧
      (passengerOf fleetTaskId empId).fleetTaskId = some fleetTaskId ∧
      (passengerOf fleetTaskId empId).workerEmployeeId = some empId) ∧
    (∀ (env : Env) (fleetTaskId empId : Nat),
      PassengerDoc.validate env (passengerOf fleetTaskId empId) = none) ∧
    (∀ (env : Env) (fleetTaskId w : Nat) (ws : List Nat) (t : Txn),
      FleetTaskPassenger.insertMany env
        ((w :: ws).map (fun empId => passengerOf fleetTaskId empId)) t =
        .error .validationError) ∧
    handleTransport quietEnv 30000 (some workerData) tripTxn = .error .validationError ∧
    handleTransportUpdate quietEnv 20000 (some workerData) tripTxn = .error .validationError := by
  refine ⟨fun _ _ => ⟨rfl, rfl, rfl, rfl⟩, fun _ _ _ => rfl, ?_, by decide, by decide⟩
  intro env fleetTaskId w ws t
  simp [FleetTaskPassenger.insertMany, validateAll, PassengerDoc.validate, passengerOf]

/-! ## Updating twice with the same payload -/

theorem tasksAfterUpdate_find_eq (env : Env) (updates : Updates) (taskId fid : Nat)
    (l : List Task) :
    (tasksAfterUpdate env updates taskId fid l).find? (fun x => x.id == taskId) =
      (l.find? (fun x => x.id == taskId)).map (taskAfterUpdate env updates fid) := by
  have hcore := find_updateFirst_same (fun x : Task => x.id == taskId) (Task.setCore env updates)
    (fun _ => rfl) l
  unfold tasksAfterUpdate
  split
  · rename_i h0
    rw [hcore]
    congr 1
    funext x
    simp [taskAfterUpdate, h0]
  · rename_i h0
    rw [find_updateFirst_same (fun x : Task => x.id == taskId)
      (fun x => { x with transportTaskId := some fid }) (fun _ => rfl), hcore, Option.map_map]
    congr 1
    funext x
    simp [taskAfterUpdate, h0]

theorem updateTask_found_full {env : Env} {s s1 : Store} {taskId : Nat} {updates : Updates}
    {r task0 : Task} {f0 : FleetTask}
    (hTask : s.findTask taskId = some task0) (hType : task0.taskType = .TRANSPORT)
    (hFleet : s.fleetTaskOf taskId = some f0)
    (h : updateTask env s taskId updates = (s1, .ok r)) :
    ∃ d, updates.additionalData = some d ∧ r = Task.setCore env updates task0 ∧
      s1 =
        { tasks := tasksAfterUpdate env updates taskId f0.id s.tasks
          fleetTasks := updateFirst (fun f => f.id == f0.id) (FleetTask.setFields env d)
            s.fleetTasks
          passengers := s.passengers.filter (fun x => x.fleetTaskId != f0.id)
          materials := s.materials.filter (fun x => x.fleetTaskId != f0.id) ++
            materialRows d f0.id
          tools := s.tools.filter (fun x => x.fleetTaskId != f0.id) ++ toolRows d f0.id } := by
  obtain ⟨task1, hfind, hr, hcase⟩ := updateTask_ok_full h
  rw [hTask] at hfind
  cases hfind
  rcases hcase with ⟨hne, _⟩ | ⟨_, d, hd, ⟨hnone, _⟩ | ⟨f1, hf1, hs⟩⟩
  · exact absurd hType hne
  · rw [hFleet] at hnone
    cases hnone
  · rw [hFleet] at hf1
    cases hf1
    exact ⟨d, hd, hr, hs⟩

theorem filter_ne_of_key {α : Type} (key : α → Nat) (l : List α) (i : Nat)
    (hl : ∀ x ∈ l, key x = i) : l.filter (fun x => key x != i) = [] := by
  rw [List.filter_eq_nil_iff]
  intro x hx
  simp [hl x hx]

theorem filter_ne_idem {α : Type} (key : α → Nat) (l : List α) (i : Nat) :
    (l.filter (fun x => key x != i)).filter (fun x => key x != i) =
      l.filter (fun x => key x != i) := by
  rw [List.filter_filter]
  apply List.filter_congr
  intro x _
  simp

theorem setPath_idem {α : Type} (v s : Option α) : setPath v (setPath v s) = setPath v s := by
  cases v <;> rfl

/-- C24: for a TRANSPORT task with a FleetTask (FleetTask ids pairwise distinct),
after two successful `updateTask` calls with the same payload the passenger,
material and tool collections are exactly what the first call left, and the
task's FleetTask row and its Task row are the rows the first call left except
for the timestamp `updatedAt`, which is the clock of the second call. -/
theorem updateTask_twice_same_payload (env1 env2 : Env) (s s1 s2 : Store) (taskId : Nat)
    (updates : Updates) (r1 r2 task0 : Task) (f0 : FleetTask)
    (hTask : s.findTask taskId = some task0) (hType : task0.taskType = .TRANSPORT)
    (hFleet : s.fleetTaskOf taskId = some f0) (hIds : FleetTaskIdsDistinct s)
    (h1 : updateTask env1 s taskId updates = (s1, .ok r1))
    (h2 : updateTask env2 s1 taskId updates = (s2, .ok r2)) :
    s2.passengers = s1.passengers ∧ s2.materials = s1.materials ∧ s2.tools = s1.tools ∧
    (∃ f1, s1.fleetTaskOf taskId = some f1 ∧
      s2.fleetTaskOf taskId = some { f1 with updatedAt := some env2.now }) ∧
    (∃ t1, s1.findTask taskId = some t1 ∧
      s2.findTask taskId = some { t1 with updatedAt := some env2.now }) := by
  obtain ⟨d, hd, _, hs1⟩ := updateTask_found_full hTask hType hFleet h1
  have hq : ∀ (env : Env) (x : FleetTask),
      ((FleetTask.setFields env d x).taskId == some taskId) = (x.taskId == some taskId) :=
    fun _ _ => rfl
  have hFleet1 : s1.fleetTaskOf taskId = some (FleetTask.setFields env1 d f0) := by
    unfold Store.fleetTaskOf
    rw [hs1]
    exact find_updateFirst_byId _ _ (hq env1) _ _ hIds hFleet
  have hIds1 : (s1.fleetTasks.map (fun f => f.id)).Nodup := by
    rw [hs1]
    simp only
    rw [map_updateFirst (fun f : FleetTask => f.id) (fun f => f.id == f0.id)
      (FleetTask.setFields env1 d) (fun _ => rfl)]
    exact hIds
  have hTask1 : s1.findTask taskId = some (taskAfterUpdate env1 updates f0.id task0) := by
    unfold Store.findTask at hTask ⊢
    rw [hs1]
    simp only
    rw [tasksAfterUpdate_find_eq, hTask]
    rfl
  have hType1 : (taskAfterUpdate env1 updates f0.id task0).taskType = .TRANSPORT := by
    unfold taskAfterUpdate
    split <;> exact hType
  obtain ⟨d2, hd2, _, hs2⟩ := updateTask_found_full hTask1 hType1 hFleet1 h2
  rw [hd] at hd2
  cases hd2
  have hid : (FleetTask.setFields env1 d f0).id = f0.id := rfl
  rw [hid] at hs2
  refine ⟨?_, ?_, ?_, ⟨_, hFleet1, ?_⟩, ⟨_, hTask1, ?_⟩⟩
  · rw [hs2, hs1]
    exact filter_ne_idem (fun x : FleetTaskPassenger => x.fleetTaskId) _ _
  · rw [hs2, hs1]
    simp only
    rw [List.filter_append, filter_ne_idem (fun x : FleetTaskMaterial => x.fleetTaskId),
      filter_ne_of_key (fun x : FleetTaskMaterial => x.fleetTaskId) _ _ (materialRows_key d _),
      List.append_nil]
  · rw [hs2, hs1]
    simp only
    rw [List.filter_append, filter_ne_idem (fun x : FleetTaskTool => x.fleetTaskId),
      filter_ne_of_key (fun x : FleetTaskTool => x.fleetTaskId) _ _ (toolRows_key d _),
      List.append_nil]
  · unfold Store.fleetTaskOf
    rw [hs2]
    simp only
    have := find_updateFirst_byId _ (FleetTask.setFields env2 d) (hq env2) _ _ hIds1 hFleet1
    rw [hid] at this
    rw [this]
    simp only [FleetTask.setFields, setPath_idem]
  · unfold Store.findTask at hTask1 ⊢
    rw [hs2]
    simp only
    rw [tasksAfterUpdate_find_eq, hTask1]
    unfold taskAfterUpdate
    split <;> simp only [Option.map_some', Task.setCore, setPath_idem]

/-- Witness for C24: the material update of `tripStore`, applied a second time
at a later clock: the child collections are the same, one material row. -/
theorem updateTask_twice_same_payload_witness :
    tripStore.findTask 20000 = some tripTask ∧ tripTask.taskType = .TRANSPORT ∧
    tripStore.fleetTaskOf 20000 = some tripFleetTask ∧ FleetTaskIdsDistinct tripStore ∧
    updateTask quietEnv tripStore 20000 (updatesOf materialData) =
      (afterSwitch, .ok (Task.setCore quietEnv (updatesOf materialData) tripTask)) ∧
    updateTask laterEnv afterSwitch 20000 (updatesOf materialData) =
      (afterSwitchTwice, .ok (Task.setCore laterEnv (updatesOf materialData)
        (taskAfterUpdate quietEnv (updatesOf materialData) 7 tripTask))) ∧
    afterSwitchTwice.materials = [⟨7, 7, 2⟩] ∧
    (afterSwitchTwice.passengers = afterSwitch.passengers ∧
      afterSwitchTwice.materials = afterSwitch.materials ∧
      afterSwitchTwice.tools = afterSwitch.tools) :=
  ⟨by decide, rfl, by decide, by decide, by decide, by decide, by decide,
    ⟨(updateTask_twice_same_payload quietEnv laterEnv tripStore afterSwitch afterSwitchTwice 20000
        (updatesOf materialData) (Task.setCore quietEnv (updatesOf materialData) tripTask)
        (Task.setCore laterEnv (updatesOf materialData)
          (taskAfterUpdate quietEnv (updatesOf materialData) 7 tripTask))
        tripTask tripFleetTask (by decide) rfl (by decide) (by decide) (by decide)
        (by decide)).1,
      (updateTask_twice_same_payload quietEnv laterEnv tripStore afterSwitch afterSwitchTwice 20000
        (updatesOf materialData) (Task.setCore quietEnv (updatesOf materialData) tripTask)
        (Task.setCore laterEnv (updatesOf materialData)
          (taskAfterUpdate quietEnv (updatesOf materialData) 7 tripTask))
        tripTask tripFleetTask (by decide) rfl (by decide) (by decide) (by decide)
        (by decide)).2.1,
      (updateTask_twice_same_payload quietEnv laterEnv tripStore afterSwitch afterSwitchTwice 20000
        (updatesOf materialData) (Task.setCore quietEnv (updatesOf materialData) tripTask)
        (Task.setCore laterEnv (updatesOf materialData)
          (taskAfterUpdate quietEnv (updatesOf materialData) 7 tripTask))
        tripTask tripFleetTask (by decide) rfl (by decide) (by decide) (by decide)
        (by decide)).2.2.1⟩⟩

/-! ## Referential integrity of the child rows -/

theorem exists_id_updateFirst (g : FleetTask → FleetTask) (hg : ∀ y, (g y).id = y.id)
    (p : FleetTask → Bool) (l : List FleetTask) (i : Nat) (h : ∃ f ∈ l, f.id = i) :
    ∃ f ∈ updateFirst p g l, f.id = i := by
  have hm : i ∈ (updateFirst p g l).map (fun f => f.id) := by
    rw [map_updateFirst (fun f : FleetTask => f.id) p g hg]
    obtain ⟨f, hf, hfi⟩ := h
    rw [← hfi]
    exact List.mem_map_of_mem _ hf
  rw [List.mem_map] at hm
  exact hm

/-- C28: if every passenger, material and tool row carries the id of a stored
FleetTask, the same holds after every successful `createTask` and `updateTask`;
`createTask` deletes no child row and every row it appends carries the id of the
FleetTask it appended for the new Task; every row `updateTask` appends carries
the id of the FleetTask it found for the task, and the rows it keeps are rows
that were there. -/
theorem children_owned_preserved (env : Env) (s s1 : Store) (r : Task)
    (hOwned : ChildrenOwned s) :
    (∀ taskData, createTask env s taskData = (s1, .ok r) →
      ChildrenOwned s1 ∧
      ∃ ms ts, s1.passengers = s.passengers ∧ s1.materials = s.materials ++ ms ∧
        s1.tools = s.tools ++ ts ∧
        ∀ i ∈ ms.map (fun x => x.fleetTaskId) ++ ts.map (fun x => x.fleetTaskId),
          ∃ nf, s1.fleetTasks = s.fleetTasks ++ [nf] ∧ nf.taskId = some r.id ∧ nf.id = i) ∧
    (∀ taskId updates, updateTask env s taskId updates = (s1, .ok r) →
      ChildrenOwned s1 ∧
      ∃ ms ts, s1.passengers.Sublist s.passengers ∧
        (∃ km, km.Sublist s.materials ∧ s1.materials = km ++ ms) ∧
        (∃ kt, kt.Sublist s.tools ∧ s1.tools = kt ++ ts) ∧
        ∀ i ∈ ms.map (fun x => x.fleetTaskId) ++ ts.map (fun x => x.fleetTaskId),
          ∃ f0, s.fleetTaskOf taskId = some f0 ∧ f0.id = i ∧
            ∃ f1 ∈ s1.fleetTasks, f1.id = i) := by
  obtain ⟨hp, hm, ht⟩ := hOwned
  have hrows : ∀ (d : TransportData) (k i : Nat),
      i ∈ (materialRows d k).map (fun x => x.fleetTaskId) ++
        (toolRows d k).map (fun x => x.fleetTaskId) → i = k := by
    intro d k i hi
    rcases List.mem_append.mp hi with h | h
    · rw [List.mem_map] at h
      obtain ⟨x, hx, hxi⟩ := h
      rw [← hxi]
      exact materialRows_key d k x hx
    · rw [List.mem_map] at h
      obtain ⟨x, hx, hxi⟩ := h
      rw [← hxi]
      exact toolRows_key d k x hx
  constructor
  · intro taskData h
    obtain ⟨_, _, hcase⟩ := createTask_ok_full h
    rcases hcase with ⟨_, hs⟩ | ⟨_, d, _, hs⟩
    · rw [hs]
      refine ⟨⟨hp, hm, ht⟩, [], [], rfl, by simp, by simp, ?_⟩
      intro i hi
      cases hi
    · have hw : ∀ l : List FleetTask, ∀ nf : FleetTask, ∀ i,
          (∃ f ∈ l, f.id = i) → ∃ f ∈ l ++ [nf], f.id = i := by
        intro l nf i ⟨f, hf, hfi⟩
        exact ⟨f, List.mem_append_left _ hf, hfi⟩
      rw [hs]
      refine ⟨⟨?_, ?_, ?_⟩, materialRows d _, toolRows d _, rfl, rfl, rfl, ?_⟩
      · intro x hx
        exact hw _ _ _ (hp x hx)
      · intro x hx
        rcases List.mem_append.mp hx with h1 | h1
        · exact hw _ _ _ (hm x h1)
        · exact ⟨_, List.mem_append_right _ (List.mem_singleton.mpr rfl),
            (materialRows_key d _ x h1).symm⟩
      · intro x hx
        rcases List.mem_append.mp hx with h1 | h1
        · exact hw _ _ _ (ht x h1)
        · exact ⟨_, List.mem_append_right _ (List.mem_singleton.mpr rfl),
            (toolRows_key d _ x h1).symm⟩
      · intro i hi
        exact ⟨_, rfl, rfl, (hrows d _ i hi).symm⟩
  · intro taskId updates h
    obtain ⟨task0, _, _, hcase⟩ := updateTask_ok_full h
    rcases hcase with ⟨_, hs⟩ | ⟨_, d, _, ⟨_, hs⟩ | ⟨f0, hf0, hs⟩⟩
    · rw [hs]
      refine ⟨⟨hp, hm, ht⟩, [], [], List.Sublist.refl _, ⟨_, List.Sublist.refl _, by simp⟩,
        ⟨_, List.Sublist.refl _, by simp⟩, ?_⟩
      intro i hi
      cases hi
    · rw [hs]
      refine ⟨⟨?_, ?_, ?_⟩, [], [], List.Sublist.refl _, ⟨_, List.Sublist.refl _, by simp⟩,
        ⟨_, List.Sublist.refl _, by simp⟩, ?_⟩
      · intro x hx
        obtain ⟨f, hf, hfi⟩ := hp x hx
        exact ⟨f, List.mem_append_left _ hf, hfi⟩
      · intro x hx
        obtain ⟨f, hf, hfi⟩ := hm x hx
        exact ⟨f, List.mem_append_left _ hf, hfi⟩
      · intro x hx
        obtain ⟨f, hf, hfi⟩ := ht x hx
        exact ⟨f, List.mem_append_left _ hf, hfi⟩
      · intro i hi
        cases hi
    · have hf0mem : ∃ f ∈ s.fleetTasks, f.id = f0.id :=
        ⟨f0, List.mem_of_find?_eq_some hf0, rfl⟩
      have hup : ∀ i, (∃ f ∈ s.fleetTasks, f.id = i) →
          ∃ f ∈ updateFirst (fun f => f.id == f0.id) (FleetTask.setFields env d) s.fleetTasks,
            f.id = i :=
        fun i hi => exists_id_updateFirst (FleetTask.setFields env d) (fun _ => rfl) _ _ i hi
      rw [hs]
      refine ⟨⟨?_, ?_, ?_⟩, materialRows d f0.id, toolRows d f0.id, List.filter_sublist _,
        ⟨_, List.filter_sublist _, rfl⟩, ⟨_, List.filter_sublist _, rfl⟩, ?_⟩
      · intro x hx
        exact hup _ (hp x (List.mem_of_mem_filter hx))
      · intro x hx
        rcases List.mem_append.mp hx with h1 | h1
        · exact hup _ (hm x (List.mem_of_mem_filter h1))
        · rw [materialRows_key d _ x h1]
          exact hup _ hf0mem
      · intro x hx
        rcases List.mem_append.mp hx with h1 | h1
        · exact hup _ (ht x (List.mem_of_mem_filter h1))
        · rw [toolRows_key d _ x h1]
          exact hup _ hf0mem
      · intro i hi
        have hik := hrows d f0.id i hi
        rw [hik]
        exact ⟨f0, hf0, rfl, hup _ hf0mem⟩

/-- Witness for C28: the material update of `tripStore`. -/
theorem children_owned_preserved_witness :
    ChildrenOwned tripStore ∧
    updateTask quietEnv tripStore 20000 (updatesOf materialData) =
      (afterSwitch, .ok (Task.setCore quietEnv (updatesOf materialData) tripTask)) ∧
    afterSwitch.materials.map (fun x => x.fleetTaskId) = [7] ∧
    afterSwitch.fleetTasks.map (fun f => f.id) = [7] ∧
    ChildrenOwned afterSwitch :=
  ⟨by decide, by decide, by decide, by decide,
    ((children_owned_preserved quietEnv tripStore afterSwitch
      (Task.setCore quietEnv (updatesOf materialData) tripTask) (by decide)).2
      20000 (updatesOf materialData) (by decide)).1⟩

/-! ## What `updateTask` leaves alone -/

theorem filter_ne_updateFirst (g : Task → Task) (hg : ∀ y, (g y).id = y.id) (k : Nat)
    (l : List Task) :
    (updateFirst (fun x => x.id == k) g l).filter (fun x => x.id != k) =
      l.filter (fun x => x.id != k) := by
  induction l with
  | nil => rfl
  | cons y ys ih =>
    unfold updateFirst
    by_cases hy : y.id = k
    · simp [hy, hg]
    · simp [hy, ih]

theorem filter_tasksAfterUpdate (env : Env) (updates : Updates) (taskId fid : Nat)
    (l : List Task) :
    (tasksAfterUpdate env updates taskId fid l).filter (fun x => x.id != taskId) =
      l.filter (fun x => x.id != taskId) := by
  unfold tasksAfterUpdate
  split
  · exact filter_ne_updateFirst (Task.setCore env updates) (fun _ => rfl) taskId l
  · rw [filter_ne_updateFirst (fun x => { x with transportTaskId := some fid }) (fun _ => rfl)]
    exact filter_ne_updateFirst (Task.setCore env updates) (fun _ => rfl) taskId l

theorem filter_updateFirst_byId (p : FleetTask → Bool) (g : FleetTask → FleetTask)
    (hg : ∀ y, p (g y) = p y) (l : List FleetTask) (f0 : FleetTask)
    (hnd : (l.map (fun f => f.id)).Nodup) (hmem : f0 ∈ l) (hp : p f0 = false) :
    (updateFirst (fun f => f.id == f0.id) g l).filter p = l.filter p := by
  induction l with
  | nil => rfl
  | cons y ys ih =>
    simp only [List.map_cons, List.nodup_cons] at hnd
    unfold updateFirst
    by_cases hy : y.id = f0.id
    · have hyf : y = f0 := by
        rcases List.mem_cons.mp hmem with h | h
        · exact h.symm
        · exfalso
          apply hnd.1
          rw [hy]
          exact List.mem_map_of_mem _ h
      subst hyf
      simp [List.filter_cons, hg, hp]
    · have hmem2 : f0 ∈ ys := by
        rcases List.mem_cons.mp hmem with h | h
        · exact absurd (by rw [h]) hy
        · exact h
      simp [hy, List.filter_cons, ih hnd.2 hmem2]

/-- C29: with FleetTask ids pairwise distinct, whatever the outcome of
`updateTask` on `taskId`: the Task rows with another id, the FleetTask rows with
another `taskId` and the passenger, material and tool rows whose `fleetTaskId`
is not the id of the task's FleetTask are, in order, the rows that were there
before the call (all child rows, when the task had no FleetTask). -/
theorem updateTask_changes_only_its_aggregate (env : Env) (s : Store) (taskId : Nat)
    (updates : Updates) (hIds : FleetTaskIdsDistinct s) :
    (updateTask env s taskId updates).1.tasks.filter (fun x => x.id != taskId) =
      s.tasks.filter (fun x => x.id != taskId) ∧
    (updateTask env s taskId updates).1.fleetTasks.filter (fun f => f.taskId != some taskId) =
      s.fleetTasks.filter (fun f => f.taskId != some taskId) ∧
    (∀ f0, s.fleetTaskOf taskId = some f0 →
      (updateTask env s taskId updates).1.passengers.filter (fun x => x.fleetTaskId != f0.id) =
        s.passengers.filter (fun x => x.fleetTaskId != f0.id) ∧
      (updateTask env s taskId updates).1.materials.filter (fun x => x.fleetTaskId != f0.id) =
        s.materials.filter (fun x => x.fleetTaskId != f0.id) ∧
      (updateTask env s taskId updates).1.tools.filter (fun x => x.fleetTaskId != f0.id) =
        s.tools.filter (fun x => x.fleetTaskId != f0.id)) ∧
    (s.fleetTaskOf taskId = none →
      (updateTask env s taskId updates).1.passengers = s.passengers ∧
      (updateTask env s taskId updates).1.materials = s.materials ∧
      (updateTask env s taskId updates).1.tools = s.tools) := by
  cases hr : updateTask env s taskId updates with
  | mk s1 res =>
    cases res with
    | error e =>
      rw [updateTask_error hr]
      exact ⟨rfl, rfl, fun _ _ => ⟨rfl, rfl, rfl⟩, fun _ => ⟨rfl, rfl, rfl⟩⟩
    | ok r =>
      obtain ⟨task0, _, _, hcase⟩ := updateTask_ok_full hr
      rcases hcase with ⟨_, hs⟩ | ⟨_, d, _, ⟨hnone, hs⟩ | ⟨f0, hf0, hs⟩⟩
      · subst hs
        dsimp only
        exact ⟨filter_tasksAfterUpdate _ _ _ _ _, rfl, fun _ _ => ⟨rfl, rfl, rfl⟩,
          fun _ => ⟨rfl, rfl, rfl⟩⟩
      · subst hs
        dsimp only
        refine ⟨filter_tasksAfterUpdate _ _ _ _ _, ?_, fun _ _ => ⟨rfl, rfl, rfl⟩,
          fun _ => ⟨rfl, rfl, rfl⟩⟩
        rw [List.filter_append]
        simp [newFleetTask]
      · subst hs
        dsimp only
        refine ⟨filter_tasksAfterUpdate _ _ _ _ _, ?_, ?_, ?_⟩
        · apply filter_updateFirst_byId (fun f => f.taskId != some taskId)
            (FleetTask.setFields env d) (fun _ => rfl) _ _ hIds (List.mem_of_find?_eq_some hf0)
          have := List.find?_some hf0
          simp only [beq_iff_eq] at this
          simp [this]
        · intro f1 hf1
          rw [hf0] at hf1
          cases hf1
          refine ⟨filter_ne_idem (fun x : FleetTaskPassenger => x.fleetTaskId) _ _, ?_, ?_⟩
          · rw [List.filter_append, filter_ne_idem (fun x : FleetTaskMaterial => x.fleetTaskId),
              filter_ne_of_key (fun x : FleetTaskMaterial => x.fleetTaskId) _ _
                (materialRows_key d _), List.append_nil]
          · rw [List.filter_append, filter_ne_idem (fun x : FleetTaskTool => x.fleetTaskId),
              filter_ne_of_key (fun x : FleetTaskTool => x.fleetTaskId) _ _ (toolRows_key d _),
              List.append_nil]
        · intro hn
          rw [hf0] at hn
          cases hn

/-! ## `normalizeStatus` -/

theorem normalizeStatus_mem (up : String → String) (v : StatusValue) :
    normalizeStatus up v ∈ ["PLANNED", "ONGOING", "COMPLETED", "CANCELLED"] := by
  unfold normalizeStatus
  cases v with
  | undefined => simp
  | null => simp
  | str s =>
    simp only
    split
    · simp
    · split
      · simp
      · split
        · simp
        · split
          · simp
          · split <;> simp

/-- C30: for every input value, `normalizeStatus` returns one of 'PLANNED',
'ONGOING', 'COMPLETED', 'CANCELLED'; when `toUpperCase` leaves these four
strings as they are (as the built-in does), each of them is a fixed point and
`normalizeStatus(normalizeStatus(s)) = normalizeStatus(s)`. -/
theorem normalizeStatus_idempotent (toUpperCase : String → String) (v : StatusValue)
    (hUp : ∀ c ∈ ["PLANNED", "ONGOING", "COMPLETED", "CANCELLED"], toUpperCase c = c) :
    normalizeStatus toUpperCase v ∈ ["PLANNED", "ONGOING", "COMPLETED", "CANCELLED"] ∧
    (∀ c ∈ ["PLANNED", "ONGOING", "COMPLETED", "CANCELLED"],
      normalizeStatus toUpperCase (.str c) = c) ∧
    normalizeStatus toUpperCase (.str (normalizeStatus toUpperCase v)) =
      normalizeStatus toUpperCase v := by
  have hfix : ∀ c ∈ ["PLANNED", "ONGOING", "COMPLETED", "CANCELLED"],
      normalizeStatus toUpperCase (.str c) = c := by
    intro c hc
    have hu := hUp c hc
    simp only [List.mem_cons, List.mem_singleton, List.not_mem_nil, or_false] at hc
    rcases hc with rfl | rfl | rfl | rfl
    · simp only [normalizeStatus, hu]
      decide
    · simp only [normalizeStatus, hu]
      decide
    · simp only [normalizeStatus, hu]
      decide
    · simp only [normalizeStatus, hu]
      decide
  exact ⟨normalizeStatus_mem _ _, hfix, hfix _ (normalizeStatus_mem _ _)⟩

/-- Witness for C30: with ASCII upper-casing, "in progress" becomes 'ONGOING'
and stays so; `null`, `undefined` and the empty string give 'PLANNED'. -/
theorem normalizeStatus_idempotent_witness :
    (∀ c ∈ ["PLANNED", "ONGOING", "COMPLETED", "CANCELLED"], asciiUpper c = c) ∧
    normalizeStatus asciiUpper (.str "in progress") = "ONGOING" ∧
    normalizeStatus asciiUpper .null = "PLANNED" ∧
    normalizeStatus asciiUpper .undefined = "PLANNED" ∧
    normalizeStatus asciiUpper (.str "") = "PLANNED" ∧
    normalizeStatus asciiUpper (.str (normalizeStatus asciiUpper (.str "in progress"))) =
      normalizeStatus asciiUpper (.str "in progress") :=
  ⟨by decide, by decide, by decide, by decide, by decide,
    (normalizeStatus_idempotent asciiUpper (.str "in progress") (by decide)).2.2⟩

/-! ## The e-mail notification and the fleet-task route -/

theorem sendEmailNotification_ok (env : ApiEnv) (recipient subject html : String) :
    sendEmailNotification env recipient subject html = .ok () := by
  unfold sendEmailNotification
  dsimp only
  split <;> rfl

theorem notifyDriver_sendMail (env : ApiEnv) (m : MailOptions → Except String Unit)
    (employees : List Employee) (projects : List Project) (vehicles : List FleetVehicle)
    (users : List User) (body : FleetTaskBody) :
    notifyDriver { env with sendMail := m } employees projects vehicles users body =
      notifyDriver env employees projects vehicles users body := by
  simp only [notifyDriver, sendEmailNotification_ok, lookupOp]

/-- C22: whatever the recipient, subject and body and whatever the mail
transport answers, `sendEmailNotification` resolves; and the answer and the
stored rows of the fleet-task POST route do not depend on the mail transport. -/
theorem sendEmailNotification_never_throws :
    (∀ (env : ApiEnv) (recipient subject html : String),
      sendEmailNotification env recipient subject html = .ok ()) ∧
    (∀ (env : ApiEnv) (m : MailOptions → Except String Unit) (companies : List Company)
      (employees : List Employee) (projects : List Project) (vehicles : List FleetVehicle)
      (users : List User) (fleetTasks : List FleetTask) (body : FleetTaskBody),
      postFleetTask { env with sendMail := m } companies employees projects vehicles users
          fleetTasks body =
        postFleetTask env companies employees projects vehicles users fleetTasks body) ∧
    postFleetTask deadMailApi [acme] [danaEmployee] [harbour] [van] [dana] [] harbourBody =
      ([{ noProjectRow with projectId := some 6 }], { status := 201, success := true }) := by
  refine ⟨sendEmailNotification_ok, ?_, by decide⟩
  intro env m companies employees projects vehicles users fleetTasks body
  simp only [postFleetTask, notifyDriver_sendMail]

/-- C27: a request without a project passes the guards and its FleetTask row is
saved, but reading `project.name` of the missing project throws, and the route
answers 500 with `success = false` although the row stays stored. -/
theorem postFleetTask_saved_row_answered_500 :
    postFleetTask quietApi [acme] [danaEmployee] [harbour] [van] [dana] [] noProjectBody =
      ([noProjectRow], { status := 500, success := false }) := by
  decide

theorem updateTask_changes_only_its_aggregate_witness :
    FleetTaskIdsDistinct afterMaterialTrip ∧
    (updateTask quietEnv afterMaterialTrip 10000 (updatesOf toolData)).1.fleetTasks.filter
        (fun f => f.taskId != some 10000) =
      afterMaterialTrip.fleetTasks.filter (fun f => f.taskId != some 10000) :=
  ⟨by decide,
   (updateTask_changes_only_its_aggregate quietEnv afterMaterialTrip 10000 (updatesOf toolData)
      (by decide)).2.1⟩

/-! ## createDriver -/

theorem createDriver_cases (env : ApiEnv) (employees : List Employee) (drivers : List Driver)
    (body : DriverBody) :
    createDriver env employees drivers body = (drivers, { status := 400, success := false }) ∨
    ∃ row key, createDriver env employees drivers body =
        (drivers ++ [row], { status := 201, success := true }) ∧
      body.employeeId.cast env.js = some key ∧
      body.employeeId.parseInt env.js = some row.employeeId ∧
      row.status = body.status.getD "ACTIVE" ∧
      ((drivers.find? (fun d => d.employeeId == key && d.status == "ACTIVE")).isSome &&
        body.status.getD "ACTIVE" == "ACTIVE") = false := by
  unfold createDriver
  dsimp only
  split
  · exact Or.inl rfl
  split
  · exact Or.inl rfl
  split
  · exact Or.inl rfl
  rename_i key hkey
  split
  · exact Or.inl rfl
  split
  · exact Or.inl rfl
  split
  · exact Or.inl rfl
  rename_i hx
  split
  · exact Or.inl rfl
  split
  · rename_i c e hc he
    split
    · exact Or.inl rfl
    · exact Or.inr ⟨_, key, rfl, hkey, he, rfl, by simpa using hx⟩
  · exact Or.inl rfl

/-- C25 (as stated, refuted): the lookups read `employeeId` with `Number`, the
stored row gets `parseInt(employeeId)`.  A request with `employeeId` "0b101"
(employee 5 for the lookups, 0 for `parseInt`) is answered 201 and stores an
ACTIVE driver under employeeId 0; the same request again is answered 201 too,
and two ACTIVE drivers carry employeeId 0. -/
theorem createDriver_two_active_drivers :
    createDriver quietApi [danaEmployee] [] oddDriverBody =
      ([oddDriver 1], { status := 201, success := true }) ∧
    ActiveDriverUnique [oddDriver 1] ∧
    createDriver quietApi [danaEmployee] [oddDriver 1] oddDriverBody =
      ([oddDriver 1, oddDriver 2], { status := 201, success := true }) ∧
    ¬ ActiveDriverUnique [oddDriver 1, oddDriver 2] := by
  decide

/-- C25 (amended): for a request whose `employeeId` is read alike by `Number`
and by `parseInt` (every JSON number is), `createDriver` keeps "each employeeId
has at most one ACTIVE driver"; and whatever the `employeeId`, a request with
status ACTIVE, or without a status, for an employee (as the lookup reads the
id) that already has an ACTIVE driver is answered 400 and leaves the Driver
collection as it was. -/
theorem createDriver_keeps_one_active_driver (env : ApiEnv) (employees : List Employee)
    (drivers : List Driver) (body : DriverBody) (hU : ActiveDriverUnique drivers)
    (hSame : body.employeeId.parseInt env.js = body.employeeId.cast env.js) :
    ActiveDriverUnique (createDriver env employees drivers body).1 ∧
    ((body.status = none ∨ body.status = some "ACTIVE") →
      (∃ d ∈ drivers, some d.employeeId = body.employeeId.cast env.js ∧ d.status = "ACTIVE") →
      createDriver env employees drivers body =
        (drivers, { status := 400, success := false })) := by
  rcases createDriver_cases env employees drivers body with h | ⟨row, key, h, hK, hE, hS, hF⟩
  · rw [h]
    exact ⟨hU, fun _ _ => rfl⟩
  · rw [h]
    have hrow : row.employeeId = key := by
      rw [hSame, hK] at hE
      exact (Option.some.inj hE).symm
    constructor
    · show ActiveDriverUnique (drivers ++ [row])
      unfold ActiveDriverUnique at hU ⊢
      rw [List.pairwise_append]
      refine ⟨hU, List.pairwise_singleton _ _, ?_⟩
      intro a ha b hb
      rw [List.mem_singleton] at hb
      subst hb
      rintro ⟨hae, has, hbs⟩
      have hfind : (drivers.find? (fun d => d.employeeId == key &&
          d.status == "ACTIVE")).isSome = true := by
        rw [List.find?_isSome]
        exact ⟨a, ha, by simp [← hrow, hae, has]⟩
      rw [hfind, ← hS, hbs] at hF
      simp at hF
    · intro hst hex
      exfalso
      obtain ⟨d, hd, hde, hds⟩ := hex
      rw [hK] at hde
      have hfind : (drivers.find? (fun d => d.employeeId == key &&
          d.status == "ACTIVE")).isSome = true := by
        rw [List.find?_isSome]
        exact ⟨d, hd, by simp [Option.some.inj hde, hds]⟩
      have hact : body.status.getD "ACTIVE" = "ACTIVE" := by
        rcases hst with h0 | h0 <;> simp [h0]
      rw [hfind, hact] at hF
      simp at hF

theorem createDriver_keeps_one_active_driver_witness :
    (ActiveDriverUnique [danaDriver] ∧
      secondDriverBody.employeeId.parseInt quietApi.js =
        secondDriverBody.employeeId.cast quietApi.js) ∧
    createDriver quietApi [danaEmployee] [danaDriver] secondDriverBody =
      ([danaDriver], { status := 400, success := false }) :=
  ⟨⟨by decide, rfl⟩,
   (createDriver_keeps_one_active_driver quietApi [danaEmployee] [danaDriver] secondDriverBody
      (by decide) rfl).2 (Or.inl rfl) ⟨danaDriver, by simp, rfl, rfl⟩⟩

/-! ## createCompany, createUser, createEmployee -/

theorem catchCreate_status (e : ApiError) : (catchCreate e).status ≠ 201 := by
  cases e <;> simp [catchCreate]

theorem any_matches_false {α : Type} (js : JsLib) (key : α → Nat) (x : ReqNumber) (l : List α)
    (h : l.any (fun c => x.matches js (key c)) = false) :
    ∀ c ∈ l, x.cast js ≠ some (key c) := by
  intro c hc hk
  rw [List.any_eq_false] at h
  exact h c hc (by simp [ReqNumber.matches, hk])

theorem createCompany_created (env : ApiEnv) (companies : List Company) (body : CompanyBody)
    (h : (createCompany env companies body).2.status = 201) :
    ∃ n row, body.id.falsy = false ∧ body.id.isNaN env.js = false ∧
      body.id.parseInt env.js = some n ∧
      (∀ c ∈ companies, body.id.cast env.js ≠ some c.id) ∧ row.id = n ∧
      createCompany env companies body =
        (companies ++ [row], { status := 201, success := true }) := by
  generalize hr : createCompany env companies body = r at h
  unfold createCompany at hr
  split at hr
  · subst hr; simp at h
  rename_i hg
  split at hr
  · subst hr; simp at h
  rename_i hn
  split at hr
  · subst hr; simp at h
  split at hr
  · subst hr; simp at h
  split at hr
  · subst hr; exact absurd h (catchCreate_status _)
  split at hr
  · subst hr; simp at h
  rename_i hex
  split at hr
  · subst hr; exact absurd h (catchCreate_status _)
  split at hr
  · subst hr; simp at h
  split at hr
  · subst hr; exact absurd h (catchCreate_status _)
  rename_i n hp
  split at hr
  · subst hr; exact absurd h (catchCreate_status _)
  simp only [Bool.or_eq_true, not_or, Bool.not_eq_true] at hg
  exact ⟨n, _, hg.1.1, by simpa using hn, hp,
    any_matches_false env.js (fun c => c.id) body.id companies (by simpa using hex), rfl,
    hr.symm⟩

theorem createUser_created (env : ApiEnv) (users : List User) (body : UserBody)
    (h : (createUser env users body).2.status = 201) :
    ∃ n row, body.id.falsy = false ∧ body.id.isNaN env.js = false ∧
      body.id.parseInt env.js = some n ∧
      (∀ u ∈ users, body.id.cast env.js ≠ some u.id) ∧ (∀ u ∈ users, u.id ≠ n) ∧ row.id = n ∧
      createUser env users body = (users ++ [row], { status := 201, success := true }) := by
  generalize hr : createUser env users body = r at h
  unfold createUser at hr
  split at hr
  · subst hr; simp at h
  rename_i hg
  split at hr
  · subst hr; simp at h
  rename_i hn
  split at hr
  · subst hr; simp at h
  split at hr
  · subst hr; simp at h
  split at hr
  · subst hr; exact absurd h (catchCreate_status _)
  split at hr
  · subst hr; simp at h
  rename_i hex
  split at hr
  · subst hr; exact absurd h (catchCreate_status _)
  split at hr
  · subst hr; simp at h
  split at hr
  · subst hr; exact absurd h (catchCreate_status _)
  rename_i n hp
  split at hr
  · subst hr; exact absurd h (catchCreate_status _)
  rename_i hdup
  split at hr
  · subst hr; exact absurd h (catchCreate_status _)
  simp only [Bool.or_eq_true, not_or, Bool.not_eq_true] at hg
  refine ⟨n, _, hg.1.1, by simpa using hn, hp,
    any_matches_false env.js (fun u => u.id) body.id users (by simpa using hex), ?_, rfl,
    hr.symm⟩
  intro u hu he
  apply hdup
  rw [List.any_eq_true]
  exact ⟨u, hu, by simp [he]⟩

theorem createEmployee_created (env : ApiEnv) (companies : List Company) (users : List User)
    (employees : List Employee) (body : EmployeeBody)
    (h : (createEmployee env companies users employees body).2.status = 201) :
    ∃ n row, body.id.falsy = false ∧ body.id.isNaN env.js = false ∧
      body.id.parseInt env.js = some n ∧
      (∀ x ∈ employees, body.id.cast env.js ≠ some x.id) ∧ row.id = n ∧
      createEmployee env companies users employees body =
        (employees ++ [row], { status := 201, success := true }) := by
  generalize hr : createEmployee env companies users employees body = r at h
  unfold createEmployee at hr
  split at hr
  · subst hr; simp at h
  rename_i hg
  split at hr
  · subst hr; simp at h
  rename_i hn
  split at hr
  · subst hr; simp at h
  split at hr
  · subst hr; exact absurd h (catchCreate_status _)
  split at hr
  · subst hr; simp at h
  split at hr
  · subst hr; exact absurd h (catchCreate_status _)
  split at hr
  · subst hr; simp at h
  split at hr
  · subst hr; exact absurd h (catchCreate_status _)
  split at hr
  · subst hr; simp at h
  rename_i hex
  split at hr
  · subst hr; exact absurd h (catchCreate_status _)
  split at hr
  · subst hr; simp at h
  split at hr
  · rename_i n c u hp _ _
    split at hr
    · subst hr; exact absurd h (catchCreate_status _)
    simp only [Bool.or_eq_true, not_or, Bool.not_eq_true] at hg hn
    exact ⟨n, _, hg.1.1, by simpa using hn.1.1, hp,
      any_matches_false env.js (fun x => x.id) body.id employees (by simpa using hex), rfl,
      hr.symm⟩
  · subst hr; exact absurd h (catchCreate_status _)

/-- C21 (as stated, refuted): with one company of id 3 stored, `createCompany`
answers 201 to a request carrying id 10 and stores the new company under id 10,
while the greatest stored id plus one is 4. -/
theorem createCompany_stores_request_id :
    (createCompany quietApi [acme] birchBody).2 = { status := 201, success := true } ∧
    (createCompany quietApi [acme] birchBody).1.map (fun c => c.id) = [3, 10] ∧
    specSequentialId ([acme].map (fun c => c.id)) = 4 := by
  decide

/-- C21 (amended): whenever `createCompany`, `createUser` or `createEmployee`
answers 201, the request carried an `id` that is truthy, that `isNaN` accepts
and that the lookup found on no stored record of the collection, and the
collection afterwards is the old one followed by one new record whose id is
`parseInt` of the request's id; no maximum is read. -/
theorem create_controllers_store_request_id :
    (∀ (env : ApiEnv) (companies : List Company) (body : CompanyBody),
      (createCompany env companies body).2.status = 201 →
      ∃ n row, body.id.falsy = false ∧ body.id.isNaN env.js = false ∧
        body.id.parseInt env.js = some n ∧
        (∀ c ∈ companies, body.id.cast env.js ≠ some c.id) ∧ row.id = n ∧
        createCompany env companies body =
          (companies ++ [row], { status := 201, success := true })) ∧
    (∀ (env : ApiEnv) (users : List User) (body : UserBody),
      (createUser env users body).2.status = 201 →
      ∃ n row, body.id.falsy = false ∧ body.id.isNaN env.js = false ∧
        body.id.parseInt env.js = some n ∧
        (∀ u ∈ users, body.id.cast env.js ≠ some u.id) ∧ (∀ u ∈ users, u.id ≠ n) ∧
        row.id = n ∧
        createUser env users body = (users ++ [row], { status := 201, success := true })) ∧
    (∀ (env : ApiEnv) (companies : List Company) (users : List User)
      (employees : List Employee) (body : EmployeeBody),
      (createEmployee env companies users employees body).2.status = 201 →
      ∃ n row, body.id.falsy = false ∧ body.id.isNaN env.js = false ∧
        body.id.parseInt env.js = some n ∧
        (∀ x ∈ employees, body.id.cast env.js ≠ some x.id) ∧ row.id = n ∧
        createEmployee env companies users employees body =
          (employees ++ [row], { status := 201, success := true })) :=
  ⟨createCompany_created, createUser_created, createEmployee_created⟩

/-- Witness for C21: a company with id 10, an employee with id 9 and a user whose
id is the string "0" are created; the user is stored under id 0. -/
theorem create_controllers_store_request_id_witness :
    ((createCompany quietApi [acme] birchBody).2.status = 201 ∧
      (createUser quietApi [dana] zeroBody).2.status = 201 ∧
      (createEmployee quietApi [acme] [dana] [danaEmployee] finnBody).2.status = 201) ∧
    (createUser quietApi [dana] zeroBody).1.map (fun u => u.id) = [5, 0] ∧
    (∃ n row, birchBody.id.falsy = false ∧ birchBody.id.isNaN quietApi.js = false ∧
      birchBody.id.parseInt quietApi.js = some n ∧
      (∀ c ∈ [acme], birchBody.id.cast quietApi.js ≠ some c.id) ∧ row.id = n ∧
      createCompany quietApi [acme] birchBody =
        ([acme] ++ [row], { status := 201, success := true })) ∧
    (∃ n row, zeroBody.id.falsy = false ∧ zeroBody.id.isNaN quietApi.js = false ∧
      zeroBody.id.parseInt quietApi.js = some n ∧
      (∀ u ∈ [dana], zeroBody.id.cast quietApi.js ≠ some u.id) ∧ (∀ u ∈ [dana], u.id ≠ n) ∧
      row.id = n ∧
      createUser quietApi [dana] zeroBody =
        ([dana] ++ [row], { status := 201, success := true })) ∧
    (∃ n row, finnBody.id.falsy = false ∧ finnBody.id.isNaN quietApi.js = false ∧
      finnBody.id.parseInt quietApi.js = some n ∧
      (∀ x ∈ [danaEmployee], finnBody.id.cast quietApi.js ≠ some x.id) ∧ row.id = n ∧
      createEmployee quietApi [acme] [dana] [danaEmployee] finnBody =
        ([danaEmployee] ++ [row], { status := 201, success := true })) :=
  ⟨⟨by decide, by decide, by decide⟩, by decide,
   create_controllers_store_request_id.1 quietApi [acme] birchBody (by decide),
   create_controllers_store_request_id.2.1 quietApi [dana] zeroBody (by decide),
   create_controllers_store_request_id.2.2 quietApi [acme] [dana] [danaEmployee] finnBody
     (by decide)⟩

end ProjectMaster
